import Mathlib

/-!
# sqlite-jna native bridge: callback contexts, trampolines and group slots

A shallow embedding of `src/main/native/sqlite_jni.c` and of the dispatch
table built by `src/main/resources/include/vtab.h`.

The C functions run against two external collaborators, the database engine
(`sqlite3_*`) and the managed runtime (JNI).  Both are kept as explicit data:

* `World` holds everything a bridge function can read or write: the bytes of
  the context blocks, the static `logger_cc`, the engine's hook slots, user
  data and aggregate slot blocks, the pending exception, element 0 of each
  output array, the weak references whose object was collected, and `log`,
  the list of effects in program order.
* `Ext` holds the answers the collaborators give during one bridge call
  (method lookup, allocator, engine result code, string conversion);
  `Managed` holds the outcome of one call of a managed method; `LoadExt` and
  `StmtExt` hold the answers during one load_extension, prepare or bind_text
  call.
* A managed string is passed as its reference together with its UTF-16 code
  units; `pinned` is the memory read while its characters are handed out.
* The lambdas of `vtab.h` run against `VWorld`, which logs the constructions,
  destructions and virtual method calls of table and cursor objects.

Addresses, JNI references and method identifiers are natural numbers, `0`
being `NULL`.  `size_t` and `jlong` are 64 bits wide.  The engine follows its
documented contract: `sqlite3_trace`, `sqlite3_profile` and
`sqlite3_update_hook` return the user data registered before,
`sqlite3_free(NULL)` does nothing, a registration that returns an error code
leaves the slot as it was, and `sqlite3_aggregate_context` hands back the
block of the group a function context belongs to, allocating it zeroed on the
first request with a positive size.  The model names a group's slot by the
handle of its function context.
-/

namespace SqliteJni

/-- Native address; `0` is `NULL`. -/
abbrev Ptr := Nat

/-- JNI reference (`jobject`, `jstring`, `jlongArray`); `0` is `null`. -/
abbrev JObject := Nat

/-- JNI method identifier; `0` means the lookup found nothing. -/
abbrev JMethodID := Nat

def SQLITE_OK : Int := 0

def SQLITE_NOMEM : Int := 7

def SQLITE_CONFIG_LOG : Int := 16

/-- `#define PTR_TO_JLONG(ptr) ((jlong)(size_t)(ptr))` with 64-bit `size_t`. -/
def PTR_TO_JLONG (p : Ptr) : Int :=
  if p % 2 ^ 64 < 2 ^ 63 then ((p % 2 ^ 64 : Nat) : Int) else ((p % 2 ^ 64 : Nat) : Int) - 2 ^ 64

/-- `#define JLONG_TO_PTR(jl) ((void *)(size_t)(jl))` with 64-bit `size_t`. -/
def JLONG_TO_PTR (jl : Int) : Ptr :=
  (jl % 2 ^ 64).toNat

/-- `#define JLONG_TO_SQLITE3_CTX_PTR(jl) ((sqlite3_context *)(size_t)(jl))`. -/
def JLONG_TO_SQLITE3_CTX_PTR (jl : Int) : Ptr :=
  (jl % 2 ^ 64).toNat

/-- `#define JLONG_TO_SQLITE3_PTR(jl) ((sqlite3 *)(size_t)(jl))`. -/
def JLONG_TO_SQLITE3_PTR (jl : Int) : Ptr :=
  (jl % 2 ^ 64).toNat

/-- The `callback_context` struct. -/
structure callback_context where
  vm : Nat
  mid : JMethodID
  obj : JObject
deriving DecidableEq, Repr

/-- The `udf_callback_context` struct. -/
structure udf_callback_context where
  vm : Nat
  mid : JMethodID
  cid : JMethodID
  obj : JObject
  fid : JMethodID
  fobj : JObject
deriving DecidableEq, Repr

/-- The static C functions whose addresses are handed to the engine. -/
inductive Trampoline where
  | my_log
  | busy
  | progress
  | trace
  | profile
  | update_hook
  | authorizer
  | func_or_step
  | final_step
  | free_udf_callback_context
deriving DecidableEq, Repr

/-- The engine's hook slots the bridge registers into. -/
inductive HookKind where
  | log
  | busy
  | progress
  | trace
  | profile
  | update
  | authorizer
deriving DecidableEq, Repr

/-- One hook slot of the engine: the callback and the user-data pointer. -/
structure Slot where
  cb : Option Trampoline
  udp : Ptr
deriving DecidableEq, Repr

/-- An argument passed to a managed method: a number as the C variable holds
it, the managed string made from the C string at an address, or a JNI
reference. -/
inductive Arg where
  | num (v : Int)
  | str (z : Ptr)
  | ref (o : JObject)
deriving DecidableEq, Repr

/-- What `SetObjectArrayElement` stores in element 0 of an object array:
`null`, the string `NewStringUTF` made from the C string at an address, or
a reference to a string `NewString` made. -/
inductive Element where
  | null
  | utf (z : Ptr)
  | ref (o : JObject)
deriving DecidableEq, Repr

/-- Effects on the collaborators, recorded in program order.  `register` is a
call of one of the engine's hook registration functions with the callback and
user data passed and the code returned (`SQLITE_OK` for the functions that
return none); `nOps` is the operation count of `sqlite3_progress_handler`,
the option number of `sqlite3_config`, and 0 otherwise; the log slot is
global, its `db` is 0. -/
inductive Event where
  | malloc (p : Ptr)
  | free (p : Ptr)
  | newWeakRef (ref : JObject) (obj : JObject)
  | delWeakRef (ref : JObject)
  | attach (vm : Nat)
  | throwNew (msg : String)
  | getObjectClass (obj : JObject)
  | deleteLocalClass (obj : JObject)
  | register (k : HookKind) (db : Ptr) (nOps : Int) (cb : Option Trampoline) (udp : Ptr) (rc : Int)
  | createFunction (db : Ptr) (zName : Ptr) (nArg : Int) (eTextRep : Int) (udp : Ptr)
      (xFunc : Option Trampoline) (xStep : Option Trampoline) (xFinal : Option Trampoline)
      (xDestroy : Option Trampoline) (rc : Int)
  | getStringUTFChars (s : JObject) (z : Ptr)
  | releaseStringUTFChars (s : JObject) (z : Ptr)
  | setLongArrayRegion (arr : JObject) (v : Int)
  | newStringUTF (z : Ptr)
  | deleteLocalString (z : Ptr)
  | callMethod (obj : JObject) (mid : JMethodID) (args : List Arg)
  | detach (vm : Nat)
  | aggregateContext (ctx : Ptr) (nBytes : Int)
  | newLongArray (n : Int) (arr : JObject)
  | setLongArrayValues (arr : JObject) (vs : List Ptr)
  | deleteLocalArray (arr : JObject)
  | resultErrorNomem (ctx : Ptr)
  | loadExtension (db : Ptr) (zFile : Ptr) (zProc : Ptr) (zErrMsg : Ptr) (rc : Int)
  | setObjectArrayElement (arr : JObject) (v : Element)
  | getStringCritical (s : JObject) (z : Ptr)
  | releaseStringCritical (s : JObject) (z : Ptr)
  | prepare16 (db : Ptr) (zSql : Ptr) (nByte : Int) (pStmt : Ptr) (zTail : Ptr) (rc : Int)
  | newString (ref : JObject) (us : List Nat)
  | deleteLocalRef (o : JObject)
  | bindNull (stmt : Ptr) (i : Int) (rc : Int)
  | bindText16 (stmt : Ptr) (i : Int) (text : List Nat) (nBytes : Int) (transient : Bool)
      (rc : Int)
deriving DecidableEq, Repr

/-- Everything a bridge function can read or write. -/
structure World where
  /-- Bytes at an address viewed as a `callback_context`. -/
  cc_at : Ptr → callback_context
  /-- Bytes at an address viewed as a `udf_callback_context`. -/
  udf_at : Ptr → udf_callback_context
  /-- The `static callback_context *logger_cc`. -/
  logger_cc : Ptr
  /-- Engine hook slots, per kind and connection (the log slot is global). -/
  hook : HookKind → Ptr → Slot
  /-- The pending managed exception, if any. -/
  pending : Option String
  /-- Element 0 of each `long[]` the caller passed in. -/
  longArray : JObject → Int
  /-- The process's `JavaVM`. -/
  javaVM : Nat
  /-- Counter naming the weak global references handed out so far. -/
  weakCount : Nat
  /-- The engine's `sqlite3_user_data` of each function context. -/
  user_data : Ptr → Ptr
  /-- The engine's aggregate slot block of the group each function context
  belongs to: `none` while the engine has not allocated it, else the
  `jobject` stored in the block (`0` in a zeroed block). -/
  aggregate : Ptr → Option JObject
  /-- The weak global references whose object the collector has reclaimed. -/
  collected : List JObject
  /-- Effects so far, oldest first. -/
  log : List Event

/-- Answers of the collaborators during one bridge call. -/
structure Ext where
  /-- Result of `GetMethodID` for the hook method. -/
  mid : JMethodID
  /-- Result of `GetMethodID` for `createAggregateContext`. -/
  cid : JMethodID
  /-- Result of `GetMethodID` for the finalizer `callback`. -/
  fid : JMethodID
  /-- Result of `sqlite3_malloc`; `0` is out of memory. -/
  block : Ptr
  /-- Result code of the engine's registration call. -/
  rc : Int
  /-- Result of `GetStringUTFChars`; `0` is out of memory. -/
  chars : Ptr

/-- Outcome of one call of a managed method: the value the JNI call hands
back and whether the method raised. -/
structure Managed where
  raw : Int
  threw : Bool

/-- A world with nothing registered and nothing allocated. -/
def World.init : World where
  cc_at := fun _ => ⟨0, 0, 0⟩
  udf_at := fun _ => ⟨0, 0, 0, 0, 0, 0⟩
  logger_cc := 0
  hook := fun _ _ => ⟨none, 0⟩
  pending := none
  longArray := fun _ => 0
  javaVM := 1
  weakCount := 0
  user_data := fun _ => 0
  aggregate := fun _ => none
  collected := []
  log := []

/-- Append one effect to the log. -/
def World.emit (w : World) (e : Event) : World :=
  { w with log := w.log ++ [e] }

/-- The blocks released by the events of a log, in order. -/
def frees : List Event → List Ptr
  | [] => []
  | Event.free p :: es => p :: frees es
  | _ :: es => frees es

/-- The answers of the allocator to the requests of a log, in order. -/
def mallocs : List Event → List Ptr
  | [] => []
  | Event.malloc p :: es => p :: mallocs es
  | _ :: es => mallocs es

/-- The weak references deleted in a log, in order. -/
def delWeakRefs : List Event → List JObject
  | [] => []
  | Event.delWeakRef r :: es => r :: delWeakRefs es
  | _ :: es => delWeakRefs es

/-- The thread detachments of a log, in order. -/
def detaches : List Event → List Nat
  | [] => []
  | Event.detach vm :: es => vm :: detaches es
  | _ :: es => detaches es

/-- The managed method calls of a log, in order: target reference, method
identifier, arguments. -/
def managedCalls : List Event → List (JObject × JMethodID × List Arg)
  | [] => []
  | Event.callMethod obj mid args :: es => (obj, mid, args) :: managedCalls es
  | _ :: es => managedCalls es

/-- The weak references created in a log, in order: reference, object. -/
def newWeakRefs : List Event → List (JObject × JObject)
  | [] => []
  | Event.newWeakRef r o :: es => (r, o) :: newWeakRefs es
  | _ :: es => newWeakRefs es

/-- The collector reclaims the object a weak global reference names. -/
def World.gc (w : World) (ref : JObject) : World :=
  { w with collected := ref :: w.collected }

/-- The thread attachments of a log, in order. -/
def attaches : List Event → List Nat
  | [] => []
  | Event.attach vm :: es => vm :: attaches es
  | _ :: es => attaches es

/-- Whether an event is a registration call into the engine. -/
def Event.isEngineCall : Event → Bool
  | Event.register _ _ _ _ _ _ => true
  | Event.createFunction _ _ _ _ _ _ _ _ _ _ => true
  | _ => false

/-- The registration calls made into the engine in a log, in order. -/
def engineCalls (l : List Event) : List Event :=
  l.filter Event.isEngineCall

/-! ## The engine (external): allocator and hook registration -/

/-- `sqlite3_malloc`: the allocator answers `blk`; `0` is out of memory.  The
request is recorded either way. -/
def sqlite3_malloc (w : World) (blk : Ptr) : Ptr × World :=
  (blk, w.emit (Event.malloc blk))

/-- `sqlite3_free`: a no-op on `NULL`, otherwise the block is released. -/
def sqlite3_free (w : World) (p : Ptr) : World :=
  if p = 0 then w else w.emit (Event.free p)

/-- Store a slot of the engine. -/
def World.setHook (w : World) (k : HookKind) (db : Ptr) (s : Slot) : World :=
  { w with hook := Function.update w.hook k (Function.update (w.hook k) db s) }

/-- `sqlite3_config(op, xLog, pArg)`: on success with `SQLITE_CONFIG_LOG` the
global logger slot is replaced; the engine's code `rc` is returned. -/
def sqlite3_config (w : World) (rc : Int) (op : Int) (cb : Option Trampoline) (udp : Ptr) :
    Int × World :=
  let w1 := w.emit (Event.register HookKind.log 0 op cb udp rc)
  if rc = SQLITE_OK ∧ op = SQLITE_CONFIG_LOG then (rc, w1.setHook HookKind.log 0 ⟨cb, udp⟩)
  else (rc, w1)

/-- `sqlite3_busy_handler(db, xBusy, pArg)`: on success the slot is replaced. -/
def sqlite3_busy_handler (w : World) (rc : Int) (db : Ptr) (cb : Option Trampoline) (udp : Ptr) :
    Int × World :=
  let w1 := w.emit (Event.register HookKind.busy db 0 cb udp rc)
  if rc = SQLITE_OK then (rc, w1.setHook HookKind.busy db ⟨cb, udp⟩) else (rc, w1)

/-- `sqlite3_progress_handler(db, nOps, xProgress, pArg)`: the handler is
installed when `nOps > 0`, and disabled otherwise. -/
def sqlite3_progress_handler (w : World) (db : Ptr) (nOps : Int) (cb : Option Trampoline)
    (udp : Ptr) : World :=
  let w1 := w.emit (Event.register HookKind.progress db nOps cb udp SQLITE_OK)
  if 0 < nOps then w1.setHook HookKind.progress db ⟨cb, udp⟩
  else w1.setHook HookKind.progress db ⟨none, 0⟩

/-- `sqlite3_trace(db, xTrace, pArg)`: replaces the slot and returns the
user-data pointer registered before. -/
def sqlite3_trace (w : World) (db : Ptr) (cb : Option Trampoline) (udp : Ptr) : Ptr × World :=
  let w1 := w.emit (Event.register HookKind.trace db 0 cb udp SQLITE_OK)
  ((w.hook HookKind.trace db).udp, w1.setHook HookKind.trace db ⟨cb, udp⟩)

/-- `sqlite3_profile(db, xProfile, pArg)`: replaces the slot and returns the
user-data pointer registered before. -/
def sqlite3_profile (w : World) (db : Ptr) (cb : Option Trampoline) (udp : Ptr) : Ptr × World :=
  let w1 := w.emit (Event.register HookKind.profile db 0 cb udp SQLITE_OK)
  ((w.hook HookKind.profile db).udp, w1.setHook HookKind.profile db ⟨cb, udp⟩)

/-- `sqlite3_update_hook(db, xCallback, pArg)`: replaces the slot and returns
the user-data pointer registered before. -/
def sqlite3_update_hook (w : World) (db : Ptr) (cb : Option Trampoline) (udp : Ptr) :
    Ptr × World :=
  let w1 := w.emit (Event.register HookKind.update db 0 cb udp SQLITE_OK)
  ((w.hook HookKind.update db).udp, w1.setHook HookKind.update db ⟨cb, udp⟩)

/-- `sqlite3_set_authorizer(db, xAuth, pUserData)`: on success the slot is
replaced. -/
def sqlite3_set_authorizer (w : World) (rc : Int) (db : Ptr) (cb : Option Trampoline)
    (udp : Ptr) : Int × World :=
  let w1 := w.emit (Event.register HookKind.authorizer db 0 cb udp rc)
  if rc = SQLITE_OK then (rc, w1.setHook HookKind.authorizer db ⟨cb, udp⟩) else (rc, w1)

/-- `sqlite3_aggregate_context(ctx, nBytes)`: whether a slot block is handed
back. A block allocated earlier for the group is handed back again; else,
when `nBytes > 0` and the allocator answers (`blk ≠ 0`), a zeroed block is
allocated; else `NULL` is returned. -/
def sqlite3_aggregate_context (w : World) (blk : Ptr) (ctx : Ptr) (nBytes : Int) :
    Bool × World :=
  let w1 := w.emit (Event.aggregateContext ctx nBytes)
  match w.aggregate ctx with
  | some _ => (true, w1)
  | none =>
    if 0 < nBytes ∧ blk ≠ 0 then
      (true, { w1 with aggregate := Function.update w1.aggregate ctx (some 0) })
    else (false, w1)

/-- `sqlite3_user_data(ctx)`. -/
def sqlite3_user_data (w : World) (ctx : Ptr) : Ptr :=
  w.user_data ctx

/-- `sqlite3_result_error_nomem(ctx)`. -/
def sqlite3_result_error_nomem (w : World) (ctx : Ptr) : World :=
  w.emit (Event.resultErrorNomem ctx)

/-! ## The managed runtime (external) -/

/-- `GetMethodID`: answers `mid`; a failed lookup leaves `NoSuchMethodError`
pending. -/
def GetMethodID (w : World) (mid : JMethodID) : JMethodID × World :=
  if mid = 0 then
    (0, { w with pending := some (w.pending.getD "NoSuchMethodError") })
  else (mid, w)

/-- `NewWeakGlobalRef`: `null` for `null`, otherwise a new reference. -/
def WEAK_GLOBAL_REF (w : World) (v : JObject) : JObject × World :=
  if v = 0 then (0, w)
  else (w.weakCount + 1,
    { w with weakCount := w.weakCount + 1 }.emit (Event.newWeakRef (w.weakCount + 1) v))

/-- `DeleteWeakGlobalRef`. -/
def DEL_WEAK_GLOBAL_REF (w : World) (v : JObject) : World :=
  w.emit (Event.delWeakRef v)

/-- `SetLongArrayRegion(env, arr, 0, 1, &p)`. -/
def SetLongArrayRegion (w : World) (arr : JObject) (p : Int) : World :=
  { w with longArray := Function.update w.longArray arr p }.emit (Event.setLongArrayRegion arr p)

/-- `GetStringUTFChars`: answers `z`; `0` leaves `OutOfMemoryError` pending. -/
def GetStringUTFChars (w : World) (s : JObject) (z : Ptr) : Ptr × World :=
  if z = 0 then (0, { w with pending := some (w.pending.getD "OutOfMemoryError") })
  else (z, w.emit (Event.getStringUTFChars s z))

/-- `ReleaseStringUTFChars`. -/
def ReleaseStringUTFChars (w : World) (s : JObject) (z : Ptr) : World :=
  w.emit (Event.releaseStringUTFChars s z)

/-- `AttachCurrentThread`. -/
def AttachCurrentThread (w : World) (vm : Nat) : World :=
  w.emit (Event.attach vm)

/-- `NewStringUTF`. -/
def NewStringUTF (w : World) (z : Ptr) : World :=
  w.emit (Event.newStringUTF z)

/-- `DeleteLocalRef` on a string made by `NewStringUTF`. -/
def DeleteLocalString (w : World) (z : Ptr) : World :=
  w.emit (Event.deleteLocalString z)

/-- `ExceptionCheck`. -/
def ExceptionCheck (w : World) : Bool :=
  w.pending.isSome

/-- `CallBooleanMethod`: the value comes back as a `jboolean` (8 bits,
unsigned); a raising method leaves its exception pending. -/
def CallBooleanMethod (w : World) (m : Managed) (obj : JObject) (mid : JMethodID)
    (args : List Arg) : Int × World :=
  let w1 := w.emit (Event.callMethod obj mid args)
  (m.raw % 2 ^ 8, if m.threw then { w1 with pending := some (w1.pending.getD "Throwable") } else w1)

/-- `CallIntMethod`: the value comes back as a `jint` (32 bits, signed); a
raising method leaves its exception pending. -/
def CallIntMethod (w : World) (m : Managed) (obj : JObject) (mid : JMethodID)
    (args : List Arg) : Int × World :=
  let w1 := w.emit (Event.callMethod obj mid args)
  ((m.raw + 2 ^ 31) % 2 ^ 32 - 2 ^ 31,
    if m.threw then { w1 with pending := some (w1.pending.getD "Throwable") } else w1)

/-- `CallVoidMethod`: a raising method leaves its exception pending. -/
def CallVoidMethod (w : World) (m : Managed) (obj : JObject) (mid : JMethodID)
    (args : List Arg) : World :=
  let w1 := w.emit (Event.callMethod obj mid args)
  if m.threw then { w1 with pending := some (w1.pending.getD "Throwable") } else w1

/-- `CallObjectMethod`: the value comes back as a `jobject`; a raising method
leaves its exception pending. -/
def CallObjectMethod (w : World) (m : Managed) (obj : JObject) (mid : JMethodID)
    (args : List Arg) : JObject × World :=
  let w1 := w.emit (Event.callMethod obj mid args)
  (m.raw.toNat,
    if m.threw then { w1 with pending := some (w1.pending.getD "Throwable") } else w1)

/-- `NewLongArray`: answers `arr`; `0` leaves `OutOfMemoryError` pending. -/
def NewLongArray (w : World) (n : Int) (arr : JObject) : JObject × World :=
  if arr = 0 then (0, { w with pending := some (w.pending.getD "OutOfMemoryError") })
  else (arr, w.emit (Event.newLongArray n arr))

/-- `SetLongArrayRegion(env, b, 0, argc, argv)`. -/
def SetLongArrayValues (w : World) (arr : JObject) (vs : List Ptr) : World :=
  w.emit (Event.setLongArrayValues arr vs)

/-- `DeleteLocalRef` on an array made by `NewLongArray`. -/
def DeleteLocalArray (w : World) (arr : JObject) : World :=
  w.emit (Event.deleteLocalArray arr)

/-- `sqlite3_create_function_v2`: the call is recorded with the engine's
code `rc`. -/
def sqlite3_create_function_v2 (w : World) (rc : Int) (db : Ptr) (zName : Ptr) (nArg : Int)
    (eTextRep : Int) (udp : Ptr) (xFunc : Option Trampoline) (xStep : Option Trampoline)
    (xFinal : Option Trampoline) (xDestroy : Option Trampoline) : Int × World :=
  (rc, w.emit (Event.createFunction db zName nArg eTextRep udp xFunc xStep xFinal xDestroy rc))

/-! ## `sqlite_jni.c` -/

/-- The static `throwException`. -/
def throwException (w : World) (message : String) : World :=
  if w.pending.isSome then w
  else { w with pending := some message }.emit (Event.throwNew message)

/-- The static `create_callback_context`. -/
def create_callback_context (w : World) (blk : Ptr) (mid : JMethodID) (obj : JObject) :
    Ptr × World :=
  let a := sqlite3_malloc w blk
  let cc := a.1
  if cc = 0 then
    (cc, throwException a.2 "OOM")
  else
    let w1 := { a.2 with cc_at := Function.update a.2.cc_at cc { a.2.cc_at cc with vm := a.2.javaVM } }
    let w2 := { w1 with cc_at := Function.update w1.cc_at cc { w1.cc_at cc with mid := mid } }
    let r := WEAK_GLOBAL_REF w2 obj
    let w3 := { r.2 with cc_at := Function.update r.2.cc_at cc { r.2.cc_at cc with obj := r.1 } }
    (cc, w3)

/-- The static `free_callback_context`. -/
def free_callback_context (w : World) (p : Ptr) : World :=
  let w1 := if p ≠ 0 then DEL_WEAK_GLOBAL_REF w (w.cc_at p).obj else w
  sqlite3_free w1 p

/-- `Java_org_sqlite_SQLite_sqlite3_1trace`. -/
def Java_org_sqlite_SQLite_sqlite3_1trace (w : World) (e : Ext) (pDb : Int) (xTrace : JObject) :
    Int × World :=
  if xTrace = 0 then
    let r := sqlite3_trace w (JLONG_TO_SQLITE3_PTR pDb) none 0
    (0, free_callback_context r.2 r.1)
  else
    let w1 := w.emit (Event.getObjectClass xTrace)
    let m := GetMethodID w1 e.mid
    let w2 := m.2.emit (Event.deleteLocalClass xTrace)
    if m.1 = 0 then
      (0, throwException w2 "expected 'void trace(String)' method")
    else
      let c := create_callback_context w2 e.block m.1 xTrace
      if c.1 = 0 then
        (0, c.2)
      else
        let r := sqlite3_trace c.2 (JLONG_TO_SQLITE3_PTR pDb) (some Trampoline.trace) c.1
        (PTR_TO_JLONG c.1, free_callback_context r.2 r.1)

/-- `Java_org_sqlite_SQLite_sqlite3_1profile`. -/
def Java_org_sqlite_SQLite_sqlite3_1profile (w : World) (e : Ext) (pDb : Int)
    (xProfile : JObject) : Int × World :=
  if xProfile = 0 then
    let r := sqlite3_profile w (JLONG_TO_SQLITE3_PTR pDb) none 0
    (0, free_callback_context r.2 r.1)
  else
    let w1 := w.emit (Event.getObjectClass xProfile)
    let m := GetMethodID w1 e.mid
    let w2 := m.2.emit (Event.deleteLocalClass xProfile)
    if m.1 = 0 then
      (0, throwException w2 "expected 'void profile(String, long)' method")
    else
      let c := create_callback_context w2 e.block m.1 xProfile
      if c.1 = 0 then
        (0, c.2)
      else
        let r := sqlite3_profile c.2 (JLONG_TO_SQLITE3_PTR pDb) (some Trampoline.profile) c.1
        (PTR_TO_JLONG c.1, free_callback_context r.2 r.1)

/-- `Java_org_sqlite_SQLite_sqlite3_1update_1hook`. -/
def Java_org_sqlite_SQLite_sqlite3_1update_1hook (w : World) (e : Ext) (pDb : Int)
    (xUpdateHook : JObject) : Int × World :=
  if xUpdateHook = 0 then
    let r := sqlite3_update_hook w (JLONG_TO_SQLITE3_PTR pDb) none 0
    (0, free_callback_context r.2 r.1)
  else
    let w1 := w.emit (Event.getObjectClass xUpdateHook)
    let m := GetMethodID w1 e.mid
    let w2 := m.2.emit (Event.deleteLocalClass xUpdateHook)
    if m.1 = 0 then
      (0, throwException w2 "expected 'void update(int, String, String, long)' method")
    else
      let c := create_callback_context w2 e.block m.1 xUpdateHook
      if c.1 = 0 then
        (0, c.2)
      else
        let r := sqlite3_update_hook c.2 (JLONG_TO_SQLITE3_PTR pDb)
          (some Trampoline.update_hook) c.1
        (PTR_TO_JLONG c.1, free_callback_context r.2 r.1)

/-- `Java_org_sqlite_SQLite_sqlite3_1config__ILorg_sqlite_SQLite_LogCallback_2`. -/
def Java_org_sqlite_SQLite_sqlite3_1config__ILorg_sqlite_SQLite_LogCallback_2 (w : World) (e : Ext) (op : Int)
    (xLog : JObject) : Int × World :=
  if xLog = 0 then
    let r := sqlite3_config w e.rc op none 0
    if r.1 = SQLITE_OK then
      (r.1, free_callback_context r.2 r.2.logger_cc)
    else
      (r.1, r.2)
  else
    let w1 := w.emit (Event.getObjectClass xLog)
    let m := GetMethodID w1 e.mid
    let w2 := m.2.emit (Event.deleteLocalClass xLog)
    if m.1 = 0 then
      (-1, throwException w2 "expected 'void log(int, String)' method")
    else
      let c := create_callback_context w2 e.block m.1 xLog
      if c.1 = 0 then
        (SQLITE_NOMEM, c.2)
      else
        let r := sqlite3_config c.2 e.rc op (some Trampoline.my_log) c.1
        if r.1 = SQLITE_OK then
          let w3 := free_callback_context r.2 r.2.logger_cc
          (r.1, { w3 with logger_cc := c.1 })
        else
          (r.1, r.2)

/-- The static `busy` trampoline. -/
def busy (w : World) (m : Managed) (udp : Ptr) (count : Int) : Int × World :=
  let cc := w.cc_at udp
  let w1 := AttachCurrentThread w cc.vm
  let r := CallBooleanMethod w1 m cc.obj cc.mid [Arg.num count]
  let busy := r.1
  if ExceptionCheck r.2 then
    (busy, r.2)
  else
    (busy, r.2)

/-- `Java_org_sqlite_SQLite_sqlite3_1busy_1handler`. -/
def Java_org_sqlite_SQLite_sqlite3_1busy_1handler (w : World) (e : Ext) (pDb : Int)
    (xBusy : JObject) (pCc : JObject) : Int × World :=
  if xBusy = 0 then
    sqlite3_busy_handler w e.rc (JLONG_TO_SQLITE3_PTR pDb) none 0
  else
    let w1 := w.emit (Event.getObjectClass xBusy)
    let m := GetMethodID w1 e.mid
    let w2 := m.2.emit (Event.deleteLocalClass xBusy)
    if m.1 = 0 then
      (0, throwException w2 "expected 'boolean busy(int)' method")
    else
      let c := create_callback_context w2 e.block m.1 xBusy
      if c.1 = 0 then
        (SQLITE_NOMEM, c.2)
      else
        let w3 := SetLongArrayRegion c.2 pCc (PTR_TO_JLONG c.1)
        sqlite3_busy_handler w3 e.rc (JLONG_TO_SQLITE3_PTR pDb) (some Trampoline.busy) c.1

/-- `Java_org_sqlite_SQLite_free_1callback_1context`. -/
def Java_org_sqlite_SQLite_free_1callback_1context (w : World) (p : Int) : World :=
  free_callback_context w (JLONG_TO_PTR p)

/-- The static `progress` trampoline. -/
def progress (w : World) (m : Managed) (udp : Ptr) : Int × World :=
  let cc := w.cc_at udp
  let w1 := AttachCurrentThread w cc.vm
  let r := CallBooleanMethod w1 m cc.obj cc.mid []
  let progress := r.1
  if ExceptionCheck r.2 then
    (progress, r.2)
  else
    (progress, r.2)

/-- `Java_org_sqlite_SQLite_sqlite3_1progress_1handler`. -/
def Java_org_sqlite_SQLite_sqlite3_1progress_1handler (w : World) (e : Ext) (pDb : Int)
    (nOps : Int) (xProgress : JObject) : Int × World :=
  if xProgress = 0 then
    (0, sqlite3_progress_handler w (JLONG_TO_SQLITE3_PTR pDb) 0 none 0)
  else
    let w1 := w.emit (Event.getObjectClass xProgress)
    let m := GetMethodID w1 e.mid
    let w2 := m.2.emit (Event.deleteLocalClass xProgress)
    if m.1 = 0 then
      (0, throwException w2 "expected 'boolean progress()' method")
    else
      let c := create_callback_context w2 e.block m.1 xProgress
      if c.1 = 0 then
        (0, c.2)
      else
        (PTR_TO_JLONG c.1,
          sqlite3_progress_handler c.2 (JLONG_TO_SQLITE3_PTR pDb) nOps
            (some Trampoline.progress) c.1)

/-- The static `authorizer` trampoline. -/
def authorizer (w : World) (m : Managed) (arg : Ptr) (actionCode : Int) (zArg1 : Ptr)
    (zArg2 : Ptr) (zDbName : Ptr) (zTriggerName : Ptr) : Int × World :=
  let cc := w.cc_at arg
  let w1 := AttachCurrentThread w cc.vm
  let w2 := NewStringUTF w1 zArg1
  let w3 := NewStringUTF w2 zArg2
  let w4 := NewStringUTF w3 zDbName
  let w5 := NewStringUTF w4 zTriggerName
  let r := CallIntMethod w5 m cc.obj cc.mid
    [Arg.num actionCode, Arg.str zArg1, Arg.str zArg2, Arg.str zDbName, Arg.str zTriggerName]
  let authorize := r.1
  let w6 := DeleteLocalString r.2 zArg1
  let w7 := DeleteLocalString w6 zArg2
  let w8 := DeleteLocalString w7 zDbName
  let w9 := DeleteLocalString w8 zTriggerName
  if ExceptionCheck w9 then
    (authorize, w9)
  else
    (authorize, w9)

/-- `Java_org_sqlite_SQLite_sqlite3_1set_1authorizer`. -/
def Java_org_sqlite_SQLite_sqlite3_1set_1authorizer (w : World) (e : Ext) (pDb : Int)
    (xAuthorizer : JObject) (pCc : JObject) : Int × World :=
  if xAuthorizer = 0 then
    sqlite3_set_authorizer w e.rc (JLONG_TO_SQLITE3_PTR pDb) none 0
  else
    let w1 := w.emit (Event.getObjectClass xAuthorizer)
    let m := GetMethodID w1 e.mid
    let w2 := m.2.emit (Event.deleteLocalClass xAuthorizer)
    if m.1 = 0 then
      (SQLITE_NOMEM,
        throwException w2 "expected 'int authorize(int, String, String, String, String)' method")
    else
      let c := create_callback_context w2 e.block m.1 xAuthorizer
      if c.1 = 0 then
        (SQLITE_NOMEM, c.2)
      else
        let w3 := SetLongArrayRegion c.2 pCc (PTR_TO_JLONG c.1)
        sqlite3_set_authorizer w3 e.rc (JLONG_TO_SQLITE3_PTR pDb) (some Trampoline.authorizer) c.1

/-- The static `create_udf_callback_context`. -/
def create_udf_callback_context (w : World) (blk : Ptr) (mid : JMethodID) (cid : JMethodID)
    (obj : JObject) (fid : JMethodID) (fobj : JObject) : Ptr × World :=
  let a := sqlite3_malloc w blk
  let cc := a.1
  if cc = 0 then
    (cc, throwException a.2 "OOM")
  else
    let w1 := { a.2 with udf_at := Function.update a.2.udf_at cc { a.2.udf_at cc with vm := a.2.javaVM } }
    let w2 := { w1 with udf_at := Function.update w1.udf_at cc { w1.udf_at cc with mid := mid } }
    let w3 := { w2 with udf_at := Function.update w2.udf_at cc { w2.udf_at cc with cid := cid } }
    let r := WEAK_GLOBAL_REF w3 obj
    let w4 := { r.2 with udf_at := Function.update r.2.udf_at cc { r.2.udf_at cc with obj := r.1 } }
    let w5 := { w4 with udf_at := Function.update w4.udf_at cc { w4.udf_at cc with fid := fid } }
    if fobj ≠ 0 then
      let f := WEAK_GLOBAL_REF w5 fobj
      (cc, { f.2 with udf_at := Function.update f.2.udf_at cc { f.2.udf_at cc with fobj := f.1 } })
    else
      (cc, { w5 with udf_at := Function.update w5.udf_at cc { w5.udf_at cc with fobj := 0 } })

/-- The static `free_udf_callback_context`. -/
def free_udf_callback_context (w : World) (p : Ptr) : World :=
  let w3 :=
    if p ≠ 0 then
      let cc := w.udf_at p
      let w1 := AttachCurrentThread w cc.vm
      let w2 := DEL_WEAK_GLOBAL_REF w1 cc.obj
      if cc.fobj ≠ 0 then DEL_WEAK_GLOBAL_REF w2 cc.fobj else w2
    else w
  sqlite3_free w3 p

/-- Lines 1189 to 1194 of `sqlite3_create_function_v2`'s wrapper: the engine
call and the release of the function name. -/
def create_function_register (w : World) (e : Ext) (pDb : Int) (functionName : JObject)
    (zFunctionName : Ptr) (nArg : Int) (eTextRep : Int) (xFunc : JObject) (xStep : JObject)
    (xFinal : JObject) (cc : Ptr) : Int × World :=
  let r := sqlite3_create_function_v2 w e.rc (JLONG_TO_SQLITE3_PTR pDb) zFunctionName nArg
    eTextRep cc
    (if xFunc ≠ 0 then some Trampoline.func_or_step else none)
    (if xStep ≠ 0 then some Trampoline.func_or_step else none)
    (if xFinal ≠ 0 then some Trampoline.final_step else none)
    (some Trampoline.free_udf_callback_context)
  let rc := r.1
  (rc, ReleaseStringUTFChars r.2 functionName zFunctionName)

/-- `Java_org_sqlite_SQLite_sqlite3_1create_1function_1v2`. -/
def Java_org_sqlite_SQLite_sqlite3_1create_1function_1v2 (w : World) (e : Ext) (pDb : Int)
    (functionName : JObject) (nArg : Int) (eTextRep : Int) (xFunc : JObject) (xStep : JObject)
    (xFinal : JObject) : Int × World :=
  let s := GetStringUTFChars w functionName e.chars
  let zFunctionName := s.1
  if zFunctionName = 0 then
    (SQLITE_NOMEM, s.2)
  else if xFunc ≠ 0 ∨ xStep ≠ 0 then
    let tgt := if xFunc ≠ 0 then xFunc else xStep
    let w1 := s.2.emit (Event.getObjectClass tgt)
    let m := GetMethodID w1 e.mid
    if m.1 = 0 then
      (-1, throwException (m.2.emit (Event.deleteLocalClass tgt))
        "expected 'void callback(long, long[])' method")
    else
      let c := if xStep ≠ 0 then GetMethodID m.2 e.cid else (0, m.2)
      if xStep ≠ 0 ∧ c.1 = 0 then
        (-1, throwException (c.2.emit (Event.deleteLocalClass tgt))
          "expected 'Object createAggregateContext()' method")
      else
        let w2 := c.2.emit (Event.deleteLocalClass tgt)
        let f :=
          if xFinal ≠ 0 then
            let g := GetMethodID (w2.emit (Event.getObjectClass xFinal)) e.fid
            (g.1, g.2.emit (Event.deleteLocalClass xFinal))
          else (0, w2)
        if xFinal ≠ 0 ∧ f.1 = 0 then
          (-1, throwException f.2 "expected 'void callback(long)' method")
        else
          let u := create_udf_callback_context f.2 e.block m.1 c.1 tgt f.1 xFinal
          if u.1 = 0 then
            (SQLITE_NOMEM, ReleaseStringUTFChars u.2 functionName zFunctionName)
          else
            create_function_register u.2 e pDb functionName zFunctionName nArg eTextRep xFunc
              xStep xFinal u.1
  else
    create_function_register s.2 e pDb functionName zFunctionName nArg eTextRep xFunc xStep
      xFinal 0

/-- The static `my_log` trampoline. -/
def my_log (w : World) (m : Managed) (udp : Ptr) (err : Int) (zMsg : Ptr) : World :=
  let cc := w.cc_at udp
  let w1 := AttachCurrentThread w cc.vm
  let w2 := NewStringUTF w1 zMsg
  let w3 := CallVoidMethod w2 m cc.obj cc.mid [Arg.num err, Arg.str zMsg]
  let w4 := DeleteLocalString w3 zMsg
  if ExceptionCheck w4 then
    w4
  else
    w4

/-- The static `trace` trampoline. -/
def trace (w : World) (m : Managed) (arg : Ptr) (zMsg : Ptr) : World :=
  let cc := w.cc_at arg
  let w1 := AttachCurrentThread w cc.vm
  let w2 := NewStringUTF w1 zMsg
  let w3 := CallVoidMethod w2 m cc.obj cc.mid [Arg.str zMsg]
  let w4 := DeleteLocalString w3 zMsg
  if ExceptionCheck w4 then
    w4
  else
    w4

/-- The static `profile` trampoline; `ns` is the engine's `sqlite3_uint64`,
handed to the call as it is (the managed method reads the 64 bits as a
`long`). -/
def profile (w : World) (m : Managed) (arg : Ptr) (zMsg : Ptr) (ns : Nat) : World :=
  let cc := w.cc_at arg
  let w1 := AttachCurrentThread w cc.vm
  let w2 := NewStringUTF w1 zMsg
  let w3 := CallVoidMethod w2 m cc.obj cc.mid [Arg.str zMsg, Arg.num ns]
  let w4 := DeleteLocalString w3 zMsg
  if ExceptionCheck w4 then
    w4
  else
    w4

/-- The static `update_hook` trampoline. -/
def update_hook (w : World) (m : Managed) (arg : Ptr) (actionCode : Int) (zDbName : Ptr)
    (zTblName : Ptr) (rowId : Int) : World :=
  let cc := w.cc_at arg
  let w1 := AttachCurrentThread w cc.vm
  let w2 := NewStringUTF w1 zDbName
  let w3 := NewStringUTF w2 zTblName
  let w4 := CallVoidMethod w3 m cc.obj cc.mid
    [Arg.num actionCode, Arg.str zDbName, Arg.str zTblName, Arg.num rowId]
  let w5 := DeleteLocalString w4 zDbName
  let w6 := DeleteLocalString w5 zTblName
  if ExceptionCheck w6 then
    w6
  else
    w6

/-- The static `func_or_step` trampoline; `b` is the answer of `NewLongArray`
and `argv` holds the `argc` value handles. -/
def func_or_step (w : World) (m : Managed) (b : JObject) (ctx : Ptr) (argc : Int)
    (argv : List Ptr) : World :=
  let h := w.udf_at (sqlite3_user_data w ctx)
  let w1 := AttachCurrentThread w h.vm
  let a := NewLongArray w1 argc b
  if a.1 = 0 then
    sqlite3_result_error_nomem a.2 ctx
  else
    let w2 := SetLongArrayValues a.2 a.1 argv
    let w3 := CallVoidMethod w2 m h.obj h.mid [Arg.num ctx, Arg.ref a.1]
    let w4 := DeleteLocalArray w3 a.1
    if ExceptionCheck w4 then
      w4
    else
      w4

/-- The static `final_step` trampoline. -/
def final_step (w : World) (m : Managed) (ctx : Ptr) : World :=
  let h := w.udf_at (sqlite3_user_data w ctx)
  let w1 := AttachCurrentThread w h.vm
  let w2 := CallVoidMethod w1 m h.fobj h.fid [Arg.num ctx]
  if ExceptionCheck w2 then
    w2
  else
    w2

/-- `Java_org_sqlite_SQLite_sqlite3_1aggregate_1context`; `sizeof(jobject)`
is 8, `e.block` is the allocator's answer should the engine have to allocate
the slot block, `m` the outcome of the group-factory call. -/
def Java_org_sqlite_SQLite_sqlite3_1aggregate_1context (w : World) (e : Ext) (m : Managed)
    (pCtx : Int) (allocate : Int) : JObject × World :=
  if allocate = 1 then
    let a := sqlite3_aggregate_context w e.block (JLONG_TO_SQLITE3_CTX_PTR pCtx) 8
    if a.1 = false then
      (0, a.2)
    else
      let aggrCtx := (a.2.aggregate (JLONG_TO_SQLITE3_CTX_PTR pCtx)).getD 0
      if aggrCtx = 0 then
        let h := a.2.udf_at (sqlite3_user_data a.2 (JLONG_TO_SQLITE3_CTX_PTR pCtx))
        let w1 := AttachCurrentThread a.2 h.vm
        let r := CallObjectMethod w1 m h.obj h.cid []
        if ExceptionCheck r.2 then
          (0, r.2)
        else
          let k := WEAK_GLOBAL_REF r.2 r.1
          (r.1, { k.2 with
            aggregate := Function.update k.2.aggregate (JLONG_TO_SQLITE3_CTX_PTR pCtx) (some k.1) })
      else
        (aggrCtx, a.2)
  else
    let a := sqlite3_aggregate_context w e.block (JLONG_TO_SQLITE3_CTX_PTR pCtx) 0
    if a.1 = false then
      (0, a.2)
    else
      let aggrCtx := (a.2.aggregate (JLONG_TO_SQLITE3_CTX_PTR pCtx)).getD 0
      if allocate = 0 then
        (aggrCtx, a.2)
      else
        (0, DEL_WEAK_GLOBAL_REF a.2 aggrCtx)

/-- `#define JLONG_TO_SQLITE3_STMT_PTR(jl) ((sqlite3_stmt *)(size_t)(jl))`. -/
def JLONG_TO_SQLITE3_STMT_PTR (jl : Int) : Ptr :=
  (jl % 2 ^ 64).toNat

/-- Answers of the collaborators during one load_extension call. -/
structure LoadExt where
  /-- Result of `GetStringUTFChars` for the file name; `0` is out of memory. -/
  zFile : Ptr
  /-- Result of `GetStringUTFChars` for the entry point; `0` is out of memory. -/
  zProc : Ptr
  /-- Result code of `sqlite3_load_extension`. -/
  rc : Int
  /-- The message `sqlite3_load_extension` stores in `*pzErrMsg`; `0` is none. -/
  zErrMsg : Ptr

/-- `sqlite3_load_extension`: the call is recorded with the engine's code and
the message it stores. -/
def sqlite3_load_extension (w : World) (rc : Int) (zErrMsg : Ptr) (db : Ptr) (zFile : Ptr)
    (zProc : Ptr) : Int × Ptr × World :=
  (rc, zErrMsg, w.emit (Event.loadExtension db zFile zProc zErrMsg rc))

/-- `SetObjectArrayElement(env, arr, 0, v)`. -/
def SetObjectArrayElement (w : World) (arr : JObject) (v : Element) : World :=
  w.emit (Event.setObjectArrayElement arr v)

/-- `Java_org_sqlite_SQLite_sqlite3_1load_1extension`. -/
def Java_org_sqlite_SQLite_sqlite3_1load_1extension (w : World) (x : LoadExt) (pDb : Int)
    (file : JObject) (proc : JObject) (ppErrMsg : JObject) : Int × World :=
  let f := GetStringUTFChars w file x.zFile
  let zFile := f.1
  if zFile ≠ 0 then
    (SQLITE_NOMEM, f.2)
  else
    let p := if proc ≠ 0 then GetStringUTFChars f.2 proc x.zProc else (0, f.2)
    let zProc := p.1
    if proc ≠ 0 ∧ zProc ≠ 0 then
      (SQLITE_NOMEM, ReleaseStringUTFChars p.2 file zFile)
    else
      let r := sqlite3_load_extension p.2 x.rc x.zErrMsg (JLONG_TO_SQLITE3_PTR pDb) zFile zProc
      let rc := r.1
      let zErrMsg := r.2.1
      let w1 := if proc ≠ 0 then ReleaseStringUTFChars r.2.2 proc zProc else r.2.2
      let w2 := ReleaseStringUTFChars w1 file zFile
      if zErrMsg ≠ 0 then
        let w3 := NewStringUTF w2 zErrMsg
        let w4 := SetObjectArrayElement w3 ppErrMsg (Element.utf zErrMsg)
        let w5 := DeleteLocalString w4 zErrMsg
        (rc, sqlite3_free w5 zErrMsg)
      else
        (rc, SetObjectArrayElement w2 ppErrMsg Element.null)

/-- Conversion of an integer to `jsize` (`int`): 32 bits, two's complement. -/
def toJsize (v : Int) : Int :=
  (v + 2 ^ 31) % 2 ^ 32 - 2 ^ 31

/-- Conversion of an integer to `ptrdiff_t` (`long`): 64 bits, two's
complement. -/
def toPtrdiff (v : Int) : Int :=
  (v + 2 ^ 63) % 2 ^ 64 - 2 ^ 63

/-- `sizeof(jchar)`. -/
def sizeof_jchar : Int := 2

/-- `GetStringLength`: the number of UTF-16 code units of a managed string,
whose code units are `us`. -/
def GetStringLength (us : List Nat) : Int :=
  us.length

/-- Memory while the code units `us` of a string are handed out at address
`z`: the `jchar` read at address `a` (0 past the last unit). -/
def pinned (z : Ptr) (us : List Nat) (a : Ptr) : Nat :=
  if z ≤ a ∧ (a - z) % 2 = 0 then us.getD ((a - z) / 2) 0 else 0

/-- The `count` consecutive `jchar`s read from address `p` on. -/
def readUnits (mem : Ptr → Nat) (p : Ptr) (count : Nat) : List Nat :=
  (List.range count).map (fun j => mem (p + 2 * j))

/-- `GetStringCritical`: answers `z`; `0` leaves `OutOfMemoryError` pending. -/
def GetStringCritical (w : World) (s : JObject) (z : Ptr) : Ptr × World :=
  if z = 0 then (0, { w with pending := some (w.pending.getD "OutOfMemoryError") })
  else (z, w.emit (Event.getStringCritical s z))

/-- `ReleaseStringCritical`. -/
def ReleaseStringCritical (w : World) (s : JObject) (z : Ptr) : World :=
  w.emit (Event.releaseStringCritical s z)

/-- `NewString(env, p, count)`: answers `ref`, a string made of the `count`
code units read from `p` on; `0` leaves `OutOfMemoryError` pending. -/
def NewString (w : World) (mem : Ptr → Nat) (p : Ptr) (count : Int) (ref : JObject) :
    JObject × World :=
  if ref = 0 then (0, { w with pending := some (w.pending.getD "OutOfMemoryError") })
  else (ref, w.emit (Event.newString ref (readUnits mem p count.toNat)))

/-- `DeleteLocalRef` on a string made by `NewString`. -/
def DeleteLocalRef (w : World) (o : JObject) : World :=
  w.emit (Event.deleteLocalRef o)

/-- Answers of the collaborators during one prepare or bind_text call. -/
structure StmtExt where
  /-- Result of `GetStringCritical`; `0` is out of memory. -/
  critical : Ptr
  /-- Result code of the engine call. -/
  rc : Int
  /-- The statement handle `sqlite3_prepare16_v2` stores in `*ppStmt`. -/
  pStmt : Ptr
  /-- The pointer `sqlite3_prepare16_v2` stores in `*pzTail`; `0` is none. -/
  zTail : Ptr
  /-- Result of `NewString`; `0` is out of memory. -/
  tail : JObject
  /-- Address of the string literal `""`. -/
  literal : Ptr

/-- `sqlite3_prepare16_v2`: the call is recorded with the statement handle,
the tail pointer and the code the engine answers. -/
def sqlite3_prepare16_v2 (w : World) (x : StmtExt) (db : Ptr) (zSql : Ptr) (nByte : Int) :
    Int × Ptr × Ptr × World :=
  (x.rc, x.pStmt, x.zTail, w.emit (Event.prepare16 db zSql nByte x.pStmt x.zTail x.rc))

/-- `Java_org_sqlite_SQLite_sqlite3_1prepare_1v2`; `us` are the code units
of the string `sql`. The function does not read its parameter `nByte`. -/
def Java_org_sqlite_SQLite_sqlite3_1prepare_1v2 (w : World) (x : StmtExt) (pDb : Int)
    (sql : JObject) (us : List Nat) (_nByte : Int) (ppStmt : JObject) (pTail : JObject) :
    Int × World :=
  let len := toJsize ((GetStringLength us * sizeof_jchar) % 2 ^ 64)
  let s := GetStringCritical w sql x.critical
  let zSql := s.1
  if zSql = 0 then
    (SQLITE_NOMEM, s.2)
  else
    let r := sqlite3_prepare16_v2 s.2 x (JLONG_TO_SQLITE3_PTR pDb) zSql len
    let rc := r.1
    let pStmt := r.2.1
    let zTail := r.2.2.1
    let w1 := SetLongArrayRegion r.2.2.2 ppStmt (PTR_TO_JLONG pStmt)
    if pTail ≠ 0 then
      if zTail ≠ 0 then
        let t := NewString w1 (pinned zSql us) zTail
          (toJsize ((toPtrdiff (len - toPtrdiff ((zTail : Int) - (zSql : Int))) % 2 ^ 64)
            / sizeof_jchar)) x.tail
        let tail := t.1
        if tail = 0 then
          (SQLITE_NOMEM, ReleaseStringCritical t.2 sql zSql)
        else
          let w2 := SetObjectArrayElement t.2 pTail (Element.ref tail)
          let w3 := DeleteLocalRef w2 tail
          (rc, ReleaseStringCritical w3 sql zSql)
      else
        (rc, ReleaseStringCritical (SetObjectArrayElement w1 pTail Element.null) sql zSql)
    else
      (rc, ReleaseStringCritical w1 sql zSql)

/-- `sqlite3_bind_null`: the call is recorded with the engine's code. -/
def sqlite3_bind_null (w : World) (rc : Int) (stmt : Ptr) (i : Int) : Int × World :=
  (rc, w.emit (Event.bindNull stmt i rc))

/-- `sqlite3_bind_text16` with a byte count `nBytes` that is not negative: the
engine binds the `nBytes / 2` code units read from `data` on; the call is
recorded with that text, the byte count, whether the destructor is
`SQLITE_TRANSIENT` (else `SQLITE_STATIC`) and the engine's code. -/
def sqlite3_bind_text16 (w : World) (rc : Int) (mem : Ptr → Nat) (stmt : Ptr) (i : Int)
    (data : Ptr) (nBytes : Int) (transient : Bool) : Int × World :=
  (rc, w.emit (Event.bindText16 stmt i (readUnits mem data (nBytes / 2).toNat) nBytes transient
    rc))

/-- `Java_org_sqlite_SQLite_sqlite3_1bind_1text`; `us` are the code units of
the string `v`. The function does not read its parameter `n`. -/
def Java_org_sqlite_SQLite_sqlite3_1bind_1text (w : World) (x : StmtExt) (pStmt : Int)
    (i : Int) (v : JObject) (us : List Nat) (_n : Int) : Int × World :=
  if v = 0 then
    sqlite3_bind_null w x.rc (JLONG_TO_SQLITE3_STMT_PTR pStmt) i
  else
    let len := toJsize ((GetStringLength us * sizeof_jchar) % 2 ^ 64)
    if len > 0 then
      let d := GetStringCritical w v x.critical
      let data := d.1
      if data = 0 then
        (-1, d.2)
      else
        let r := sqlite3_bind_text16 d.2 x.rc (pinned data us)
          (JLONG_TO_SQLITE3_STMT_PTR pStmt) i data len true
        (r.1, ReleaseStringCritical r.2 v data)
    else
      sqlite3_bind_text16 w x.rc (fun _ => 0) (JLONG_TO_SQLITE3_STMT_PTR pStmt) i x.literal 0
        false

/-- The calls of `sqlite3_load_extension` in a log, in order: connection, file
name, entry point. -/
def loadCalls : List Event → List (Ptr × Ptr × Ptr)
  | [] => []
  | Event.loadExtension db zFile zProc _ _ :: es => (db, zFile, zProc) :: loadCalls es
  | _ :: es => loadCalls es

/-- The native strings obtained with `GetStringUTFChars` in a log, in order. -/
def stringConversions : List Event → List (JObject × Ptr)
  | [] => []
  | Event.getStringUTFChars s z :: es => (s, z) :: stringConversions es
  | _ :: es => stringConversions es

/-- The native strings released with `ReleaseStringUTFChars` in a log, in
order. -/
def stringReleases : List Event → List (JObject × Ptr)
  | [] => []
  | Event.releaseStringUTFChars s z :: es => (s, z) :: stringReleases es
  | _ :: es => stringReleases es


/-! ## `vtab.h` -/

/-- A function address a module slot can hold: one of the ten lambdas
`EponymousOnlyModule<TTable, TCursor>` generates, or any other address. -/
inductive ModuleFn (TTable : Type) (TCursor : Type) where
  | xConnect
  | xBestIndex
  | xDisconnect
  | xOpen
  | xClose
  | xFilter
  | xNext
  | xEof
  | xColumn
  | xRowid
  | other (addr : Nat)
deriving DecidableEq, Repr

/-- Modelled from the spec: the engine's `sqlite3_module` declaration
(`sqlite3.h`) is not among the sources. The fixed function-pointer table of a
version-1 module: the version number and one slot per table or cursor
operation, `none` standing for a null pointer. -/
structure sqlite3_module (TTable : Type) (TCursor : Type) where
  iVersion : Int
  xCreate : Option (ModuleFn TTable TCursor)
  xConnect : Option (ModuleFn TTable TCursor)
  xBestIndex : Option (ModuleFn TTable TCursor)
  xDisconnect : Option (ModuleFn TTable TCursor)
  xDestroy : Option (ModuleFn TTable TCursor)
  xOpen : Option (ModuleFn TTable TCursor)
  xClose : Option (ModuleFn TTable TCursor)
  xFilter : Option (ModuleFn TTable TCursor)
  xNext : Option (ModuleFn TTable TCursor)
  xEof : Option (ModuleFn TTable TCursor)
  xColumn : Option (ModuleFn TTable TCursor)
  xRowid : Option (ModuleFn TTable TCursor)
  xUpdate : Option (ModuleFn TTable TCursor)
  xBegin : Option (ModuleFn TTable TCursor)
  xSync : Option (ModuleFn TTable TCursor)
  xCommit : Option (ModuleFn TTable TCursor)
  xRollback : Option (ModuleFn TTable TCursor)
  xFindFunction : Option (ModuleFn TTable TCursor)
  xRename : Option (ModuleFn TTable TCursor)

/-- `EponymousOnlyModule<TTable, TCursor>()`. The local `sqlite3_module m;` is
declared without an initializer; `m` is what it holds before the first
assignment. -/
def EponymousOnlyModule (TTable : Type) (TCursor : Type) (m : sqlite3_module TTable TCursor) :
    sqlite3_module TTable TCursor :=
  let m := { m with iVersion := 1 }
  let m := { m with xCreate := none }
  let m := { m with xConnect := some ModuleFn.xConnect }
  let m := { m with xBestIndex := some ModuleFn.xBestIndex }
  let m := { m with xDisconnect := some ModuleFn.xDisconnect }
  let m := { m with xDestroy := none }
  let m := { m with xOpen := some ModuleFn.xOpen }
  let m := { m with xClose := some ModuleFn.xClose }
  let m := { m with xFilter := some ModuleFn.xFilter }
  let m := { m with xNext := some ModuleFn.xNext }
  let m := { m with xEof := some ModuleFn.xEof }
  let m := { m with xColumn := some ModuleFn.xColumn }
  let m := { m with xRowid := some ModuleFn.xRowid }
  m

/-- Whether the slot of the context `c` holds a reference. -/
def slotBound (w : World) (c : Ptr) : Bool :=
  decide ((w.aggregate c).getD 0 ≠ 0)

/-- The number of accesses of a run of bind-or-fetch accesses that find the
slot of `c` without a reference and leave it holding one. -/
def bindTransitions (w : World) (c : Ptr) : List (Int × Ext × Managed) → Nat
  | [] => 0
  | a :: rest =>
    (if slotBound w c = false ∧
        slotBound (Java_org_sqlite_SQLite_sqlite3_1aggregate_1context w a.2.1 a.2.2 a.1 1).2 c
          = true then 1 else 0) +
      bindTransitions (Java_org_sqlite_SQLite_sqlite3_1aggregate_1context w a.2.1 a.2.2 a.1 1).2
        c rest

/-- The number of accesses of a run of bind-or-fetch accesses that are handed
the slot block of `c` (the block exists already, or the allocator answers)
and find no reference in it. -/
def emptyAccesses (w : World) (c : Ptr) : List (Int × Ext × Managed) → Nat
  | [] => 0
  | a :: rest =>
    (if slotBound w c = false ∧ ((w.aggregate c).isSome = true ∨ a.2.1.block ≠ 0) then 1
      else 0) +
      emptyAccesses (Java_org_sqlite_SQLite_sqlite3_1aggregate_1context w a.2.1 a.2.2 a.1 1).2
        c rest

/-- The accesses of one group of an aggregate execution: the context handle,
the object the factory returns on the first access, and for each further
access the outcome a factory call would have. The engine's allocator answers
as in `e`. -/
def groupAccesses (e : Ext) (g : Int × JObject × List Managed) : List (Int × Ext × Managed) :=
  (g.1, e, ⟨g.2.1, false⟩) :: g.2.2.map (fun m => (g.1, e, m))

/-- The accesses of an aggregate execution, group after group. -/
def aggregateRun (e : Ext) : List (Int × JObject × List Managed) → List (Int × Ext × Managed)
  | [] => []
  | g :: gs => groupAccesses e g ++ aggregateRun e gs

/-- What the accesses of an aggregate execution should return when `refs`
are the weak references made for the groups' accumulators: for each group
the accumulator itself on the first access and its weak reference on every
further access. -/
def groupResults : List JObject → List (Int × JObject × List Managed) → List JObject
  | r :: rs, g :: gs => (g.2.1 :: List.replicate g.2.2.length r) ++ groupResults rs gs
  | _, _ => []

/-- The virtual methods of `VirtualTable` and `VirtualTableCursor`. -/
inductive VMethod where
  | Connect
  | BestIndex
  | Disconnect
  | Open
  | Close
  | Filter
  | Next
  | Eof
  | Column
  | RowId
deriving DecidableEq, Repr

/-- Effects of the shim on table and cursor objects, in program order:
`new`, `delete`, and a call of a virtual method on an object with its
arguments. -/
inductive VEvent where
  | construct (obj : Ptr)
  | destroy (obj : Ptr)
  | call (m : VMethod) (this : Ptr) (args : List Int)
deriving DecidableEq, Repr

/-- What the lambdas of `vtab.h` read or write: the engine's `sqlite3_vtab *`
output cells, by address, and the effects so far, oldest first. -/
structure VWorld where
  cell : Ptr → Ptr
  log : List VEvent

/-- Append one effect to the log. -/
def VWorld.emit (w : VWorld) (e : VEvent) : VWorld :=
  { w with log := w.log ++ [e] }

/-- What `vtab.h` fixes of a concrete table class: whether it overrides
`Disconnect` or inherits `VirtualTable::Disconnect`. -/
structure TableClass where
  overridesDisconnect : Bool

/-- What `vtab.h` fixes of a concrete cursor class: whether it overrides
`Close` or inherits `VirtualTableCursor::Close`. -/
structure CursorClass where
  overridesClose : Bool

/-- A call of a virtual method the concrete class implements: the call is
recorded and `res` is what the method returns. -/
def virtualCall (w : VWorld) (res : Int) (m : VMethod) (this : Ptr) (args : List Int) :
    Int × VWorld :=
  (res, w.emit (VEvent.call m this args))

/-- `VirtualTable::Disconnect`, the default body: `delete this; return
SQLITE_OK;`. -/
def VirtualTable.Disconnect (w : VWorld) (this : Ptr) : Int × VWorld :=
  let w1 := w.emit (VEvent.destroy this)
  (SQLITE_OK, w1)

/-- `VirtualTableCursor::Close`, the default body: `delete this; return
SQLITE_OK;`. -/
def VirtualTableCursor.Close (w : VWorld) (this : Ptr) : Int × VWorld :=
  let w1 := w.emit (VEvent.destroy this)
  (SQLITE_OK, w1)

/-- The virtual call `table->Disconnect()`: the override of the concrete
class, returning `res`, or the inherited default. -/
def TableClass.Disconnect (T : TableClass) (w : VWorld) (res : Int) (this : Ptr) :
    Int × VWorld :=
  if T.overridesDisconnect then virtualCall w res VMethod.Disconnect this []
  else VirtualTable.Disconnect (w.emit (VEvent.call VMethod.Disconnect this [])) this

/-- The virtual call `cursor->Close()`: the override of the concrete class,
returning `res`, or the inherited default. -/
def CursorClass.Close (C : CursorClass) (w : VWorld) (res : Int) (this : Ptr) : Int × VWorld :=
  if C.overridesClose then virtualCall w res VMethod.Close this []
  else VirtualTableCursor.Close (w.emit (VEvent.call VMethod.Close this [])) this

/-- The lambda stored in `m.xConnect`; `table` is the address `new TTable()`
yields and `res` what `Connect` returns. -/
def EponymousOnlyModule.xConnect (w : VWorld) (table : Ptr) (res : Int) (xdb : Ptr) (arg : Ptr)
    (argc : Int) (argv : Ptr) (tab : Ptr) (pzErr : Ptr) : Int × VWorld :=
  let w1 := w.emit (VEvent.construct table)
  let r := virtualCall w1 res VMethod.Connect table [xdb, arg, argc, argv, pzErr]
  if r.1 ≠ SQLITE_OK then
    (r.1, r.2.emit (VEvent.destroy table))
  else
    (SQLITE_OK, { r.2 with cell := Function.update r.2.cell tab table })

/-- The lambda stored in `m.xBestIndex`. -/
def EponymousOnlyModule.xBestIndex (w : VWorld) (res : Int) (t : Ptr) (i : Ptr) : Int × VWorld :=
  virtualCall w res VMethod.BestIndex t [i]

/-- The lambda stored in `m.xDisconnect`. -/
def EponymousOnlyModule.xDisconnect (T : TableClass) (w : VWorld) (res : Int) (t : Ptr) :
    Int × VWorld :=
  T.Disconnect w res t

/-- The lambda stored in `m.xOpen`. -/
def EponymousOnlyModule.xOpen (w : VWorld) (res : Int) (t : Ptr) (c : Ptr) : Int × VWorld :=
  virtualCall w res VMethod.Open t [c]

/-- The lambda stored in `m.xClose`. -/
def EponymousOnlyModule.xClose (C : CursorClass) (w : VWorld) (res : Int) (c : Ptr) :
    Int × VWorld :=
  C.Close w res c

/-- The lambda stored in `m.xFilter`. -/
def EponymousOnlyModule.xFilter (w : VWorld) (res : Int) (vc : Ptr) (i : Int) (s : Ptr)
    (a : Int) (v : Ptr) : Int × VWorld :=
  virtualCall w res VMethod.Filter vc [i, s, a, v]

/-- The lambda stored in `m.xNext`. -/
def EponymousOnlyModule.xNext (w : VWorld) (res : Int) (c : Ptr) : Int × VWorld :=
  virtualCall w res VMethod.Next c []

/-- The lambda stored in `m.xEof`. -/
def EponymousOnlyModule.xEof (w : VWorld) (res : Int) (c : Ptr) : Int × VWorld :=
  virtualCall w res VMethod.Eof c []

/-- The lambda stored in `m.xColumn`. -/
def EponymousOnlyModule.xColumn (w : VWorld) (res : Int) (c : Ptr) (a : Ptr) (i : Int) :
    Int × VWorld :=
  virtualCall w res VMethod.Column c [a, i]

/-- The lambda stored in `m.xRowid`. -/
def EponymousOnlyModule.xRowid (w : VWorld) (res : Int) (c : Ptr) (r : Ptr) : Int × VWorld :=
  virtualCall w res VMethod.RowId c [r]

/-- The objects constructed in a log, in order. -/
def constructs : List VEvent → List Ptr
  | [] => []
  | VEvent.construct o :: es => o :: constructs es
  | _ :: es => constructs es

/-- The objects destroyed in a log, in order. -/
def destroys : List VEvent → List Ptr
  | [] => []
  | VEvent.destroy o :: es => o :: destroys es
  | _ :: es => destroys es

/-- The virtual calls of a log, in order: method, object, arguments. -/
def virtualCalls : List VEvent → List (VMethod × Ptr × List Int)
  | [] => []
  | VEvent.call m o args :: es => (m, o, args) :: virtualCalls es
  | _ :: es => virtualCalls es

/-! ## Specification vocabulary for thread attachment -/

/-- A call that went from `w` to `w2` attached the thread to `vm` as its first
effect, attached no second time and detached nothing. -/
def AttachesFirstAndOnce (vm : Nat) (w : World) (w2 : World) : Prop :=
  ∃ rest, w2.log = w.log ++ Event.attach vm :: rest ∧ attaches rest = [] ∧ detaches rest = []

/-! ## Runs of group-slot accesses -/

/-- Bind-or-fetch accesses (`allocate = 1`) made one after the other; each
access names its function context and brings the collaborators' answers. The
references returned are collected in order. -/
def bindOrFetchAll (w : World) : List (Int × Ext × Managed) → List JObject × World
  | [] => ([], w)
  | a :: rest =>
    let r := Java_org_sqlite_SQLite_sqlite3_1aggregate_1context w a.2.1 a.2.2 a.1 1
    let t := bindOrFetchAll r.2 rest
    (r.1 :: t.1, t.2)

/-! ## Specification vocabulary -/

/-- A bridge call that went from `w` to `w2` aborted before registration: it
made no engine call and freed nothing, its allocator requests were answered
`ms`, and it left the engine's slots, the output arrays, `logger_cc` and the
bytes of every context block as they were. -/
def AbortedBeforeRegistration (ms : List Ptr) (w : World) (w2 : World) : Prop :=
  w2.hook = w.hook ∧ w2.longArray = w.longArray ∧ w2.logger_cc = w.logger_cc ∧
  w2.cc_at = w.cc_at ∧ w2.udf_at = w.udf_at ∧
  ∃ evs, w2.log = w.log ++ evs ∧ engineCalls evs = [] ∧ frees evs = [] ∧ mallocs evs = ms

/-! ## Sample inputs -/

/-- Collaborator answers of a call in which everything succeeds: the methods
are found, the allocator hands out the block at 4096, the engine accepts. -/
def Ext.sample : Ext := ⟨7, 8, 9, 4096, 0, 512⟩

/-- Collaborator answers of a second successful call (block at 8192). -/
def Ext.second : Ext := ⟨7, 8, 9, 8192, 0, 512⟩

/-- Collaborator answers of a call the engine rejects with code 21. -/
def Ext.rejected : Ext := ⟨7, 8, 9, 8192, 21, 512⟩

/-- The initial world after a trace hook was set on connection 1. -/
def World.traced : World :=
  (Java_org_sqlite_SQLite_sqlite3_1trace World.init Ext.sample 1 10).2

/-- The initial world after a busy handler was set on connection 1. -/
def World.busied : World :=
  (Java_org_sqlite_SQLite_sqlite3_1busy_1handler World.init Ext.sample 1 10 30).2

/-- Collaborator answers of a call in which the allocator is out of memory. -/
def Ext.oom : Ext := ⟨7, 8, 9, 0, 0, 512⟩

/-- Collaborator answers of a call in which no method is found. -/
def Ext.mismatch : Ext := ⟨0, 0, 0, 4096, 0, 512⟩

/-- The initial world after a logger was set. -/
def World.logged : World :=
  (Java_org_sqlite_SQLite_sqlite3_1config__ILorg_sqlite_SQLite_LogCallback_2 World.init Ext.sample 16 10).2

/-- The initial world after an aggregate function was created: its context
lies at 4096 with step target reference 1, group factory 8 and finalizer
reference 2, and it is the user data of every function context. -/
def World.aggregating : World :=
  { (create_udf_callback_context World.init 4096 7 8 10 9 11).2 with
    user_data := fun _ => 4096 }

/-- `World.aggregating` after the first step of the group of context 77 bound
its slot: the accumulator is object 60 and the slot holds weak reference 3. -/
def World.bound : World :=
  (Java_org_sqlite_SQLite_sqlite3_1aggregate_1context World.aggregating Ext.sample ⟨60, false⟩
    77 1).2

/-- A module variable whose bytes were never written: every slot holds the
stray address 57005 and the version is 0. -/
def sqlite3_module.stray (TTable : Type) (TCursor : Type) : sqlite3_module TTable TCursor where
  iVersion := 0
  xCreate := some (ModuleFn.other 57005)
  xConnect := some (ModuleFn.other 57005)
  xBestIndex := some (ModuleFn.other 57005)
  xDisconnect := some (ModuleFn.other 57005)
  xDestroy := some (ModuleFn.other 57005)
  xOpen := some (ModuleFn.other 57005)
  xClose := some (ModuleFn.other 57005)
  xFilter := some (ModuleFn.other 57005)
  xNext := some (ModuleFn.other 57005)
  xEof := some (ModuleFn.other 57005)
  xColumn := some (ModuleFn.other 57005)
  xRowid := some (ModuleFn.other 57005)
  xUpdate := some (ModuleFn.other 57005)
  xBegin := some (ModuleFn.other 57005)
  xSync := some (ModuleFn.other 57005)
  xCommit := some (ModuleFn.other 57005)
  xRollback := some (ModuleFn.other 57005)
  xFindFunction := some (ModuleFn.other 57005)
  xRename := some (ModuleFn.other 57005)

/-- A shim world with nothing constructed and every output cell null. -/
def VWorld.init : VWorld where
  cell := fun _ => 0
  log := []

/-- A load_extension call whose file name converts to the native string at
address 512; no entry point is converted, the engine would answer
`SQLITE_OK` and no message. -/
def LoadExt.sample : LoadExt := ⟨512, 0, 0, 0⟩

/-- A load_extension call whose file name conversion fails. -/
def LoadExt.oom : LoadExt := ⟨0, 0, 0, 0⟩

/-- Lookups in which the step method is found and the group-factory method
is not. -/
def Ext.noFactory : Ext := ⟨7, 0, 9, 4096, 0, 512⟩

/-- Lookups in which the step and group-factory methods are found and the
finalizer method is not. -/
def Ext.noFinalizer : Ext := ⟨7, 8, 0, 4096, 0, 512⟩

/-- A prepare call on the four code units of `S; T`, handed out at address
1000: the engine answers `SQLITE_OK`, statement 77 and the tail pointer
1004, and `NewString` answers reference 55. -/
def StmtExt.sample : StmtExt := ⟨1000, 0, 77, 1004, 55, 8⟩

/-- A prepare call as `StmtExt.sample` in which the engine reports no tail. -/
def StmtExt.whole : StmtExt := ⟨1000, 0, 77, 0, 55, 8⟩

/-- A bind_text call: the characters are handed out at address 1000 and the
engine answers `SQLITE_OK`. -/
def StmtExt.bind : StmtExt := ⟨1000, 0, 0, 0, 0, 8⟩

/-! ## Normal forms of the context primitives -/

theorem create_callback_context_ok (w : World) (blk : Ptr) (mid : JMethodID) (obj : JObject)
    (hb : blk ≠ 0) (ho : obj ≠ 0) :
    create_callback_context w blk mid obj =
      (blk, { w with
        cc_at := Function.update w.cc_at blk ⟨w.javaVM, mid, w.weakCount + 1⟩
        weakCount := w.weakCount + 1
        log := w.log ++ [Event.malloc blk, Event.newWeakRef (w.weakCount + 1) obj] }) := by
  simp [create_callback_context, sqlite3_malloc, hb, ho, WEAK_GLOBAL_REF, World.emit]

theorem create_callback_context_oom (w : World) (mid : JMethodID) (obj : JObject) :
    create_callback_context w 0 mid obj = (0, throwException (w.emit (Event.malloc 0)) "OOM") := by
  simp [create_callback_context, sqlite3_malloc]

theorem create_udf_callback_context_oom (w : World) (mid : JMethodID) (cid : JMethodID)
    (obj : JObject) (fid : JMethodID) (fobj : JObject) :
    create_udf_callback_context w 0 mid cid obj fid fobj =
      (0, throwException (w.emit (Event.malloc 0)) "OOM") := by
  simp [create_udf_callback_context, sqlite3_malloc]

theorem free_callback_context_eq (w : World) (p : Ptr) :
    free_callback_context w p =
      if p = 0 then w
      else { w with log := w.log ++ [Event.delWeakRef (w.cc_at p).obj, Event.free p] } := by
  by_cases hp : p = 0 <;>
    simp [free_callback_context, sqlite3_free, DEL_WEAK_GLOBAL_REF, World.emit, hp]

theorem frees_append (a b : List Event) : frees (a ++ b) = frees a ++ frees b := by
  induction a with
  | nil => rfl
  | cons x xs ih => cases x <;> simp [frees, ih]

theorem JLONG_TO_PTR_PTR_TO_JLONG (p : Nat) (h : p < 2 ^ 64) :
    JLONG_TO_PTR (PTR_TO_JLONG p) = p := by
  unfold JLONG_TO_PTR PTR_TO_JLONG
  have hp : p % 2 ^ 64 = p := Nat.mod_eq_of_lt h
  rw [hp]
  split
  · show ((p : Int) % 2 ^ 64).toNat = p
    omega
  · show (((p : Int) - 2 ^ 64) % 2 ^ 64).toNat = p
    omega

/-! ## Allocation failure, setter by setter -/

theorem throwException_frame (v : World) (msg : String) :
    (throwException v msg).hook = v.hook ∧ (throwException v msg).longArray = v.longArray ∧
    (throwException v msg).logger_cc = v.logger_cc ∧ (throwException v msg).cc_at = v.cc_at ∧
    (throwException v msg).udf_at = v.udf_at ∧
    ∃ evs, (throwException v msg).log = v.log ++ evs ∧ engineCalls evs = [] ∧ frees evs = [] ∧
      mallocs evs = [] := by
  unfold throwException
  split
  · exact ⟨rfl, rfl, rfl, rfl, rfl, [], by simp, rfl, rfl, rfl⟩
  · exact ⟨rfl, rfl, rfl, rfl, rfl, [Event.throwNew msg], rfl, rfl, rfl, rfl⟩

theorem engineCalls_append (a b : List Event) :
    engineCalls (a ++ b) = engineCalls a ++ engineCalls b := by
  simp [engineCalls]

theorem mallocs_append (a b : List Event) : mallocs (a ++ b) = mallocs a ++ mallocs b := by
  induction a with
  | nil => rfl
  | cons x xs ih => cases x <;> simp [mallocs, ih]

/-- A call whose world is `throwException` applied to `w` with some quiet
events appended has aborted before registration. -/
theorem aborted_of_throw (ms : List Ptr) (w : World) (pend : Option String)
    (evs : List Event) (msg : String)
    (h1 : engineCalls evs = []) (h2 : frees evs = []) (h3 : mallocs evs = ms) :
    AbortedBeforeRegistration ms w
      (throwException { w with pending := pend, log := w.log ++ evs } msg) := by
  obtain ⟨a, b, c, d, f, evs2, hl, g1, g2, g3⟩ :=
    throwException_frame { w with pending := pend, log := w.log ++ evs } msg
  refine ⟨a, b, c, d, f, evs ++ evs2, ?_, ?_, ?_, ?_⟩
  · rw [hl]; simp
  · rw [engineCalls_append, h1, g1]; rfl
  · rw [frees_append, h2, g2]; rfl
  · rw [mallocs_append, h3, g3]; simp

/-- Appending an event that is no engine call, no free and no allocator
request keeps a call aborted before registration. -/
theorem aborted_emit (ms : List Ptr) (w : World) (v : World) (ev : Event)
    (h : AbortedBeforeRegistration ms w v) (h1 : engineCalls [ev] = []) (h2 : frees [ev] = [])
    (h3 : mallocs [ev] = []) : AbortedBeforeRegistration ms w (v.emit ev) := by
  obtain ⟨a, b, c, d, f, evs, hl, g1, g2, g3⟩ := h
  refine ⟨a, b, c, d, f, evs ++ [ev], ?_, ?_, ?_, ?_⟩
  · show v.log ++ [ev] = w.log ++ (evs ++ [ev])
    rw [hl]; simp
  · rw [engineCalls_append, h1, g1]; rfl
  · rw [frees_append, h2, g2]; rfl
  · rw [mallocs_append, h3, g3]; simp

theorem create_function_oom (w : World) (u : Ext) (pDb : Int) (functionName : JObject)
    (nArg : Int) (eTextRep : Int) (xFunc : JObject) (xStep : JObject) (xFinal : JObject)
    (hc : u.chars ≠ 0) (ht : xFunc ≠ 0 ∨ xStep ≠ 0) (hum : u.mid ≠ 0)
    (huc : xStep ≠ 0 → u.cid ≠ 0) (huf : xFinal ≠ 0 → u.fid ≠ 0) (hub : u.block = 0) :
    (Java_org_sqlite_SQLite_sqlite3_1create_1function_1v2 w u pDb functionName nArg eTextRep
        xFunc xStep xFinal).1 = SQLITE_NOMEM ∧
    AbortedBeforeRegistration [0] w
      (Java_org_sqlite_SQLite_sqlite3_1create_1function_1v2 w u pDb functionName nArg eTextRep
        xFunc xStep xFinal).2 := by
  by_cases hs : xStep = 0
  · have hfn : xFunc ≠ 0 := by
      rcases ht with h | h
      · exact h
      · exact absurd hs h
    by_cases hf : xFinal = 0
    · simp [Java_org_sqlite_SQLite_sqlite3_1create_1function_1v2,
        GetStringUTFChars, hc, hfn, GetMethodID, hum, hs, hf, hub,
        create_udf_callback_context_oom, ReleaseStringUTFChars, World.emit]
      exact aborted_emit _ _ _ _ (aborted_of_throw _ _ _ _ _ rfl rfl rfl) rfl rfl rfl
    · simp [Java_org_sqlite_SQLite_sqlite3_1create_1function_1v2,
        GetStringUTFChars, hc, hfn, GetMethodID, hum, hs, hf, huf hf, hub,
        create_udf_callback_context_oom, ReleaseStringUTFChars, World.emit]
      exact aborted_emit _ _ _ _ (aborted_of_throw _ _ _ _ _ rfl rfl rfl) rfl rfl rfl
  · by_cases hf : xFinal = 0
    · simp [Java_org_sqlite_SQLite_sqlite3_1create_1function_1v2,
        GetStringUTFChars, hc, GetMethodID, hum, hs, huc hs, hf, hub,
        create_udf_callback_context_oom, ReleaseStringUTFChars, World.emit]
      exact aborted_emit _ _ _ _ (aborted_of_throw _ _ _ _ _ rfl rfl rfl) rfl rfl rfl
    · simp [Java_org_sqlite_SQLite_sqlite3_1create_1function_1v2,
        GetStringUTFChars, hc, GetMethodID, hum, hs, huc hs, hf, huf hf, hub,
        create_udf_callback_context_oom, ReleaseStringUTFChars, World.emit]
      exact aborted_emit _ _ _ _ (aborted_of_throw _ _ _ _ _ rfl rfl rfl) rfl rfl rfl

/-! ## Claims -/

/-- C1. Trace, profile and update setters with a present target, a found
method and a successful allocation: the returned handle is the new context,
the engine slot holds the trampoline with the new context, and the effects
are: no free and no engine call, then the registration of the new context,
then the free of exactly the context the engine held before (none when it
held none) and no further engine call. -/
theorem C1_replace_registers_then_frees_previous (w : World) (e : Ext) (pDb : Int)
    (x : JObject) (hx : x ≠ 0) (hm : e.mid ≠ 0) (hb : e.block ≠ 0) :
    ∀ ks ∈ [(HookKind.trace, Trampoline.trace, Java_org_sqlite_SQLite_sqlite3_1trace),
            (HookKind.profile, Trampoline.profile, Java_org_sqlite_SQLite_sqlite3_1profile),
            (HookKind.update, Trampoline.update_hook,
              Java_org_sqlite_SQLite_sqlite3_1update_1hook)],
      (ks.2.2 w e pDb x).1 = PTR_TO_JLONG e.block ∧
      (ks.2.2 w e pDb x).2.hook ks.1 (JLONG_TO_SQLITE3_PTR pDb) = ⟨some ks.2.1, e.block⟩ ∧
      ∃ pre post,
        (ks.2.2 w e pDb x).2.log =
          w.log ++ pre ++
            [Event.register ks.1 (JLONG_TO_SQLITE3_PTR pDb) 0 (some ks.2.1) e.block SQLITE_OK]
            ++ post ∧
        frees pre = [] ∧ engineCalls pre = [] ∧ engineCalls post = [] ∧
        frees post =
          (if (w.hook ks.1 (JLONG_TO_SQLITE3_PTR pDb)).udp = 0 then []
           else [(w.hook ks.1 (JLONG_TO_SQLITE3_PTR pDb)).udp]) := by
  intro ks hks
  simp only [List.mem_cons, List.mem_singleton, List.not_mem_nil, or_false] at hks
  rcases hks with rfl | rfl | rfl
  · by_cases hp : (w.hook HookKind.trace (JLONG_TO_SQLITE3_PTR pDb)).udp = 0
    all_goals
      simp [Java_org_sqlite_SQLite_sqlite3_1trace, hx, GetMethodID, hm, World.emit,
        create_callback_context_ok _ _ _ _ hb hx, sqlite3_trace, World.setHook,
        free_callback_context_eq, hb, hp]
      exact ⟨[Event.getObjectClass x, Event.deleteLocalClass x, Event.malloc e.block,
        Event.newWeakRef (w.weakCount + 1) x], _, rfl, rfl, rfl, rfl, rfl⟩
  · by_cases hp : (w.hook HookKind.profile (JLONG_TO_SQLITE3_PTR pDb)).udp = 0
    all_goals
      simp [Java_org_sqlite_SQLite_sqlite3_1profile, hx, GetMethodID, hm, World.emit,
        create_callback_context_ok _ _ _ _ hb hx, sqlite3_profile, World.setHook,
        free_callback_context_eq, hb, hp]
      exact ⟨[Event.getObjectClass x, Event.deleteLocalClass x, Event.malloc e.block,
        Event.newWeakRef (w.weakCount + 1) x], _, rfl, rfl, rfl, rfl, rfl⟩
  · by_cases hp : (w.hook HookKind.update (JLONG_TO_SQLITE3_PTR pDb)).udp = 0
    all_goals
      simp [Java_org_sqlite_SQLite_sqlite3_1update_1hook, hx, GetMethodID, hm, World.emit,
        create_callback_context_ok _ _ _ _ hb hx, sqlite3_update_hook, World.setHook,
        free_callback_context_eq, hb, hp]
      exact ⟨[Event.getObjectClass x, Event.deleteLocalClass x, Event.malloc e.block,
        Event.newWeakRef (w.weakCount + 1) x], _, rfl, rfl, rfl, rfl, rfl⟩

/-- C1 at a concrete input: the trace hook of connection 1, holding the
context at 4096, is replaced; the call returns the handle of the new context
at 8192 and the only block freed since the start is 4096. -/
theorem C1_replace_witness :
    (11 : JObject) ≠ 0 ∧ Ext.second.mid ≠ 0 ∧ Ext.second.block ≠ 0 ∧
    (Java_org_sqlite_SQLite_sqlite3_1trace World.traced Ext.second 1 11).1
      = PTR_TO_JLONG 8192 ∧
    frees (Java_org_sqlite_SQLite_sqlite3_1trace World.traced Ext.second 1 11).2.log
      = [4096] :=
  ⟨by decide, by decide, by decide,
    (C1_replace_registers_then_frees_previous World.traced Ext.second 1 11
      (by decide) (by decide) (by decide) _ (List.mem_cons_self _ _)).1,
    by decide⟩

/-- C2 as stated fails: the busy setter creates the context at 8192, the
engine rejects the registration with code 21, and the setter returns without
freeing that context. -/
theorem C2_rejected_context_not_freed :
    (Java_org_sqlite_SQLite_sqlite3_1busy_1handler World.init Ext.rejected 1 10 30).1 = 21 ∧
    (21 : Int) ≠ SQLITE_OK ∧
    mallocs (Java_org_sqlite_SQLite_sqlite3_1busy_1handler World.init Ext.rejected 1 10 30).2.log
      = [8192] ∧
    8192 ∉ frees
      (Java_org_sqlite_SQLite_sqlite3_1busy_1handler World.init Ext.rejected 1 10 30).2.log := by
  decide

/-- C2, amended. Busy and authorizer setters whose registration of a newly
created context the engine rejects: the engine's code is returned, nothing is
freed, and the handle of the new context is in the caller's output array, so
that `free_callback_context` on that handle releases exactly the new
context. -/
theorem C2_rejected_context_left_to_caller (w : World) (e : Ext) (pDb : Int) (x : JObject)
    (pCc : JObject) (hx : x ≠ 0) (hm : e.mid ≠ 0) (hb : e.block ≠ 0) (h64 : e.block < 2 ^ 64)
    (hrc : e.rc ≠ SQLITE_OK) :
    ∀ f ∈ [Java_org_sqlite_SQLite_sqlite3_1busy_1handler,
           Java_org_sqlite_SQLite_sqlite3_1set_1authorizer],
      (f w e pDb x pCc).1 = e.rc ∧
      (f w e pDb x pCc).2.longArray pCc = PTR_TO_JLONG e.block ∧
      (∃ evs, (f w e pDb x pCc).2.log = w.log ++ evs ∧ mallocs evs = [e.block] ∧
        frees evs = []) ∧
      (Java_org_sqlite_SQLite_free_1callback_1context (f w e pDb x pCc).2
          ((f w e pDb x pCc).2.longArray pCc)).log
        = (f w e pDb x pCc).2.log ++ [Event.delWeakRef (w.weakCount + 1), Event.free e.block] := by
  intro f hf
  simp only [List.mem_cons, List.mem_singleton, List.not_mem_nil, or_false] at hf
  rcases hf with rfl | rfl
  · simp [Java_org_sqlite_SQLite_sqlite3_1busy_1handler, hx, GetMethodID, hm, World.emit,
      create_callback_context_ok _ _ _ _ hb hx, sqlite3_busy_handler, SetLongArrayRegion, hb, hrc,
      Java_org_sqlite_SQLite_free_1callback_1context, free_callback_context_eq,
      JLONG_TO_PTR_PTR_TO_JLONG _ h64]
    exact ⟨rfl, rfl⟩
  · simp [Java_org_sqlite_SQLite_sqlite3_1set_1authorizer, hx, GetMethodID, hm, World.emit,
      create_callback_context_ok _ _ _ _ hb hx, sqlite3_set_authorizer, SetLongArrayRegion, hb,
      hrc, Java_org_sqlite_SQLite_free_1callback_1context, free_callback_context_eq,
      JLONG_TO_PTR_PTR_TO_JLONG _ h64]
    exact ⟨rfl, rfl⟩

/-- C2 amended, at a concrete input: the authorizer setter with the engine
answering 21 returns 21 and leaves the handle 8192 in the output array. -/
theorem C2_rejected_witness :
    (10 : JObject) ≠ 0 ∧ Ext.rejected.mid ≠ 0 ∧ Ext.rejected.block ≠ 0 ∧
    Ext.rejected.block < 2 ^ 64 ∧ Ext.rejected.rc ≠ SQLITE_OK ∧
    (Java_org_sqlite_SQLite_sqlite3_1set_1authorizer World.init Ext.rejected 1 10 30).1 = 21 ∧
    (Java_org_sqlite_SQLite_sqlite3_1set_1authorizer World.init Ext.rejected 1 10 30).2.longArray
      30 = PTR_TO_JLONG 8192 :=
  ⟨by decide, by decide, by decide, by decide, by decide,
    (C2_rejected_context_left_to_caller World.init Ext.rejected 1 10 30 (by decide) (by decide)
      (by decide) (by decide) (by decide) _ (List.mem_cons_of_mem _ (List.mem_cons_self _ _))).1,
    (C2_rejected_context_left_to_caller World.init Ext.rejected 1 10 30 (by decide) (by decide)
      (by decide) (by decide) (by decide) _
      (List.mem_cons_of_mem _ (List.mem_cons_self _ _))).2.1⟩

/-- C3. Log setter, clearing or setting a new callback, when the engine's
configuration call is reached and returns a code other than success: that
code is returned, the static `logger_cc` is unchanged, nothing is freed, and
the configuration call is the only engine call. -/
theorem C3_log_rejected_keeps_previous (w : World) (e : Ext) (op : Int) (xLog : JObject)
    (hrc : e.rc ≠ SQLITE_OK) (hreach : xLog = 0 ∨ (e.mid ≠ 0 ∧ e.block ≠ 0)) :
    (Java_org_sqlite_SQLite_sqlite3_1config__ILorg_sqlite_SQLite_LogCallback_2 w e op xLog).1 = e.rc ∧
    (Java_org_sqlite_SQLite_sqlite3_1config__ILorg_sqlite_SQLite_LogCallback_2 w e op xLog).2.logger_cc
      = w.logger_cc ∧
    ∃ evs, (Java_org_sqlite_SQLite_sqlite3_1config__ILorg_sqlite_SQLite_LogCallback_2 w e op xLog).2.log
        = w.log ++ evs ∧
      frees evs = [] ∧
      engineCalls evs =
        [Event.register HookKind.log 0 op (if xLog = 0 then none else some Trampoline.my_log)
          (if xLog = 0 then 0 else e.block) e.rc] := by
  by_cases hx : xLog = 0
  · subst hx
    simp [Java_org_sqlite_SQLite_sqlite3_1config__ILorg_sqlite_SQLite_LogCallback_2, sqlite3_config, hrc, World.emit,
      frees, engineCalls, Event.isEngineCall]
  · rcases hreach with h | ⟨hm, hb⟩
    · exact absurd h hx
    · simp [Java_org_sqlite_SQLite_sqlite3_1config__ILorg_sqlite_SQLite_LogCallback_2, hx, GetMethodID, hm, World.emit,
        create_callback_context_ok _ _ _ _ hb hx, sqlite3_config, hb, hrc, frees, engineCalls,
        Event.isEngineCall]

/-- C3 at a concrete input: a logger (context at 4096) is on record, a second
set call is rejected by the engine with code 21; 21 is returned and the
logger on record is still the context at 4096, which was not freed. -/
theorem C3_log_rejected_witness :
    Ext.rejected.rc ≠ SQLITE_OK ∧
    ((11 : JObject) = 0 ∨ (Ext.rejected.mid ≠ 0 ∧ Ext.rejected.block ≠ 0)) ∧
    (Java_org_sqlite_SQLite_sqlite3_1config__ILorg_sqlite_SQLite_LogCallback_2 World.logged Ext.rejected 16 11).1
      = 21 ∧
    (Java_org_sqlite_SQLite_sqlite3_1config__ILorg_sqlite_SQLite_LogCallback_2 World.logged Ext.rejected 16
      11).2.logger_cc = 4096 ∧
    frees (Java_org_sqlite_SQLite_sqlite3_1config__ILorg_sqlite_SQLite_LogCallback_2 World.logged Ext.rejected 16
      11).2.log = [] :=
  ⟨by decide, by decide,
    (C3_log_rejected_keeps_previous World.logged Ext.rejected 16 11 (by decide)
      (by decide)).1,
    (C3_log_rejected_keeps_previous World.logged Ext.rejected 16 11 (by decide)
      (by decide)).2.1,
    by decide⟩

/-- C4 fails on the code. A logger is set (context at 4096) and cleared: the
clear frees the context at 4096 but the static `logger_cc` still holds 4096.
A second clear frees the block at 4096 a second time, and so does setting a
new logger after the clear. The engine accepts every call. -/
theorem C4_log_clear_leaves_dangling_logger_cc :
    frees (Java_org_sqlite_SQLite_sqlite3_1config__ILorg_sqlite_SQLite_LogCallback_2 World.logged Ext.sample 16
      0).2.log = [4096] ∧
    (Java_org_sqlite_SQLite_sqlite3_1config__ILorg_sqlite_SQLite_LogCallback_2 World.logged Ext.sample 16
      0).2.logger_cc = 4096 ∧
    frees (Java_org_sqlite_SQLite_sqlite3_1config__ILorg_sqlite_SQLite_LogCallback_2
      (Java_org_sqlite_SQLite_sqlite3_1config__ILorg_sqlite_SQLite_LogCallback_2 World.logged Ext.sample 16 0).2
      Ext.sample 16 0).2.log = [4096, 4096] ∧
    frees (Java_org_sqlite_SQLite_sqlite3_1config__ILorg_sqlite_SQLite_LogCallback_2
      (Java_org_sqlite_SQLite_sqlite3_1config__ILorg_sqlite_SQLite_LogCallback_2 World.logged Ext.sample 16 0).2
      Ext.second 16 11).2.log = [4096, 4096] := by
  decide

/-- C5. Trace, profile and update setters called with an absent target: 0 is
returned, the engine slot is empty (no callback, null user data), and the
effects are the registration of the null callback followed by the free of
exactly the context the engine held before (none when it held none). -/
theorem C5_clear_frees_previous (w : World) (e : Ext) (pDb : Int) :
    ∀ ks ∈ [(HookKind.trace, Java_org_sqlite_SQLite_sqlite3_1trace),
            (HookKind.profile, Java_org_sqlite_SQLite_sqlite3_1profile),
            (HookKind.update, Java_org_sqlite_SQLite_sqlite3_1update_1hook)],
      (ks.2 w e pDb 0).1 = 0 ∧
      (ks.2 w e pDb 0).2.hook ks.1 (JLONG_TO_SQLITE3_PTR pDb) = ⟨none, 0⟩ ∧
      ∃ post,
        (ks.2 w e pDb 0).2.log =
          w.log ++ [Event.register ks.1 (JLONG_TO_SQLITE3_PTR pDb) 0 none 0 SQLITE_OK]
            ++ post ∧
        engineCalls post = [] ∧
        frees post =
          (if (w.hook ks.1 (JLONG_TO_SQLITE3_PTR pDb)).udp = 0 then []
           else [(w.hook ks.1 (JLONG_TO_SQLITE3_PTR pDb)).udp]) := by
  intro ks hks
  simp only [List.mem_cons, List.mem_singleton, List.not_mem_nil, or_false] at hks
  rcases hks with rfl | rfl | rfl
  · by_cases hp : (w.hook HookKind.trace (JLONG_TO_SQLITE3_PTR pDb)).udp = 0 <;>
      simp [Java_org_sqlite_SQLite_sqlite3_1trace, World.emit, sqlite3_trace, World.setHook,
        free_callback_context_eq, hp, frees, engineCalls, Event.isEngineCall]
  · by_cases hp : (w.hook HookKind.profile (JLONG_TO_SQLITE3_PTR pDb)).udp = 0 <;>
      simp [Java_org_sqlite_SQLite_sqlite3_1profile, World.emit, sqlite3_profile, World.setHook,
        free_callback_context_eq, hp, frees, engineCalls, Event.isEngineCall]
  · by_cases hp : (w.hook HookKind.update (JLONG_TO_SQLITE3_PTR pDb)).udp = 0 <;>
      simp [Java_org_sqlite_SQLite_sqlite3_1update_1hook, World.emit, sqlite3_update_hook,
        World.setHook, free_callback_context_eq, hp, frees, engineCalls, Event.isEngineCall]

/-- C5 at a concrete input: clearing the trace hook of connection 1, which
holds the context at 4096, returns 0, empties the slot and frees 4096 once. -/
theorem C5_clear_witness :
    (Java_org_sqlite_SQLite_sqlite3_1trace World.traced Ext.sample 1 0).1 = 0 ∧
    (Java_org_sqlite_SQLite_sqlite3_1trace World.traced Ext.sample 1 0).2.hook HookKind.trace
      (JLONG_TO_SQLITE3_PTR 1) = ⟨none, 0⟩ ∧
    frees (Java_org_sqlite_SQLite_sqlite3_1trace World.traced Ext.sample 1 0).2.log = [4096] :=
  ⟨(C5_clear_frees_previous World.traced Ext.sample 1 _ (List.mem_cons_self _ _)).1,
    (C5_clear_frees_previous World.traced Ext.sample 1 _ (List.mem_cons_self _ _)).2.1,
    by decide⟩

/-- C6 as stated fails: the busy slot of connection 1 holds the context at
4096; the setter called with an absent target is accepted by the engine,
empties the slot and returns, and no block has been freed. -/
theorem C6_clear_frees_nothing :
    (World.busied.hook HookKind.busy (JLONG_TO_SQLITE3_PTR 1)).udp = 4096 ∧
    (Java_org_sqlite_SQLite_sqlite3_1busy_1handler World.busied Ext.sample 1 0 30).1
      = SQLITE_OK ∧
    (Java_org_sqlite_SQLite_sqlite3_1busy_1handler World.busied Ext.sample 1 0 30).2.hook
      HookKind.busy (JLONG_TO_SQLITE3_PTR 1) = ⟨none, 0⟩ ∧
    frees (Java_org_sqlite_SQLite_sqlite3_1busy_1handler World.busied Ext.sample 1 0 30).2.log
      = [] := by
  decide

/-- C6, amended. Busy, progress and authorizer setters called with an absent
target: the only effect is one engine call registering the null callback with
null user data; no context is freed. The progress slot is then empty; the
busy and authorizer slots are empty when the engine accepts the call. The
busy and authorizer setters return the engine's code, the progress setter
returns 0. -/
theorem C6_clear_only_unregisters (w : World) (e : Ext) (pDb : Int) (nOps : Int)
    (pCc : JObject) :
    ((Java_org_sqlite_SQLite_sqlite3_1busy_1handler w e pDb 0 pCc).1 = e.rc ∧
      (Java_org_sqlite_SQLite_sqlite3_1busy_1handler w e pDb 0 pCc).2.log =
        w.log ++ [Event.register HookKind.busy (JLONG_TO_SQLITE3_PTR pDb) 0 none 0 e.rc] ∧
      frees (Java_org_sqlite_SQLite_sqlite3_1busy_1handler w e pDb 0 pCc).2.log
        = frees w.log ∧
      (e.rc = SQLITE_OK →
        (Java_org_sqlite_SQLite_sqlite3_1busy_1handler w e pDb 0 pCc).2.hook HookKind.busy
          (JLONG_TO_SQLITE3_PTR pDb) = ⟨none, 0⟩)) ∧
    ((Java_org_sqlite_SQLite_sqlite3_1progress_1handler w e pDb nOps 0).1 = 0 ∧
      (Java_org_sqlite_SQLite_sqlite3_1progress_1handler w e pDb nOps 0).2.log =
        w.log ++
          [Event.register HookKind.progress (JLONG_TO_SQLITE3_PTR pDb) 0 none 0 SQLITE_OK] ∧
      frees (Java_org_sqlite_SQLite_sqlite3_1progress_1handler w e pDb nOps 0).2.log
        = frees w.log ∧
      (Java_org_sqlite_SQLite_sqlite3_1progress_1handler w e pDb nOps 0).2.hook
        HookKind.progress (JLONG_TO_SQLITE3_PTR pDb) = ⟨none, 0⟩) ∧
    ((Java_org_sqlite_SQLite_sqlite3_1set_1authorizer w e pDb 0 pCc).1 = e.rc ∧
      (Java_org_sqlite_SQLite_sqlite3_1set_1authorizer w e pDb 0 pCc).2.log =
        w.log ++
          [Event.register HookKind.authorizer (JLONG_TO_SQLITE3_PTR pDb) 0 none 0 e.rc] ∧
      frees (Java_org_sqlite_SQLite_sqlite3_1set_1authorizer w e pDb 0 pCc).2.log
        = frees w.log ∧
      (e.rc = SQLITE_OK →
        (Java_org_sqlite_SQLite_sqlite3_1set_1authorizer w e pDb 0 pCc).2.hook
          HookKind.authorizer (JLONG_TO_SQLITE3_PTR pDb) = ⟨none, 0⟩)) := by
  refine ⟨?_, ?_, ?_⟩
  · by_cases hrc : e.rc = SQLITE_OK <;>
      simp [Java_org_sqlite_SQLite_sqlite3_1busy_1handler, sqlite3_busy_handler, World.emit,
        World.setHook, hrc, frees_append, frees]
  · simp [Java_org_sqlite_SQLite_sqlite3_1progress_1handler, sqlite3_progress_handler,
      World.emit, World.setHook, frees_append, frees]
  · by_cases hrc : e.rc = SQLITE_OK <;>
      simp [Java_org_sqlite_SQLite_sqlite3_1set_1authorizer, sqlite3_set_authorizer, World.emit,
        World.setHook, hrc, frees_append, frees]

/-- C7. Signature mismatch. For each of the seven hook setters called with a
present target whose method lookup finds nothing, and for create_function
(function name converted, a scalar or step target present) when the lookup of
the step method, of the group factory (step target given) or of the finalizer
method (finalizer given) finds nothing: the call makes no engine call, asks
the allocator for nothing, frees nothing, and leaves the engine's slots, the
output arrays, `logger_cc` and all context blocks unchanged. -/
theorem C7_signature_mismatch_aborts (w : World) (e : Ext) (pDb : Int) (op : Int) (nOps : Int)
    (x : JObject) (pCc : JObject) (hx : x ≠ 0) (hm : e.mid = 0)
    (u : Ext) (functionName : JObject) (nArg : Int) (eTextRep : Int) (xFunc : JObject)
    (xStep : JObject) (xFinal : JObject) (hc : u.chars ≠ 0) (ht : xFunc ≠ 0 ∨ xStep ≠ 0)
    (hu : u.mid = 0 ∨ (xStep ≠ 0 ∧ u.cid = 0) ∨ (xFinal ≠ 0 ∧ u.fid = 0)) :
    AbortedBeforeRegistration [] w
      (Java_org_sqlite_SQLite_sqlite3_1config__ILorg_sqlite_SQLite_LogCallback_2 w e op x).2 ∧
    AbortedBeforeRegistration [] w
      (Java_org_sqlite_SQLite_sqlite3_1busy_1handler w e pDb x pCc).2 ∧
    AbortedBeforeRegistration [] w
      (Java_org_sqlite_SQLite_sqlite3_1progress_1handler w e pDb nOps x).2 ∧
    AbortedBeforeRegistration [] w (Java_org_sqlite_SQLite_sqlite3_1trace w e pDb x).2 ∧
    AbortedBeforeRegistration [] w (Java_org_sqlite_SQLite_sqlite3_1profile w e pDb x).2 ∧
    AbortedBeforeRegistration [] w (Java_org_sqlite_SQLite_sqlite3_1update_1hook w e pDb x).2 ∧
    AbortedBeforeRegistration [] w
      (Java_org_sqlite_SQLite_sqlite3_1set_1authorizer w e pDb x pCc).2 ∧
    AbortedBeforeRegistration [] w
      (Java_org_sqlite_SQLite_sqlite3_1create_1function_1v2 w u pDb functionName nArg eTextRep
        xFunc xStep xFinal).2 := by
  refine ⟨?_, ?_, ?_, ?_, ?_, ?_, ?_, ?_⟩
  · simp [AbortedBeforeRegistration, Java_org_sqlite_SQLite_sqlite3_1config__ILorg_sqlite_SQLite_LogCallback_2, hx,
      GetMethodID, hm, World.emit, throwException, frees, mallocs, engineCalls,
      Event.isEngineCall]
  · simp [AbortedBeforeRegistration, Java_org_sqlite_SQLite_sqlite3_1busy_1handler, hx,
      GetMethodID, hm, World.emit, throwException, frees, mallocs, engineCalls,
      Event.isEngineCall]
  · simp [AbortedBeforeRegistration, Java_org_sqlite_SQLite_sqlite3_1progress_1handler, hx,
      GetMethodID, hm, World.emit, throwException, frees, mallocs, engineCalls,
      Event.isEngineCall]
  · simp [AbortedBeforeRegistration, Java_org_sqlite_SQLite_sqlite3_1trace, hx,
      GetMethodID, hm, World.emit, throwException, frees, mallocs, engineCalls,
      Event.isEngineCall]
  · simp [AbortedBeforeRegistration, Java_org_sqlite_SQLite_sqlite3_1profile, hx,
      GetMethodID, hm, World.emit, throwException, frees, mallocs, engineCalls,
      Event.isEngineCall]
  · simp [AbortedBeforeRegistration, Java_org_sqlite_SQLite_sqlite3_1update_1hook, hx,
      GetMethodID, hm, World.emit, throwException, frees, mallocs, engineCalls,
      Event.isEngineCall]
  · simp [AbortedBeforeRegistration, Java_org_sqlite_SQLite_sqlite3_1set_1authorizer, hx,
      GetMethodID, hm, World.emit, throwException, frees, mallocs, engineCalls,
      Event.isEngineCall]
  · by_cases h1 : u.mid = 0
    · simp [AbortedBeforeRegistration, Java_org_sqlite_SQLite_sqlite3_1create_1function_1v2,
        GetStringUTFChars, hc, ht, GetMethodID, h1, World.emit, throwException, frees, mallocs,
        engineCalls, Event.isEngineCall]
    · by_cases h2 : xStep ≠ 0 ∧ u.cid = 0
      · simp [AbortedBeforeRegistration, Java_org_sqlite_SQLite_sqlite3_1create_1function_1v2,
          GetStringUTFChars, hc, ht, GetMethodID, h1, h2.1, h2.2, World.emit, throwException,
          frees, mallocs, engineCalls, Event.isEngineCall]
      · have h3 : xFinal ≠ 0 ∧ u.fid = 0 := by
          rcases hu with h | h | h
          · exact absurd h h1
          · exact absurd h h2
          · exact h
        by_cases hs : xStep = 0
        · have hf : xFunc ≠ 0 := by
            rcases ht with h | h
            · exact h
            · exact absurd hs h
          simp [AbortedBeforeRegistration, Java_org_sqlite_SQLite_sqlite3_1create_1function_1v2,
            GetStringUTFChars, hc, hf, GetMethodID, h1, hs, h3.1, h3.2, World.emit,
            throwException, frees, mallocs, engineCalls, Event.isEngineCall]
        · have hcid : u.cid ≠ 0 := fun h => h2 ⟨hs, h⟩
          simp [AbortedBeforeRegistration, Java_org_sqlite_SQLite_sqlite3_1create_1function_1v2,
            GetStringUTFChars, hc, ht, GetMethodID, h1, hs, hcid, h3.1, h3.2, World.emit,
            throwException, frees, mallocs, engineCalls, Event.isEngineCall]

/-- C7 at a concrete input: a busy target without a `busy` method, and a step
target without `createAggregateContext`, on the initial world. -/
theorem C7_signature_mismatch_witness :
    (10 : JObject) ≠ 0 ∧ Ext.mismatch.mid = 0 ∧
    (⟨7, 0, 9, 4096, 0, 512⟩ : Ext).chars ≠ 0 ∧ ((0 : JObject) ≠ 0 ∨ (11 : JObject) ≠ 0) ∧
    AbortedBeforeRegistration [] World.init
      (Java_org_sqlite_SQLite_sqlite3_1busy_1handler World.init Ext.mismatch 1 10 30).2 ∧
    AbortedBeforeRegistration [] World.init
      (Java_org_sqlite_SQLite_sqlite3_1create_1function_1v2 World.init ⟨7, 0, 9, 4096, 0, 512⟩
        1 40 1 1 0 11 12).2 :=
  ⟨by decide, by decide, by decide, by decide,
    (C7_signature_mismatch_aborts World.init Ext.mismatch 1 16 100 10 30 (by decide) (by decide)
      ⟨7, 0, 9, 4096, 0, 512⟩ 40 1 1 0 11 12 (by decide) (by decide) (by decide)).2.1,
    (C7_signature_mismatch_aborts World.init Ext.mismatch 1 16 100 10 30 (by decide) (by decide)
      ⟨7, 0, 9, 4096, 0, 512⟩ 40 1 1 0 11 12 (by decide) (by decide)
      (by decide)).2.2.2.2.2.2.2⟩

/-- C8. Allocation failure. When the allocator answers `NULL`,
`create_callback_context` and `create_udf_callback_context` return `NULL` and
write no byte of any context block. A hook setter that reaches the allocation
(target present, method found), and create_function when it reaches it
(function name converted, a target present, every lookup successful), then
makes no engine call, frees nothing and leaves the slots, the output arrays
and `logger_cc` unchanged; the log, busy, authorizer and create_function
setters return `SQLITE_NOMEM`, the progress, trace, profile and update
setters return 0. -/
theorem C8_allocation_failure_aborts (w : World) (e : Ext) (pDb : Int) (op : Int) (nOps : Int)
    (x : JObject) (pCc : JObject) (hx : x ≠ 0) (hm : e.mid ≠ 0) (hb : e.block = 0)
    (u : Ext) (functionName : JObject) (nArg : Int) (eTextRep : Int) (xFunc : JObject)
    (xStep : JObject) (xFinal : JObject) (hc : u.chars ≠ 0) (ht : xFunc ≠ 0 ∨ xStep ≠ 0)
    (hum : u.mid ≠ 0) (huc : xStep ≠ 0 → u.cid ≠ 0) (huf : xFinal ≠ 0 → u.fid ≠ 0)
    (hub : u.block = 0) (mid : JMethodID) (cid : JMethodID) (fid : JMethodID) (obj : JObject)
    (fobj : JObject) :
    ((create_callback_context w 0 mid obj).1 = 0 ∧
      (create_callback_context w 0 mid obj).2.cc_at = w.cc_at ∧
      (create_callback_context w 0 mid obj).2.udf_at = w.udf_at) ∧
    ((create_udf_callback_context w 0 mid cid obj fid fobj).1 = 0 ∧
      (create_udf_callback_context w 0 mid cid obj fid fobj).2.cc_at = w.cc_at ∧
      (create_udf_callback_context w 0 mid cid obj fid fobj).2.udf_at = w.udf_at) ∧
    ((Java_org_sqlite_SQLite_sqlite3_1config__ILorg_sqlite_SQLite_LogCallback_2 w e op x).1 = SQLITE_NOMEM ∧
      AbortedBeforeRegistration [0] w
        (Java_org_sqlite_SQLite_sqlite3_1config__ILorg_sqlite_SQLite_LogCallback_2 w e op x).2) ∧
    ((Java_org_sqlite_SQLite_sqlite3_1busy_1handler w e pDb x pCc).1 = SQLITE_NOMEM ∧
      AbortedBeforeRegistration [0] w
        (Java_org_sqlite_SQLite_sqlite3_1busy_1handler w e pDb x pCc).2) ∧
    ((Java_org_sqlite_SQLite_sqlite3_1set_1authorizer w e pDb x pCc).1 = SQLITE_NOMEM ∧
      AbortedBeforeRegistration [0] w
        (Java_org_sqlite_SQLite_sqlite3_1set_1authorizer w e pDb x pCc).2) ∧
    ((Java_org_sqlite_SQLite_sqlite3_1create_1function_1v2 w u pDb functionName nArg eTextRep
        xFunc xStep xFinal).1 = SQLITE_NOMEM ∧
      AbortedBeforeRegistration [0] w
        (Java_org_sqlite_SQLite_sqlite3_1create_1function_1v2 w u pDb functionName nArg eTextRep
          xFunc xStep xFinal).2) ∧
    ((Java_org_sqlite_SQLite_sqlite3_1progress_1handler w e pDb nOps x).1 = 0 ∧
      AbortedBeforeRegistration [0] w
        (Java_org_sqlite_SQLite_sqlite3_1progress_1handler w e pDb nOps x).2) ∧
    ((Java_org_sqlite_SQLite_sqlite3_1trace w e pDb x).1 = 0 ∧
      AbortedBeforeRegistration [0] w (Java_org_sqlite_SQLite_sqlite3_1trace w e pDb x).2) ∧
    ((Java_org_sqlite_SQLite_sqlite3_1profile w e pDb x).1 = 0 ∧
      AbortedBeforeRegistration [0] w (Java_org_sqlite_SQLite_sqlite3_1profile w e pDb x).2) ∧
    ((Java_org_sqlite_SQLite_sqlite3_1update_1hook w e pDb x).1 = 0 ∧
      AbortedBeforeRegistration [0] w
        (Java_org_sqlite_SQLite_sqlite3_1update_1hook w e pDb x).2) := by
  refine ⟨?_, ?_, ?_, ?_, ?_, ?_, ?_, ?_, ?_, ?_⟩
  · rw [create_callback_context_oom]
    exact ⟨rfl, (throwException_frame _ _).2.2.2.1, (throwException_frame _ _).2.2.2.2.1⟩
  · rw [create_udf_callback_context_oom]
    exact ⟨rfl, (throwException_frame _ _).2.2.2.1, (throwException_frame _ _).2.2.2.2.1⟩
  · have h : (Java_org_sqlite_SQLite_sqlite3_1config__ILorg_sqlite_SQLite_LogCallback_2 w e op x).2 = throwException
        { w with log := w.log ++ [Event.getObjectClass x, Event.deleteLocalClass x,
          Event.malloc 0] } "OOM" := by
      simp [Java_org_sqlite_SQLite_sqlite3_1config__ILorg_sqlite_SQLite_LogCallback_2, hx, hm, hb, GetMethodID, create_callback_context_oom,
        World.emit]
    refine ⟨?_, ?_⟩
    · simp [Java_org_sqlite_SQLite_sqlite3_1config__ILorg_sqlite_SQLite_LogCallback_2, hx, hm, hb, GetMethodID, create_callback_context_oom]
    · rw [h]
      exact aborted_of_throw _ _ _ _ _ rfl rfl rfl
  · have h : (Java_org_sqlite_SQLite_sqlite3_1busy_1handler w e pDb x pCc).2 = throwException
        { w with log := w.log ++ [Event.getObjectClass x, Event.deleteLocalClass x,
          Event.malloc 0] } "OOM" := by
      simp [Java_org_sqlite_SQLite_sqlite3_1busy_1handler, hx, hm, hb, GetMethodID, create_callback_context_oom,
        World.emit]
    refine ⟨?_, ?_⟩
    · simp [Java_org_sqlite_SQLite_sqlite3_1busy_1handler, hx, hm, hb, GetMethodID, create_callback_context_oom]
    · rw [h]
      exact aborted_of_throw _ _ _ _ _ rfl rfl rfl
  · have h : (Java_org_sqlite_SQLite_sqlite3_1set_1authorizer w e pDb x pCc).2 = throwException
        { w with log := w.log ++ [Event.getObjectClass x, Event.deleteLocalClass x,
          Event.malloc 0] } "OOM" := by
      simp [Java_org_sqlite_SQLite_sqlite3_1set_1authorizer, hx, hm, hb, GetMethodID, create_callback_context_oom,
        World.emit]
    refine ⟨?_, ?_⟩
    · simp [Java_org_sqlite_SQLite_sqlite3_1set_1authorizer, hx, hm, hb, GetMethodID, create_callback_context_oom]
    · rw [h]
      exact aborted_of_throw _ _ _ _ _ rfl rfl rfl
  · exact create_function_oom w u pDb functionName nArg eTextRep xFunc xStep xFinal hc ht hum huc
      huf hub
  · have h : (Java_org_sqlite_SQLite_sqlite3_1progress_1handler w e pDb nOps x).2 = throwException
        { w with log := w.log ++ [Event.getObjectClass x, Event.deleteLocalClass x,
          Event.malloc 0] } "OOM" := by
      simp [Java_org_sqlite_SQLite_sqlite3_1progress_1handler, hx, hm, hb, GetMethodID, create_callback_context_oom,
        World.emit]
    refine ⟨?_, ?_⟩
    · simp [Java_org_sqlite_SQLite_sqlite3_1progress_1handler, hx, hm, hb, GetMethodID, create_callback_context_oom]
    · rw [h]
      exact aborted_of_throw _ _ _ _ _ rfl rfl rfl
  · have h : (Java_org_sqlite_SQLite_sqlite3_1trace w e pDb x).2 = throwException
        { w with log := w.log ++ [Event.getObjectClass x, Event.deleteLocalClass x,
          Event.malloc 0] } "OOM" := by
      simp [Java_org_sqlite_SQLite_sqlite3_1trace, hx, hm, hb, GetMethodID, create_callback_context_oom,
        World.emit]
    refine ⟨?_, ?_⟩
    · simp [Java_org_sqlite_SQLite_sqlite3_1trace, hx, hm, hb, GetMethodID, create_callback_context_oom]
    · rw [h]
      exact aborted_of_throw _ _ _ _ _ rfl rfl rfl
  · have h : (Java_org_sqlite_SQLite_sqlite3_1profile w e pDb x).2 = throwException
        { w with log := w.log ++ [Event.getObjectClass x, Event.deleteLocalClass x,
          Event.malloc 0] } "OOM" := by
      simp [Java_org_sqlite_SQLite_sqlite3_1profile, hx, hm, hb, GetMethodID, create_callback_context_oom,
        World.emit]
    refine ⟨?_, ?_⟩
    · simp [Java_org_sqlite_SQLite_sqlite3_1profile, hx, hm, hb, GetMethodID, create_callback_context_oom]
    · rw [h]
      exact aborted_of_throw _ _ _ _ _ rfl rfl rfl
  · have h : (Java_org_sqlite_SQLite_sqlite3_1update_1hook w e pDb x).2 = throwException
        { w with log := w.log ++ [Event.getObjectClass x, Event.deleteLocalClass x,
          Event.malloc 0] } "OOM" := by
      simp [Java_org_sqlite_SQLite_sqlite3_1update_1hook, hx, hm, hb, GetMethodID, create_callback_context_oom,
        World.emit]
    refine ⟨?_, ?_⟩
    · simp [Java_org_sqlite_SQLite_sqlite3_1update_1hook, hx, hm, hb, GetMethodID, create_callback_context_oom]
    · rw [h]
      exact aborted_of_throw _ _ _ _ _ rfl rfl rfl

/-- C8 at a concrete input: on the initial world with the allocator out of
memory, the busy setter returns `SQLITE_NOMEM`, the trace setter returns 0,
and create_function with a scalar target returns `SQLITE_NOMEM`. -/
theorem C8_allocation_failure_witness :
    (10 : JObject) ≠ 0 ∧ Ext.oom.mid ≠ 0 ∧ Ext.oom.block = 0 ∧ Ext.oom.chars ≠ 0 ∧
    ((10 : JObject) ≠ 0 ∨ (0 : JObject) ≠ 0) ∧
    (Java_org_sqlite_SQLite_sqlite3_1busy_1handler World.init Ext.oom 1 10 30).1
      = SQLITE_NOMEM ∧
    (Java_org_sqlite_SQLite_sqlite3_1create_1function_1v2 World.init Ext.oom 1 40 1 1 10 0 0).1
      = SQLITE_NOMEM ∧
    (Java_org_sqlite_SQLite_sqlite3_1trace World.init Ext.oom 1 10).1 = 0 :=
  ⟨by decide, by decide, by decide, by decide, by decide,
    (C8_allocation_failure_aborts World.init Ext.oom 1 16 100 10 30 (by decide) (by decide)
      (by decide) Ext.oom 40 1 1 10 0 0 (by decide) (by decide) (by decide) (by decide)
      (by decide) (by decide) 7 8 9 10 0).2.2.2.1.1,
    (C8_allocation_failure_aborts World.init Ext.oom 1 16 100 10 30 (by decide) (by decide)
      (by decide) Ext.oom 40 1 1 10 0 0 (by decide) (by decide) (by decide) (by decide)
      (by decide) (by decide) 7 8 9 10 0).2.2.2.2.2.1.1,
    (C8_allocation_failure_aborts World.init Ext.oom 1 16 100 10 30 (by decide) (by decide)
      (by decide) Ext.oom 40 1 1 10 0 0 (by decide) (by decide) (by decide) (by decide)
      (by decide) (by decide) 7 8 9 10 0).2.2.2.2.2.2.2.1.1⟩

/-- C9. `free_callback_context` and `free_udf_callback_context` leave the
world as it is when called with `NULL`. Called with a block `p`, the first
deletes the weak reference stored in the block and then releases the block;
the second attaches the thread, deletes the target's weak reference, deletes
the finalizer's weak reference when the block holds one, and then releases
the block. Nothing else changes and each effect occurs once. -/
theorem C9_free_null_is_noop_else_releases_once (w : World) (p : Ptr) (hp : p ≠ 0) :
    free_callback_context w 0 = w ∧
    free_udf_callback_context w 0 = w ∧
    free_callback_context w p =
      { w with log := w.log ++ [Event.delWeakRef (w.cc_at p).obj, Event.free p] } ∧
    free_udf_callback_context w p =
      { w with log := w.log ++
          [Event.attach (w.udf_at p).vm, Event.delWeakRef (w.udf_at p).obj] ++
          (if (w.udf_at p).fobj ≠ 0 then [Event.delWeakRef (w.udf_at p).fobj] else []) ++
          [Event.free p] } := by
  refine ⟨?_, ?_, ?_, ?_⟩
  · simp [free_callback_context, sqlite3_free]
  · simp [free_udf_callback_context, sqlite3_free]
  · simp [free_callback_context, sqlite3_free, DEL_WEAK_GLOBAL_REF, World.emit, hp]
  · by_cases hf : (w.udf_at p).fobj = 0 <;>
      simp [free_udf_callback_context, sqlite3_free, DEL_WEAK_GLOBAL_REF, AttachCurrentThread,
        World.emit, hp, hf]

/-- C9 at a concrete input: freeing the trace context at 4096 deletes its
weak reference (number 1) once and releases the block once. -/
theorem C9_free_witness :
    (4096 : Ptr) ≠ 0 ∧
    (free_callback_context World.traced 4096).log =
      World.traced.log ++ [Event.delWeakRef 1, Event.free 4096] ∧
    delWeakRefs (free_callback_context World.traced 4096).log = [1] ∧
    frees (free_callback_context World.traced 4096).log = [4096] :=
  ⟨by decide,
    congrArg World.log
      (C9_free_null_is_noop_else_releases_once World.traced 4096 (by decide)).2.2.1,
    by decide, by decide⟩

/-- C10 fails on the code. With the managed call raising (an exception is
pending when the trampoline returns), the busy and progress trampolines
return the raw value of the failed call, 1 in one run and 0 in the other, and
the authorizer returns the raw 0 (allow) or 1 (deny) likewise. -/
theorem C10_failed_call_raw_value_returned :
    ((busy World.busied ⟨1, true⟩ 4096 3).1 = 1 ∧ (busy World.busied ⟨0, true⟩ 4096 3).1 = 0 ∧
      ExceptionCheck (busy World.busied ⟨1, true⟩ 4096 3).2 = true) ∧
    ((progress World.busied ⟨1, true⟩ 4096).1 = 1 ∧
      (progress World.busied ⟨0, true⟩ 4096).1 = 0 ∧
      ExceptionCheck (progress World.busied ⟨1, true⟩ 4096).2 = true) ∧
    ((authorizer World.busied ⟨1, true⟩ 4096 21 0 0 0 0).1 = 1 ∧
      (authorizer World.busied ⟨0, true⟩ 4096 21 0 0 0 0).1 = 0 ∧
      ExceptionCheck (authorizer World.busied ⟨1, true⟩ 4096 21 0 0 0 0).2 = true) := by
  decide


/-! ## Trampolines -/

theorem managedCalls_append (a b : List Event) :
    managedCalls (a ++ b) = managedCalls a ++ managedCalls b := by
  induction a with
  | nil => rfl
  | cons x xs ih => cases x <;> simp [managedCalls, ih]

theorem attaches_append (a b : List Event) : attaches (a ++ b) = attaches a ++ attaches b := by
  induction a with
  | nil => rfl
  | cons x xs ih => cases x <;> simp [attaches, ih]

theorem detaches_append (a b : List Event) : detaches (a ++ b) = detaches a ++ detaches b := by
  induction a with
  | nil => rfl
  | cons x xs ih => cases x <;> simp [detaches, ih]

/-- C12. One call of the busy trampoline calls the target's method once with
the attempt count and, the method returning the boolean `b` without raising,
returns 0 exactly when `b` is false; the progress trampoline calls the method
once and returns nonzero exactly when `b` is true; the authorizer trampoline
calls the method once with the action code and the four strings and returns
the decision code (a 32-bit `int`) unchanged. -/
theorem C12_trampoline_returns_method_result (w : World) (udp : Ptr) (count : Int) (b : Bool)
    (code : Int) (actionCode : Int) (zArg1 : Ptr) (zArg2 : Ptr) (zDbName : Ptr)
    (zTriggerName : Ptr) (hlo : -2 ^ 31 ≤ code) (hhi : code < 2 ^ 31) :
    (managedCalls (busy w ⟨if b then 1 else 0, false⟩ udp count).2.log =
        managedCalls w.log ++ [((w.cc_at udp).obj, (w.cc_at udp).mid, [Arg.num count])] ∧
      ((busy w ⟨if b then 1 else 0, false⟩ udp count).1 = 0 ↔ b = false)) ∧
    (managedCalls (progress w ⟨if b then 1 else 0, false⟩ udp).2.log =
        managedCalls w.log ++ [((w.cc_at udp).obj, (w.cc_at udp).mid, [])] ∧
      ((progress w ⟨if b then 1 else 0, false⟩ udp).1 ≠ 0 ↔ b = true)) ∧
    (managedCalls
        (authorizer w ⟨code, false⟩ udp actionCode zArg1 zArg2 zDbName zTriggerName).2.log =
        managedCalls w.log ++ [((w.cc_at udp).obj, (w.cc_at udp).mid,
          [Arg.num actionCode, Arg.str zArg1, Arg.str zArg2, Arg.str zDbName,
            Arg.str zTriggerName])] ∧
      (authorizer w ⟨code, false⟩ udp actionCode zArg1 zArg2 zDbName zTriggerName).1 = code) := by
  refine ⟨⟨?_, ?_⟩, ⟨?_, ?_⟩, ⟨?_, ?_⟩⟩
  · simp [busy, CallBooleanMethod, AttachCurrentThread, World.emit, managedCalls_append,
      managedCalls]
  · cases b <;> simp [busy, CallBooleanMethod]
  · simp [progress, CallBooleanMethod, AttachCurrentThread, World.emit, managedCalls_append,
      managedCalls]
  · cases b <;> simp [progress, CallBooleanMethod]
  · simp [authorizer, CallIntMethod, AttachCurrentThread, NewStringUTF, DeleteLocalString,
      World.emit, managedCalls_append, managedCalls]
  · simp only [authorizer, CallIntMethod, ite_self]
    omega

/-- C12 at a concrete input: the busy handler registered in `World.busied`
answers false on attempt 3; the trampoline calls it once and returns 0. The
authorizer's decision code 2 comes back as 2. -/
theorem C12_trampoline_witness :
    (-2 ^ 31 ≤ (2 : Int)) ∧ ((2 : Int) < 2 ^ 31) ∧
    ((busy World.busied ⟨if false then 1 else 0, false⟩ 4096 3).1 = 0 ↔ false = false) ∧
    (authorizer World.busied ⟨2, false⟩ 4096 21 0 0 0 0).1 = 2 :=
  ⟨by decide, by decide,
    (C12_trampoline_returns_method_result World.busied 4096 3 false 2 21 0 0 0 0 (by decide)
      (by decide)).1.2,
    (C12_trampoline_returns_method_result World.busied 4096 3 false 2 21 0 0 0 0 (by decide)
      (by decide)).2.2.2⟩

/-! ### Effects of one trampoline call -/

theorem my_log_log (w : World) (m : Managed) (udp : Ptr) (err : Int) (zMsg : Ptr) :
    (my_log w m udp err zMsg).log = w.log ++
      [Event.attach (w.cc_at udp).vm, Event.newStringUTF zMsg,
        Event.callMethod (w.cc_at udp).obj (w.cc_at udp).mid [Arg.num err, Arg.str zMsg],
        Event.deleteLocalString zMsg] ∧
    (my_log w m udp err zMsg).cc_at = w.cc_at := by
  cases h : m.threw <;>
    simp [my_log, CallVoidMethod, AttachCurrentThread, NewStringUTF, DeleteLocalString,
      World.emit, h]

theorem busy_log (w : World) (m : Managed) (udp : Ptr) (count : Int) :
    (busy w m udp count).2.log = w.log ++
      [Event.attach (w.cc_at udp).vm,
        Event.callMethod (w.cc_at udp).obj (w.cc_at udp).mid [Arg.num count]] ∧
    (busy w m udp count).2.cc_at = w.cc_at := by
  cases h : m.threw <;>
    simp [busy, CallBooleanMethod, AttachCurrentThread, World.emit, h]

theorem progress_log (w : World) (m : Managed) (udp : Ptr) :
    (progress w m udp).2.log = w.log ++
      [Event.attach (w.cc_at udp).vm,
        Event.callMethod (w.cc_at udp).obj (w.cc_at udp).mid []] ∧
    (progress w m udp).2.cc_at = w.cc_at := by
  cases h : m.threw <;>
    simp [progress, CallBooleanMethod, AttachCurrentThread, World.emit, h]

theorem trace_log (w : World) (m : Managed) (arg : Ptr) (zMsg : Ptr) :
    (trace w m arg zMsg).log = w.log ++
      [Event.attach (w.cc_at arg).vm, Event.newStringUTF zMsg,
        Event.callMethod (w.cc_at arg).obj (w.cc_at arg).mid [Arg.str zMsg],
        Event.deleteLocalString zMsg] ∧
    (trace w m arg zMsg).cc_at = w.cc_at := by
  cases h : m.threw <;>
    simp [trace, CallVoidMethod, AttachCurrentThread, NewStringUTF, DeleteLocalString,
      World.emit, h]

theorem profile_log (w : World) (m : Managed) (arg : Ptr) (zMsg : Ptr) (ns : Nat) :
    (profile w m arg zMsg ns).log = w.log ++
      [Event.attach (w.cc_at arg).vm, Event.newStringUTF zMsg,
        Event.callMethod (w.cc_at arg).obj (w.cc_at arg).mid [Arg.str zMsg, Arg.num ns],
        Event.deleteLocalString zMsg] ∧
    (profile w m arg zMsg ns).cc_at = w.cc_at := by
  cases h : m.threw <;>
    simp [profile, CallVoidMethod, AttachCurrentThread, NewStringUTF, DeleteLocalString,
      World.emit, h]

theorem update_hook_log (w : World) (m : Managed) (arg : Ptr) (actionCode : Int)
    (zDbName : Ptr) (zTblName : Ptr) (rowId : Int) :
    (update_hook w m arg actionCode zDbName zTblName rowId).log = w.log ++
      [Event.attach (w.cc_at arg).vm, Event.newStringUTF zDbName, Event.newStringUTF zTblName,
        Event.callMethod (w.cc_at arg).obj (w.cc_at arg).mid
          [Arg.num actionCode, Arg.str zDbName, Arg.str zTblName, Arg.num rowId],
        Event.deleteLocalString zDbName, Event.deleteLocalString zTblName] ∧
    (update_hook w m arg actionCode zDbName zTblName rowId).cc_at = w.cc_at := by
  cases h : m.threw <;>
    simp [update_hook, CallVoidMethod, AttachCurrentThread, NewStringUTF, DeleteLocalString,
      World.emit, h]

theorem authorizer_log (w : World) (m : Managed) (arg : Ptr) (actionCode : Int) (zArg1 : Ptr)
    (zArg2 : Ptr) (zDbName : Ptr) (zTriggerName : Ptr) :
    (authorizer w m arg actionCode zArg1 zArg2 zDbName zTriggerName).2.log = w.log ++
      [Event.attach (w.cc_at arg).vm, Event.newStringUTF zArg1, Event.newStringUTF zArg2,
        Event.newStringUTF zDbName, Event.newStringUTF zTriggerName,
        Event.callMethod (w.cc_at arg).obj (w.cc_at arg).mid
          [Arg.num actionCode, Arg.str zArg1, Arg.str zArg2, Arg.str zDbName,
            Arg.str zTriggerName],
        Event.deleteLocalString zArg1, Event.deleteLocalString zArg2,
        Event.deleteLocalString zDbName, Event.deleteLocalString zTriggerName] ∧
    (authorizer w m arg actionCode zArg1 zArg2 zDbName zTriggerName).2.cc_at = w.cc_at := by
  cases h : m.threw <;>
    simp [authorizer, CallIntMethod, AttachCurrentThread, NewStringUTF, DeleteLocalString,
      World.emit, h]

theorem func_or_step_log (w : World) (m : Managed) (b : JObject) (ctx : Ptr) (argc : Int)
    (argv : List Ptr) :
    (func_or_step w m b ctx argc argv).log = w.log ++
      (if b = 0 then
        [Event.attach (w.udf_at (w.user_data ctx)).vm, Event.resultErrorNomem ctx]
      else
        [Event.attach (w.udf_at (w.user_data ctx)).vm, Event.newLongArray argc b,
          Event.setLongArrayValues b argv,
          Event.callMethod (w.udf_at (w.user_data ctx)).obj (w.udf_at (w.user_data ctx)).mid
            [Arg.num ctx, Arg.ref b],
          Event.deleteLocalArray b]) := by
  by_cases hb : b = 0 <;> cases h : m.threw <;>
    simp [func_or_step, sqlite3_user_data, CallVoidMethod, AttachCurrentThread, NewLongArray,
      SetLongArrayValues, DeleteLocalArray, sqlite3_result_error_nomem, World.emit, h, hb]

theorem final_step_log (w : World) (m : Managed) (ctx : Ptr) :
    (final_step w m ctx).log = w.log ++
      [Event.attach (w.udf_at (w.user_data ctx)).vm,
        Event.callMethod (w.udf_at (w.user_data ctx)).fobj (w.udf_at (w.user_data ctx)).fid
          [Arg.num ctx]] := by
  cases h : m.threw <;>
    simp [final_step, sqlite3_user_data, CallVoidMethod, AttachCurrentThread, World.emit, h]

theorem free_udf_callback_context_log (w : World) (p : Ptr) (hp : p ≠ 0) :
    (free_udf_callback_context w p).log = w.log ++
      (Event.attach (w.udf_at p).vm ::
        (Event.delWeakRef (w.udf_at p).obj ::
          ((if (w.udf_at p).fobj ≠ 0 then [Event.delWeakRef (w.udf_at p).fobj] else []) ++
            [Event.free p]))) := by
  by_cases hf : (w.udf_at p).fobj = 0 <;>
    simp [free_udf_callback_context, sqlite3_free, DEL_WEAK_GLOBAL_REF, AttachCurrentThread,
      World.emit, hp, hf]

/-- Running a trampoline over a list of engine calls: the managed calls are
the calls' arguments, in order, on the target and method of the context. -/
theorem foldl_managedCalls {α : Type} (step : World → α → World) (udp : Ptr)
    (args : α → List Arg)
    (h : ∀ v a, (step v a).cc_at = v.cc_at ∧
      managedCalls (step v a).log =
        managedCalls v.log ++ [((v.cc_at udp).obj, (v.cc_at udp).mid, args a)]) :
    ∀ (l : List α) (w : World), (l.foldl step w).cc_at = w.cc_at ∧
      managedCalls (l.foldl step w).log =
        managedCalls w.log ++
          l.map (fun a => ((w.cc_at udp).obj, (w.cc_at udp).mid, args a)) := by
  intro l
  induction l with
  | nil => intro w; simp
  | cons a t ih =>
    intro w
    obtain ⟨h1, h2⟩ := h w a
    obtain ⟨i1, i2⟩ := ih (step w a)
    refine ⟨?_, ?_⟩
    · simp only [List.foldl_cons]
      rw [i1, h1]
    · simp only [List.foldl_cons, List.map_cons]
      rw [i2, h2, h1]
      simp

/-- C11 as stated fails: the weak reference of the busy context at 4096
(reference 1) names a collected object, and the busy trampoline still calls
the method through it and returns the value the call handed back, 1. -/
theorem C11_collected_target_still_called :
    ((World.busied.gc 1).cc_at 4096).obj ∈ (World.busied.gc 1).collected ∧
    managedCalls (busy (World.busied.gc 1) ⟨1, false⟩ 4096 3).2.log = [(1, 7, [Arg.num 3])] ∧
    (busy (World.busied.gc 1) ⟨1, false⟩ 4096 3).1 = 1 := by
  decide

/-- C11, amended. No trampoline resolves the weak reference before the call:
in every world, so also when the reference stored in the context names a
collected object, each of the nine trampolines calls the managed method once
through the stored reference (`func_or_step` once the argument array was
created), and the busy, progress and authorizer trampolines return the value
that call handed back (as an 8-bit boolean, an 8-bit boolean and a 32-bit
int). -/
theorem C11_call_made_without_resolution (w : World) (m : Managed) (udp : Ptr) (err : Int)
    (zMsg : Ptr) (count : Int) (ns : Nat) (actionCode : Int) (zDbName : Ptr) (zTblName : Ptr)
    (rowId : Int) (zArg1 : Ptr) (zArg2 : Ptr) (zTriggerName : Ptr) (b : JObject) (ctx : Ptr)
    (argc : Int) (argv : List Ptr) (hb : b ≠ 0) :
    managedCalls (my_log w m udp err zMsg).log = managedCalls w.log ++
      [((w.cc_at udp).obj, (w.cc_at udp).mid, [Arg.num err, Arg.str zMsg])] ∧
    (managedCalls (busy w m udp count).2.log = managedCalls w.log ++
        [((w.cc_at udp).obj, (w.cc_at udp).mid, [Arg.num count])] ∧
      (busy w m udp count).1 = m.raw % 2 ^ 8) ∧
    (managedCalls (progress w m udp).2.log = managedCalls w.log ++
        [((w.cc_at udp).obj, (w.cc_at udp).mid, [])] ∧
      (progress w m udp).1 = m.raw % 2 ^ 8) ∧
    managedCalls (trace w m udp zMsg).log = managedCalls w.log ++
      [((w.cc_at udp).obj, (w.cc_at udp).mid, [Arg.str zMsg])] ∧
    managedCalls (profile w m udp zMsg ns).log = managedCalls w.log ++
      [((w.cc_at udp).obj, (w.cc_at udp).mid, [Arg.str zMsg, Arg.num ns])] ∧
    managedCalls (update_hook w m udp actionCode zDbName zTblName rowId).log =
      managedCalls w.log ++ [((w.cc_at udp).obj, (w.cc_at udp).mid,
        [Arg.num actionCode, Arg.str zDbName, Arg.str zTblName, Arg.num rowId])] ∧
    (managedCalls (authorizer w m udp actionCode zArg1 zArg2 zDbName zTriggerName).2.log =
        managedCalls w.log ++ [((w.cc_at udp).obj, (w.cc_at udp).mid,
          [Arg.num actionCode, Arg.str zArg1, Arg.str zArg2, Arg.str zDbName,
            Arg.str zTriggerName])] ∧
      (authorizer w m udp actionCode zArg1 zArg2 zDbName zTriggerName).1 =
        (m.raw + 2 ^ 31) % 2 ^ 32 - 2 ^ 31) ∧
    managedCalls (func_or_step w m b ctx argc argv).log = managedCalls w.log ++
      [((w.udf_at (w.user_data ctx)).obj, (w.udf_at (w.user_data ctx)).mid,
        [Arg.num ctx, Arg.ref b])] ∧
    managedCalls (final_step w m ctx).log = managedCalls w.log ++
      [((w.udf_at (w.user_data ctx)).fobj, (w.udf_at (w.user_data ctx)).fid,
        [Arg.num ctx])] := by
  refine ⟨?_, ⟨?_, ?_⟩, ⟨?_, ?_⟩, ?_, ?_, ?_, ⟨?_, ?_⟩, ?_, ?_⟩
  · rw [(my_log_log w m udp err zMsg).1, managedCalls_append]; rfl
  · rw [(busy_log w m udp count).1, managedCalls_append]; rfl
  · simp [busy, CallBooleanMethod]
  · rw [(progress_log w m udp).1, managedCalls_append]; rfl
  · simp [progress, CallBooleanMethod]
  · rw [(trace_log w m udp zMsg).1, managedCalls_append]; rfl
  · rw [(profile_log w m udp zMsg ns).1, managedCalls_append]; rfl
  · rw [(update_hook_log w m udp actionCode zDbName zTblName rowId).1, managedCalls_append]
    rfl
  · rw [(authorizer_log w m udp actionCode zArg1 zArg2 zDbName zTriggerName).1,
      managedCalls_append]
    rfl
  · simp [authorizer, CallIntMethod]
  · rw [func_or_step_log, if_neg hb, managedCalls_append]; rfl
  · rw [final_step_log, managedCalls_append]; rfl

/-- C11 amended, at a concrete input: the busy context's reference 1 is
collected and the trampoline makes the call through it. -/
theorem C11_call_made_witness :
    (50 : JObject) ≠ 0 ∧
    ((World.busied.gc 1).cc_at 4096).obj ∈ (World.busied.gc 1).collected ∧
    managedCalls (busy (World.busied.gc 1) ⟨1, false⟩ 4096 3).2.log =
      managedCalls (World.busied.gc 1).log ++
        [(((World.busied.gc 1).cc_at 4096).obj, ((World.busied.gc 1).cc_at 4096).mid,
          [Arg.num 3])] :=
  ⟨by decide, by decide,
    (C11_call_made_without_resolution (World.busied.gc 1) ⟨1, false⟩ 4096 0 0 3 0 0 0 0
      0 0 0 0 50 0 0 [] (by decide)).2.1.1⟩

/-- C13. For each of the seven hook kinds and every list of engine calls to
the trampoline with the registered context `udp`, run one after the other:
the managed calls added to the log are, in call order, one call per engine
call, each on the target and method stored in the context and with that
call's arguments (error code and message; attempt count; none; message;
message and elapsed time; action code, database, table and row id; action
code and the four strings) as the engine passed them. Hence N engine calls
make exactly N managed calls. -/
theorem C13_one_managed_call_per_engine_call (w : World) (udp : Ptr)
    (logCalls : List (Managed × Int × Ptr)) (busyCalls : List (Managed × Int))
    (progressCalls : List Managed) (traceCalls : List (Managed × Ptr))
    (profileCalls : List (Managed × Ptr × Nat))
    (updateCalls : List (Managed × Int × Ptr × Ptr × Int))
    (authCalls : List (Managed × Int × Ptr × Ptr × Ptr × Ptr)) :
    managedCalls (logCalls.foldl (fun v a => my_log v a.1 udp a.2.1 a.2.2) w).log =
      managedCalls w.log ++ logCalls.map (fun a =>
        ((w.cc_at udp).obj, (w.cc_at udp).mid, [Arg.num a.2.1, Arg.str a.2.2])) ∧
    managedCalls (busyCalls.foldl (fun v a => (busy v a.1 udp a.2).2) w).log =
      managedCalls w.log ++ busyCalls.map (fun a =>
        ((w.cc_at udp).obj, (w.cc_at udp).mid, [Arg.num a.2])) ∧
    managedCalls (progressCalls.foldl (fun v a => (progress v a udp).2) w).log =
      managedCalls w.log ++ progressCalls.map (fun _ =>
        ((w.cc_at udp).obj, (w.cc_at udp).mid, [])) ∧
    managedCalls (traceCalls.foldl (fun v a => trace v a.1 udp a.2) w).log =
      managedCalls w.log ++ traceCalls.map (fun a =>
        ((w.cc_at udp).obj, (w.cc_at udp).mid, [Arg.str a.2])) ∧
    managedCalls (profileCalls.foldl (fun v a => profile v a.1 udp a.2.1 a.2.2) w).log =
      managedCalls w.log ++ profileCalls.map (fun a =>
        ((w.cc_at udp).obj, (w.cc_at udp).mid, [Arg.str a.2.1, Arg.num a.2.2])) ∧
    managedCalls
        (updateCalls.foldl (fun v a => update_hook v a.1 udp a.2.1 a.2.2.1 a.2.2.2.1 a.2.2.2.2)
          w).log =
      managedCalls w.log ++ updateCalls.map (fun a =>
        ((w.cc_at udp).obj, (w.cc_at udp).mid,
          [Arg.num a.2.1, Arg.str a.2.2.1, Arg.str a.2.2.2.1, Arg.num a.2.2.2.2])) ∧
    managedCalls
        (authCalls.foldl
          (fun v a => (authorizer v a.1 udp a.2.1 a.2.2.1 a.2.2.2.1 a.2.2.2.2.1 a.2.2.2.2.2).2)
          w).log =
      managedCalls w.log ++ authCalls.map (fun a =>
        ((w.cc_at udp).obj, (w.cc_at udp).mid,
          [Arg.num a.2.1, Arg.str a.2.2.1, Arg.str a.2.2.2.1, Arg.str a.2.2.2.2.1,
            Arg.str a.2.2.2.2.2])) := by
  refine ⟨?_, ?_, ?_, ?_, ?_, ?_, ?_⟩
  · refine (foldl_managedCalls _ udp (fun a => [Arg.num a.2.1, Arg.str a.2.2]) ?_ logCalls w).2
    intro v a
    refine ⟨(my_log_log v a.1 udp a.2.1 a.2.2).2, ?_⟩
    rw [(my_log_log v a.1 udp a.2.1 a.2.2).1, managedCalls_append]
    rfl
  · refine (foldl_managedCalls _ udp (fun a => [Arg.num a.2]) ?_ busyCalls w).2
    intro v a
    refine ⟨(busy_log v a.1 udp a.2).2, ?_⟩
    rw [(busy_log v a.1 udp a.2).1, managedCalls_append]
    rfl
  · refine (foldl_managedCalls _ udp (fun _ => []) ?_ progressCalls w).2
    intro v a
    refine ⟨(progress_log v a udp).2, ?_⟩
    rw [(progress_log v a udp).1, managedCalls_append]
    rfl
  · refine (foldl_managedCalls _ udp (fun a => [Arg.str a.2]) ?_ traceCalls w).2
    intro v a
    refine ⟨(trace_log v a.1 udp a.2).2, ?_⟩
    rw [(trace_log v a.1 udp a.2).1, managedCalls_append]
    rfl
  · refine (foldl_managedCalls _ udp (fun a => [Arg.str a.2.1, Arg.num a.2.2]) ?_
      profileCalls w).2
    intro v a
    refine ⟨(profile_log v a.1 udp a.2.1 a.2.2).2, ?_⟩
    rw [(profile_log v a.1 udp a.2.1 a.2.2).1, managedCalls_append]
    rfl
  · refine (foldl_managedCalls _ udp
      (fun a => [Arg.num a.2.1, Arg.str a.2.2.1, Arg.str a.2.2.2.1, Arg.num a.2.2.2.2]) ?_
      updateCalls w).2
    intro v a
    refine ⟨(update_hook_log v a.1 udp a.2.1 a.2.2.1 a.2.2.2.1 a.2.2.2.2).2, ?_⟩
    rw [(update_hook_log v a.1 udp a.2.1 a.2.2.1 a.2.2.2.1 a.2.2.2.2).1, managedCalls_append]
    rfl
  · refine (foldl_managedCalls _ udp
      (fun a => [Arg.num a.2.1, Arg.str a.2.2.1, Arg.str a.2.2.2.1, Arg.str a.2.2.2.2.1,
        Arg.str a.2.2.2.2.2]) ?_ authCalls w).2
    intro v a
    refine ⟨(authorizer_log v a.1 udp a.2.1 a.2.2.1 a.2.2.2.1 a.2.2.2.2.1 a.2.2.2.2.2).2, ?_⟩
    rw [(authorizer_log v a.1 udp a.2.1 a.2.2.1 a.2.2.2.1 a.2.2.2.2.1 a.2.2.2.2.2).1,
      managedCalls_append]
    rfl

/-! ### No bridge operation detaches a thread -/

theorem detaches_throwException (v : World) (msg : String) :
    detaches (throwException v msg).log = detaches v.log := by
  unfold throwException
  split <;> simp [World.emit, detaches_append, detaches]

theorem detaches_create_callback_context (w : World) (blk : Ptr) (mid : JMethodID)
    (obj : JObject) :
    detaches (create_callback_context w blk mid obj).2.log = detaches w.log := by
  by_cases hb : blk = 0 <;> by_cases ho : obj = 0 <;>
    simp [create_callback_context, sqlite3_malloc, WEAK_GLOBAL_REF, World.emit, hb, ho,
      detaches_throwException, detaches_append, detaches]

theorem detaches_create_udf_callback_context (w : World) (blk : Ptr) (mid : JMethodID)
    (cid : JMethodID) (obj : JObject) (fid : JMethodID) (fobj : JObject) :
    detaches (create_udf_callback_context w blk mid cid obj fid fobj).2.log
      = detaches w.log := by
  by_cases hb : blk = 0 <;> by_cases ho : obj = 0 <;> by_cases hf : fobj = 0 <;>
    simp [create_udf_callback_context, sqlite3_malloc, WEAK_GLOBAL_REF, World.emit, hb, ho, hf,
      detaches_throwException, detaches_append, detaches]

theorem detaches_free_callback_context (w : World) (p : Ptr) :
    detaches (free_callback_context w p).log = detaches w.log := by
  rw [free_callback_context_eq]
  split <;> simp [detaches_append, detaches]

theorem detaches_GetMethodID (w : World) (mid : JMethodID) :
    detaches (GetMethodID w mid).2.log = detaches w.log := by
  unfold GetMethodID
  split <;> rfl

theorem detaches_trace (w : World) (e : Ext) (pDb : Int) (x : JObject) :
    detaches (Java_org_sqlite_SQLite_sqlite3_1trace w e pDb x).2.log
      = detaches w.log := by
  simp only [Java_org_sqlite_SQLite_sqlite3_1trace]
  split_ifs <;>
    simp [detaches_throwException, detaches_create_callback_context,
      detaches_free_callback_context, detaches_GetMethodID, sqlite3_trace, SetLongArrayRegion,
      World.emit, World.setHook, detaches_append, detaches]

theorem detaches_profile (w : World) (e : Ext) (pDb : Int) (x : JObject) :
    detaches (Java_org_sqlite_SQLite_sqlite3_1profile w e pDb x).2.log
      = detaches w.log := by
  simp only [Java_org_sqlite_SQLite_sqlite3_1profile]
  split_ifs <;>
    simp [detaches_throwException, detaches_create_callback_context,
      detaches_free_callback_context, detaches_GetMethodID, sqlite3_profile, SetLongArrayRegion,
      World.emit, World.setHook, detaches_append, detaches]

theorem detaches_update_hook (w : World) (e : Ext) (pDb : Int) (x : JObject) :
    detaches (Java_org_sqlite_SQLite_sqlite3_1update_1hook w e pDb x).2.log
      = detaches w.log := by
  simp only [Java_org_sqlite_SQLite_sqlite3_1update_1hook]
  split_ifs <;>
    simp [detaches_throwException, detaches_create_callback_context,
      detaches_free_callback_context, detaches_GetMethodID, sqlite3_update_hook, SetLongArrayRegion,
      World.emit, World.setHook, detaches_append, detaches]

theorem detaches_config_log (w : World) (e : Ext) (op : Int) (x : JObject) :
    detaches (Java_org_sqlite_SQLite_sqlite3_1config__ILorg_sqlite_SQLite_LogCallback_2 w e op x).2.log
      = detaches w.log := by
  simp only [Java_org_sqlite_SQLite_sqlite3_1config__ILorg_sqlite_SQLite_LogCallback_2, sqlite3_config]
  split_ifs <;>
    simp [detaches_throwException, detaches_create_callback_context,
      detaches_free_callback_context, detaches_GetMethodID, sqlite3_config, SetLongArrayRegion,
      World.emit, World.setHook, detaches_append, detaches]

theorem detaches_busy_handler (w : World) (e : Ext) (pDb : Int) (x : JObject) (pCc : JObject) :
    detaches (Java_org_sqlite_SQLite_sqlite3_1busy_1handler w e pDb x pCc).2.log
      = detaches w.log := by
  simp only [Java_org_sqlite_SQLite_sqlite3_1busy_1handler, sqlite3_busy_handler]
  split_ifs <;>
    simp [detaches_throwException, detaches_create_callback_context,
      detaches_free_callback_context, detaches_GetMethodID, sqlite3_busy_handler, SetLongArrayRegion,
      World.emit, World.setHook, detaches_append, detaches]

theorem detaches_progress_handler (w : World) (e : Ext) (pDb : Int) (nOps : Int) (x : JObject) :
    detaches (Java_org_sqlite_SQLite_sqlite3_1progress_1handler w e pDb nOps x).2.log
      = detaches w.log := by
  simp only [Java_org_sqlite_SQLite_sqlite3_1progress_1handler, sqlite3_progress_handler]
  split_ifs <;>
    simp [detaches_throwException, detaches_create_callback_context,
      detaches_free_callback_context, detaches_GetMethodID, sqlite3_progress_handler, SetLongArrayRegion,
      World.emit, World.setHook, detaches_append, detaches]

theorem detaches_set_authorizer (w : World) (e : Ext) (pDb : Int) (x : JObject) (pCc : JObject) :
    detaches (Java_org_sqlite_SQLite_sqlite3_1set_1authorizer w e pDb x pCc).2.log
      = detaches w.log := by
  simp only [Java_org_sqlite_SQLite_sqlite3_1set_1authorizer, sqlite3_set_authorizer]
  split_ifs <;>
    simp [detaches_throwException, detaches_create_callback_context,
      detaches_free_callback_context, detaches_GetMethodID, sqlite3_set_authorizer, SetLongArrayRegion,
      World.emit, World.setHook, detaches_append, detaches]

theorem detaches_emit (w : World) (ev : Event) :
    detaches (w.emit ev).log = detaches w.log ++ detaches [ev] := by
  simp [World.emit, detaches_append]

theorem detaches_GetStringUTFChars (w : World) (s : JObject) (z : Ptr) :
    detaches (GetStringUTFChars w s z).2.log = detaches w.log := by
  unfold GetStringUTFChars
  split <;> simp [World.emit, detaches_append, detaches]

theorem detaches_create_function_register (w : World) (e : Ext) (pDb : Int)
    (functionName : JObject) (zFunctionName : Ptr) (nArg : Int) (eTextRep : Int)
    (xFunc : JObject) (xStep : JObject) (xFinal : JObject) (cc : Ptr) :
    detaches (create_function_register w e pDb functionName zFunctionName nArg eTextRep xFunc
      xStep xFinal cc).2.log = detaches w.log := by
  simp [create_function_register, sqlite3_create_function_v2, ReleaseStringUTFChars,
    World.emit, detaches_append, detaches]

theorem GetStringUTFChars_fst (w : World) (s : JObject) (z : Ptr) :
    (GetStringUTFChars w s z).1 = z := by
  unfold GetStringUTFChars
  split
  · rename_i h; exact h.symm
  · rfl

theorem create_udf_callback_context_fst (w : World) (blk : Ptr) (mid : JMethodID)
    (cid : JMethodID) (obj : JObject) (fid : JMethodID) (fobj : JObject) :
    (create_udf_callback_context w blk mid cid obj fid fobj).1 = blk := by
  by_cases hb : blk = 0 <;> by_cases hf : fobj = 0 <;>
    simp [create_udf_callback_context, sqlite3_malloc, hb, hf]

theorem detaches_create_function_found (w : World) (e : Ext) (pDb : Int)
    (functionName : JObject) (nArg : Int) (eTextRep : Int) (xFunc : JObject) (xStep : JObject)
    (xFinal : JObject) (hc : e.chars ≠ 0) (ht : xFunc ≠ 0 ∨ xStep ≠ 0) (hm : e.mid ≠ 0) :
    detaches (Java_org_sqlite_SQLite_sqlite3_1create_1function_1v2 w e pDb functionName nArg
      eTextRep xFunc xStep xFinal).2.log = detaches w.log := by
  by_cases hs : xStep = 0
  · have hfn : xFunc ≠ 0 := by
      rcases ht with h | h
      · exact h
      · exact absurd hs h
    by_cases hf : xFinal = 0 <;> by_cases hfid : e.fid = 0 <;> by_cases hb : e.block = 0 <;>
      simp [Java_org_sqlite_SQLite_sqlite3_1create_1function_1v2, hc, hfn, hs, hm, hf, hfid, hb,
        GetMethodID, GetStringUTFChars_fst, create_udf_callback_context_fst,
        detaches_throwException,
        detaches_create_udf_callback_context, detaches_emit, detaches_GetStringUTFChars,
        detaches_create_function_register, ReleaseStringUTFChars, detaches]
  · by_cases hcid : e.cid = 0 <;> by_cases hf : xFinal = 0 <;> by_cases hfid : e.fid = 0 <;>
      by_cases hb : e.block = 0 <;>
      simp [Java_org_sqlite_SQLite_sqlite3_1create_1function_1v2, hc, hs, hm, hcid, hf, hfid,
        hb, GetMethodID, GetStringUTFChars_fst, create_udf_callback_context_fst,
        detaches_throwException,
        detaches_create_udf_callback_context, detaches_emit, detaches_GetStringUTFChars,
        detaches_create_function_register, ReleaseStringUTFChars, detaches]

theorem detaches_create_function (w : World) (e : Ext) (pDb : Int) (functionName : JObject)
    (nArg : Int) (eTextRep : Int) (xFunc : JObject) (xStep : JObject) (xFinal : JObject) :
    detaches (Java_org_sqlite_SQLite_sqlite3_1create_1function_1v2 w e pDb functionName nArg
      eTextRep xFunc xStep xFinal).2.log = detaches w.log := by
  by_cases hc : e.chars = 0
  · simp [Java_org_sqlite_SQLite_sqlite3_1create_1function_1v2, GetStringUTFChars, hc]
  · by_cases ht : xFunc ≠ 0 ∨ xStep ≠ 0
    · by_cases hm : e.mid = 0
      · simp [Java_org_sqlite_SQLite_sqlite3_1create_1function_1v2, hc, ht, hm, GetMethodID,
          GetStringUTFChars_fst,
          detaches_throwException, detaches_emit, detaches_GetStringUTFChars, detaches]
      · exact detaches_create_function_found w e pDb functionName nArg eTextRep xFunc xStep
          xFinal hc ht hm
    · simp [Java_org_sqlite_SQLite_sqlite3_1create_1function_1v2, hc, ht, GetStringUTFChars_fst,
        detaches_GetStringUTFChars, detaches_create_function_register]

theorem detaches_aggregate_context (w : World) (e : Ext) (m : Managed) (pCtx : Int)
    (allocate : Int) :
    detaches (Java_org_sqlite_SQLite_sqlite3_1aggregate_1context w e m pCtx allocate).2.log
      = detaches w.log := by
  cases hm : m.threw <;> cases hs : w.aggregate (JLONG_TO_SQLITE3_CTX_PTR pCtx) <;>
    simp only [Java_org_sqlite_SQLite_sqlite3_1aggregate_1context, sqlite3_aggregate_context,
      hs, CallObjectMethod, hm] <;>
    split_ifs <;>
    simp [WEAK_GLOBAL_REF, AttachCurrentThread, DEL_WEAK_GLOBAL_REF, World.emit,
      detaches_append, detaches] <;>
    split_ifs <;> simp [World.emit, detaches_append, detaches]

/-- C14. Each hook trampoline, `func_or_step`, `final_step` and, for a present
context, the destructor `free_udf_callback_context` attaches the calling
thread to the context's `JavaVM` as the first effect of the invocation, so
before every managed call and reference operation, and attaches no second
time. No bridge operation detaches a thread: the trampolines, the setters,
create_function, the group-slot accessor and the two free functions leave the
list of detachments as it was. -/
theorem C14_attach_first_once_never_detach (w : World) (m : Managed) (e : Ext) (udp : Ptr)
    (err : Int) (zMsg : Ptr) (count : Int) (ns : Nat) (actionCode : Int) (zDbName : Ptr)
    (zTblName : Ptr) (rowId : Int) (zArg1 : Ptr) (zArg2 : Ptr) (zTriggerName : Ptr)
    (b : JObject) (ctx : Ptr) (argc : Int) (argv : List Ptr) (p : Ptr) (hp : p ≠ 0)
    (pDb : Int) (op : Int) (nOps : Int) (x : JObject) (pCc : JObject) (functionName : JObject)
    (nArg : Int) (eTextRep : Int) (xFunc : JObject) (xStep : JObject) (xFinal : JObject)
    (pCtx : Int) (allocate : Int) (handle : Int) :
    (AttachesFirstAndOnce (w.cc_at udp).vm w (my_log w m udp err zMsg) ∧
      AttachesFirstAndOnce (w.cc_at udp).vm w (busy w m udp count).2 ∧
      AttachesFirstAndOnce (w.cc_at udp).vm w (progress w m udp).2 ∧
      AttachesFirstAndOnce (w.cc_at udp).vm w (trace w m udp zMsg) ∧
      AttachesFirstAndOnce (w.cc_at udp).vm w (profile w m udp zMsg ns) ∧
      AttachesFirstAndOnce (w.cc_at udp).vm w
        (update_hook w m udp actionCode zDbName zTblName rowId) ∧
      AttachesFirstAndOnce (w.cc_at udp).vm w
        (authorizer w m udp actionCode zArg1 zArg2 zDbName zTriggerName).2 ∧
      AttachesFirstAndOnce (w.udf_at (w.user_data ctx)).vm w (func_or_step w m b ctx argc argv) ∧
      AttachesFirstAndOnce (w.udf_at (w.user_data ctx)).vm w (final_step w m ctx) ∧
      AttachesFirstAndOnce (w.udf_at p).vm w (free_udf_callback_context w p)) ∧
    (detaches (Java_org_sqlite_SQLite_sqlite3_1config__ILorg_sqlite_SQLite_LogCallback_2 w e op
        x).2.log = detaches w.log ∧
      detaches (Java_org_sqlite_SQLite_sqlite3_1busy_1handler w e pDb x pCc).2.log
        = detaches w.log ∧
      detaches (Java_org_sqlite_SQLite_sqlite3_1progress_1handler w e pDb nOps x).2.log
        = detaches w.log ∧
      detaches (Java_org_sqlite_SQLite_sqlite3_1trace w e pDb x).2.log = detaches w.log ∧
      detaches (Java_org_sqlite_SQLite_sqlite3_1profile w e pDb x).2.log = detaches w.log ∧
      detaches (Java_org_sqlite_SQLite_sqlite3_1update_1hook w e pDb x).2.log
        = detaches w.log ∧
      detaches (Java_org_sqlite_SQLite_sqlite3_1set_1authorizer w e pDb x pCc).2.log
        = detaches w.log ∧
      detaches (Java_org_sqlite_SQLite_sqlite3_1create_1function_1v2 w e pDb functionName nArg
        eTextRep xFunc xStep xFinal).2.log = detaches w.log ∧
      detaches (Java_org_sqlite_SQLite_sqlite3_1aggregate_1context w e m pCtx allocate).2.log
        = detaches w.log ∧
      detaches (Java_org_sqlite_SQLite_free_1callback_1context w handle).log
        = detaches w.log ∧
      detaches (free_udf_callback_context w 0).log = detaches w.log) := by
  refine ⟨⟨?_, ?_, ?_, ?_, ?_, ?_, ?_, ?_, ?_, ?_⟩, ?_, ?_, ?_, ?_, ?_, ?_, ?_, ?_, ?_, ?_, ?_⟩
  · refine ⟨_, (my_log_log w m udp err zMsg).1, ?_, ?_⟩ <;> rfl
  · refine ⟨_, (busy_log w m udp count).1, ?_, ?_⟩ <;> rfl
  · refine ⟨_, (progress_log w m udp).1, ?_, ?_⟩ <;> rfl
  · refine ⟨_, (trace_log w m udp zMsg).1, ?_, ?_⟩ <;> rfl
  · refine ⟨_, (profile_log w m udp zMsg ns).1, ?_, ?_⟩ <;> rfl
  · refine ⟨_, (update_hook_log w m udp actionCode zDbName zTblName rowId).1, ?_, ?_⟩ <;> rfl
  · refine ⟨_, (authorizer_log w m udp actionCode zArg1 zArg2 zDbName zTriggerName).1, ?_, ?_⟩ <;> rfl
  · by_cases hb : b = 0
    · refine ⟨[Event.resultErrorNomem ctx], ?_, rfl, rfl⟩
      rw [func_or_step_log, if_pos hb]
    · refine ⟨[Event.newLongArray argc b, Event.setLongArrayValues b argv,
        Event.callMethod (w.udf_at (w.user_data ctx)).obj (w.udf_at (w.user_data ctx)).mid
          [Arg.num ctx, Arg.ref b], Event.deleteLocalArray b], ?_, rfl, rfl⟩
      rw [func_or_step_log, if_neg hb]
  · refine ⟨_, final_step_log w m ctx, ?_, ?_⟩ <;> rfl
  · by_cases hf : (w.udf_at p).fobj = 0
    · refine ⟨[Event.delWeakRef (w.udf_at p).obj, Event.free p], ?_, rfl, rfl⟩
      rw [free_udf_callback_context_log w p hp]
      simp [hf]
    · refine ⟨[Event.delWeakRef (w.udf_at p).obj, Event.delWeakRef (w.udf_at p).fobj,
        Event.free p], ?_, rfl, rfl⟩
      rw [free_udf_callback_context_log w p hp]
      simp [hf]
  · exact detaches_config_log w e op x
  · exact detaches_busy_handler w e pDb x pCc
  · exact detaches_progress_handler w e pDb nOps x
  · exact detaches_trace w e pDb x
  · exact detaches_profile w e pDb x
  · exact detaches_update_hook w e pDb x
  · exact detaches_set_authorizer w e pDb x pCc
  · exact detaches_create_function w e pDb functionName nArg eTextRep xFunc xStep xFinal
  · exact detaches_aggregate_context w e m pCtx allocate
  · exact detaches_free_callback_context w _
  · simp [free_udf_callback_context, sqlite3_free]

/-- C14 at a concrete input: the busy trampoline on the handler registered in
`World.busied` attaches to `JavaVM` 1 first and once, and the destructor of a
context at 4096 attaches first and once. -/
theorem C14_attach_witness :
    (4096 : Ptr) ≠ 0 ∧
    AttachesFirstAndOnce (World.busied.cc_at 4096).vm World.busied
      (busy World.busied ⟨1, false⟩ 4096 3).2 ∧
    AttachesFirstAndOnce (World.busied.udf_at 4096).vm World.busied
      (free_udf_callback_context World.busied 4096) ∧
    attaches (busy World.busied ⟨1, false⟩ 4096 3).2.log = [1] :=
  ⟨by decide,
    (C14_attach_first_once_never_detach World.busied ⟨1, false⟩ Ext.sample 4096 0 0 3 0 0 0 0 0
      0 0 0 0 0 0 [] 4096 (by decide) 1 16 1 10 30 40 1 1 10 0 0 0 1 0).1.2.1,
    (C14_attach_first_once_never_detach World.busied ⟨1, false⟩ Ext.sample 4096 0 0 3 0 0 0 0 0
      0 0 0 0 0 0 [] 4096 (by decide) 1 16 1 10 30 40 1 1 10 0 0 0 1 0).1.2.2.2.2.2.2.2.2.2,
    by decide⟩

/-! ## The aggregate group slot -/

theorem newWeakRefs_append (a b : List Event) :
    newWeakRefs (a ++ b) = newWeakRefs a ++ newWeakRefs b := by
  induction a with
  | nil => rfl
  | cons x xs ih => cases x <;> simp [newWeakRefs, ih]

/-- Bind-or-fetch on a bound slot: the stored reference is returned and the
only effect is the engine's slot request. -/
theorem aggregate_context_bound (w : World) (e : Ext) (m : Managed) (pCtx : Int) (r : JObject)
    (hs : w.aggregate (JLONG_TO_SQLITE3_CTX_PTR pCtx) = some r) (hr : r ≠ 0) :
    Java_org_sqlite_SQLite_sqlite3_1aggregate_1context w e m pCtx 1 =
      (r, w.emit (Event.aggregateContext (JLONG_TO_SQLITE3_CTX_PTR pCtx) 8)) := by
  simp [Java_org_sqlite_SQLite_sqlite3_1aggregate_1context, sqlite3_aggregate_context, hs, hr,
    World.emit]

/-- Bind-or-fetch when the engine cannot supply the slot block. -/
theorem aggregate_context_unsupplied (w : World) (e : Ext) (m : Managed) (pCtx : Int)
    (hs : w.aggregate (JLONG_TO_SQLITE3_CTX_PTR pCtx) = none) (hb : e.block = 0) :
    Java_org_sqlite_SQLite_sqlite3_1aggregate_1context w e m pCtx 1 =
      (0, w.emit (Event.aggregateContext (JLONG_TO_SQLITE3_CTX_PTR pCtx) 8)) := by
  simp [Java_org_sqlite_SQLite_sqlite3_1aggregate_1context, sqlite3_aggregate_context, hs, hb,
    World.emit]

/-- Bind-or-fetch on an empty slot the engine supplies, the factory returning
the object `obj` without raising. -/
theorem aggregate_context_bind (w : World) (e : Ext) (pCtx : Int) (obj : JObject)
    (hs : w.aggregate (JLONG_TO_SQLITE3_CTX_PTR pCtx) = some 0 ∨
      (w.aggregate (JLONG_TO_SQLITE3_CTX_PTR pCtx) = none ∧ e.block ≠ 0))
    (hp : w.pending = none) (ho : obj ≠ 0) :
    Java_org_sqlite_SQLite_sqlite3_1aggregate_1context w e ⟨obj, false⟩ pCtx 1 =
      (obj, { w with
        weakCount := w.weakCount + 1
        aggregate := Function.update w.aggregate (JLONG_TO_SQLITE3_CTX_PTR pCtx)
          (some (w.weakCount + 1))
        log := w.log ++
          [Event.aggregateContext (JLONG_TO_SQLITE3_CTX_PTR pCtx) 8,
            Event.attach (w.udf_at (w.user_data (JLONG_TO_SQLITE3_CTX_PTR pCtx))).vm,
            Event.callMethod (w.udf_at (w.user_data (JLONG_TO_SQLITE3_CTX_PTR pCtx))).obj
              (w.udf_at (w.user_data (JLONG_TO_SQLITE3_CTX_PTR pCtx))).cid [],
            Event.newWeakRef (w.weakCount + 1) obj] }) := by
  rcases hs with hs | ⟨hs, hb⟩
  · simp [Java_org_sqlite_SQLite_sqlite3_1aggregate_1context, sqlite3_aggregate_context, hs,
      sqlite3_user_data, AttachCurrentThread, CallObjectMethod, ExceptionCheck, WEAK_GLOBAL_REF,
      World.emit, hp, ho]
  · simp [Java_org_sqlite_SQLite_sqlite3_1aggregate_1context, sqlite3_aggregate_context, hs,
      hb, sqlite3_user_data, AttachCurrentThread, CallObjectMethod, ExceptionCheck,
      WEAK_GLOBAL_REF, World.emit, hp, ho]

/-- C15. Bind-or-fetch access (`allocate = 1`) to the slot of the context
`pCtx`. Empty slot supplied by the engine (a zeroed block, or none yet and
the allocator answers), no exception pending, the factory returning the
object `obj` without raising: the factory is called exactly once, on the
step target of the function context, a new weak reference to `obj` is put in
the slot, and `obj` is returned. Bound slot: no managed call, the slots are
unchanged and the stored reference is returned. No block and the allocator
answers nothing: absent is returned and no managed call is made. -/
theorem C15_bind_or_fetch (w : World) (e : Ext) (m : Managed) (pCtx : Int) (obj : JObject)
    (r : JObject) :
    ((w.aggregate (JLONG_TO_SQLITE3_CTX_PTR pCtx) = some 0 ∨
        (w.aggregate (JLONG_TO_SQLITE3_CTX_PTR pCtx) = none ∧ e.block ≠ 0)) →
      w.pending = none → obj ≠ 0 →
      (Java_org_sqlite_SQLite_sqlite3_1aggregate_1context w e ⟨obj, false⟩ pCtx 1).1 = obj ∧
      managedCalls
          (Java_org_sqlite_SQLite_sqlite3_1aggregate_1context w e ⟨obj, false⟩ pCtx 1).2.log =
        managedCalls w.log ++
          [((w.udf_at (w.user_data (JLONG_TO_SQLITE3_CTX_PTR pCtx))).obj,
            (w.udf_at (w.user_data (JLONG_TO_SQLITE3_CTX_PTR pCtx))).cid, [])] ∧
      newWeakRefs
          (Java_org_sqlite_SQLite_sqlite3_1aggregate_1context w e ⟨obj, false⟩ pCtx 1).2.log =
        newWeakRefs w.log ++ [(w.weakCount + 1, obj)] ∧
      (Java_org_sqlite_SQLite_sqlite3_1aggregate_1context w e ⟨obj, false⟩ pCtx 1).2.aggregate
          (JLONG_TO_SQLITE3_CTX_PTR pCtx) = some (w.weakCount + 1)) ∧
    (w.aggregate (JLONG_TO_SQLITE3_CTX_PTR pCtx) = some r → r ≠ 0 →
      (Java_org_sqlite_SQLite_sqlite3_1aggregate_1context w e m pCtx 1).1 = r ∧
      managedCalls (Java_org_sqlite_SQLite_sqlite3_1aggregate_1context w e m pCtx 1).2.log =
        managedCalls w.log ∧
      (Java_org_sqlite_SQLite_sqlite3_1aggregate_1context w e m pCtx 1).2.aggregate =
        w.aggregate) ∧
    (w.aggregate (JLONG_TO_SQLITE3_CTX_PTR pCtx) = none → e.block = 0 →
      (Java_org_sqlite_SQLite_sqlite3_1aggregate_1context w e m pCtx 1).1 = 0 ∧
      managedCalls (Java_org_sqlite_SQLite_sqlite3_1aggregate_1context w e m pCtx 1).2.log =
        managedCalls w.log ∧
      (Java_org_sqlite_SQLite_sqlite3_1aggregate_1context w e m pCtx 1).2.aggregate =
        w.aggregate) := by
  refine ⟨?_, ?_, ?_⟩
  · intro hs hp ho
    rw [aggregate_context_bind w e pCtx obj hs hp ho]
    simp [managedCalls_append, managedCalls, newWeakRefs_append, newWeakRefs]
  · intro hs hr
    rw [aggregate_context_bound w e m pCtx r hs hr]
    simp [World.emit, managedCalls_append, managedCalls]
  · intro hs hb
    rw [aggregate_context_unsupplied w e m pCtx hs hb]
    simp [World.emit, managedCalls_append, managedCalls]

/-- C15 at a concrete input: the first access to the slot of context 77 calls
the factory once and returns the object 60; the second access returns the
weak reference 3 made for it and makes no further call. -/
theorem C15_bind_or_fetch_witness :
    (World.aggregating.aggregate (JLONG_TO_SQLITE3_CTX_PTR 77) = none ∧
      Ext.sample.block ≠ 0) ∧
    World.aggregating.pending = none ∧ (60 : JObject) ≠ 0 ∧
    (Java_org_sqlite_SQLite_sqlite3_1aggregate_1context World.aggregating Ext.sample ⟨60, false⟩
      77 1).1 = 60 ∧
    (bindOrFetchAll World.aggregating
      [(77, Ext.sample, ⟨60, false⟩), (77, Ext.sample, ⟨61, false⟩)]).1 = [60, 3] ∧
    managedCalls (bindOrFetchAll World.aggregating
      [(77, Ext.sample, ⟨60, false⟩), (77, Ext.sample, ⟨61, false⟩)]).2.log = [(1, 8, [])] :=
  ⟨by decide, by decide, by decide,
    ((C15_bind_or_fetch World.aggregating Ext.sample ⟨60, false⟩ 77 60 0).1
      (Or.inr (by decide)) (by decide) (by decide)).1,
    by decide, by decide⟩

/-- A run of bind-or-fetch accesses to a bound slot: every access returns the
stored reference, no managed call is made, no weak reference is created and
the slots stay as they are. -/
theorem bindOrFetchAll_bound (c : Ptr) (r : JObject) (hr : r ≠ 0) :
    ∀ (accs : List (Int × Ext × Managed)) (w : World),
      w.aggregate c = some r → (∀ a ∈ accs, JLONG_TO_SQLITE3_CTX_PTR a.1 = c) →
      (bindOrFetchAll w accs).1 = List.replicate accs.length r ∧
      managedCalls (bindOrFetchAll w accs).2.log = managedCalls w.log ∧
      newWeakRefs (bindOrFetchAll w accs).2.log = newWeakRefs w.log ∧
      (bindOrFetchAll w accs).2.aggregate = w.aggregate ∧
      (bindOrFetchAll w accs).2.pending = w.pending ∧
      (bindOrFetchAll w accs).2.weakCount = w.weakCount ∧
      (bindOrFetchAll w accs).2.udf_at = w.udf_at ∧
      (bindOrFetchAll w accs).2.user_data = w.user_data := by
  intro accs
  induction accs with
  | nil => intro w _ _; simp [bindOrFetchAll]
  | cons a t ih =>
    intro w hs hall
    have ha : JLONG_TO_SQLITE3_CTX_PTR a.1 = c := hall a (List.mem_cons_self _ _)
    have hs2 : w.aggregate (JLONG_TO_SQLITE3_CTX_PTR a.1) = some r := by rw [ha]; exact hs
    have hstep := aggregate_context_bound w a.2.1 a.2.2 a.1 r hs2 hr
    obtain ⟨i1, i2, i3, i4, i5, i6, i7, i8⟩ :=
      ih (w.emit (Event.aggregateContext (JLONG_TO_SQLITE3_CTX_PTR a.1) 8)) hs
        (fun b hb => hall b (List.mem_cons_of_mem _ hb))
    simp only [bindOrFetchAll, hstep, List.length_cons, List.replicate_succ]
    refine ⟨by rw [i1], ?_, ?_, i4, i5, i6, i7, i8⟩
    · rw [i2]; simp [World.emit, managedCalls_append, managedCalls]
    · rw [i3]; simp [World.emit, newWeakRefs_append, newWeakRefs]

theorem bindTransitions_bound (c : Ptr) :
    ∀ (accs : List (Int × Ext × Managed)) (w : World),
      slotBound w c = true → (∀ a ∈ accs, JLONG_TO_SQLITE3_CTX_PTR a.1 = c) →
      bindTransitions w c accs = 0 := by
  intro accs
  induction accs with
  | nil => intro w _ _; rfl
  | cons a t ih =>
    intro w hb hall
    have ha : JLONG_TO_SQLITE3_CTX_PTR a.1 = c := hall a (List.mem_cons_self _ _)
    cases hs : w.aggregate c with
    | none => simp [slotBound, hs] at hb
    | some r =>
      have hr : r ≠ 0 := by simpa [slotBound, hs] using hb
      have hs2 : w.aggregate (JLONG_TO_SQLITE3_CTX_PTR a.1) = some r := by rw [ha]; exact hs
      have hstep := aggregate_context_bound w a.2.1 a.2.2 a.1 r hs2 hr
      have hb2 : slotBound (w.emit (Event.aggregateContext (JLONG_TO_SQLITE3_CTX_PTR a.1) 8)) c
          = true := hb
      simp only [bindTransitions, hstep, hb]
      rw [ih _ hb2 (fun b hb => hall b (List.mem_cons_of_mem _ hb))]
      simp

/-- One bind-or-fetch access, whatever the factory does: the factory is called
once, on the step target of the function context, when the access is handed
the slot block and finds no reference in it, and not at all otherwise; the
function contexts and the user data stay as they are. -/
theorem aggregate_context_calls (w : World) (e : Ext) (m : Managed) (pCtx : Int) :
    managedCalls (Java_org_sqlite_SQLite_sqlite3_1aggregate_1context w e m pCtx 1).2.log =
      managedCalls w.log ++
        (if slotBound w (JLONG_TO_SQLITE3_CTX_PTR pCtx) = false ∧
            ((w.aggregate (JLONG_TO_SQLITE3_CTX_PTR pCtx)).isSome = true ∨ e.block ≠ 0) then
          [((w.udf_at (w.user_data (JLONG_TO_SQLITE3_CTX_PTR pCtx))).obj,
            (w.udf_at (w.user_data (JLONG_TO_SQLITE3_CTX_PTR pCtx))).cid, [])]
        else []) ∧
    (Java_org_sqlite_SQLite_sqlite3_1aggregate_1context w e m pCtx 1).2.udf_at = w.udf_at ∧
    (Java_org_sqlite_SQLite_sqlite3_1aggregate_1context w e m pCtx 1).2.user_data =
      w.user_data := by
  cases hs : w.aggregate (JLONG_TO_SQLITE3_CTX_PTR pCtx) with
  | none =>
    by_cases hb : e.block = 0
    · rw [aggregate_context_unsupplied w e m pCtx hs hb]
      simp [World.emit, managedCalls_append, managedCalls, slotBound, hs, hb]
    · cases ht : m.threw <;> cases hp : w.pending <;> by_cases h0 : m.raw.toNat = 0 <;>
        simp [Java_org_sqlite_SQLite_sqlite3_1aggregate_1context, sqlite3_aggregate_context,
          sqlite3_user_data, AttachCurrentThread, CallObjectMethod, ExceptionCheck,
          WEAK_GLOBAL_REF, World.emit, managedCalls_append, managedCalls, slotBound, hs, hb, ht,
          hp, h0]
  | some r =>
    by_cases hr : r = 0
    · subst hr
      cases ht : m.threw <;> cases hp : w.pending <;> by_cases h0 : m.raw.toNat = 0 <;>
        simp [Java_org_sqlite_SQLite_sqlite3_1aggregate_1context, sqlite3_aggregate_context,
          sqlite3_user_data, AttachCurrentThread, CallObjectMethod, ExceptionCheck,
          WEAK_GLOBAL_REF, World.emit, managedCalls_append, managedCalls, slotBound, hs, ht,
          hp, h0]
    · rw [aggregate_context_bound w e m pCtx r hs hr]
      simp [World.emit, managedCalls_append, managedCalls, slotBound, hs, hr]

/-- C16 as stated fails: the first access finds the slot of context 77 empty
and its factory call raises (first run) or returns no object (second run);
the slot stays empty and the second access calls the factory again. -/
theorem C16_factory_called_again :
    managedCalls (bindOrFetchAll World.aggregating
      [(77, Ext.sample, ⟨0, true⟩), (77, Ext.sample, ⟨60, false⟩)]).2.log
      = [(1, 8, []), (1, 8, [])] ∧
    managedCalls (bindOrFetchAll World.aggregating
      [(77, Ext.sample, ⟨0, false⟩), (77, Ext.sample, ⟨60, false⟩)]).2.log
      = [(1, 8, []), (1, 8, [])] ∧
    (bindOrFetchAll World.aggregating
      [(77, Ext.sample, ⟨0, false⟩), (77, Ext.sample, ⟨60, false⟩)]).1 = [0, 60] := by
  decide

/-- A run of bind-or-fetch accesses to the slot of one context, whatever the
factory does: the factory calls made are one per access that is handed the
slot block and finds no reference in it, each on the step target of the
function context. -/
theorem bindOrFetchAll_calls (c : Ptr) :
    ∀ (accs : List (Int × Ext × Managed)) (w : World),
      (∀ a ∈ accs, JLONG_TO_SQLITE3_CTX_PTR a.1 = c) →
      managedCalls (bindOrFetchAll w accs).2.log =
        managedCalls w.log ++ List.replicate (emptyAccesses w c accs)
          ((w.udf_at (w.user_data c)).obj, (w.udf_at (w.user_data c)).cid, []) ∧
      (bindOrFetchAll w accs).2.udf_at = w.udf_at ∧
      (bindOrFetchAll w accs).2.user_data = w.user_data := by
  intro accs
  induction accs with
  | nil => intro w _; simp [bindOrFetchAll, emptyAccesses]
  | cons a t ih =>
    intro w hall
    have ha : JLONG_TO_SQLITE3_CTX_PTR a.1 = c := hall a (List.mem_cons_self _ _)
    obtain ⟨h1, h2, h3⟩ := aggregate_context_calls w a.2.1 a.2.2 a.1
    obtain ⟨i1, i2, i3⟩ :=
      ih (Java_org_sqlite_SQLite_sqlite3_1aggregate_1context w a.2.1 a.2.2 a.1 1).2
        (fun b hb => hall b (List.mem_cons_of_mem _ hb))
    rw [ha] at h1
    simp only [bindOrFetchAll, emptyAccesses]
    refine ⟨?_, by rw [i2, h2], by rw [i3, h3]⟩
    rw [i1, h1, h2, h3]
    split_ifs <;> simp [List.replicate_add]

/-- C16, amended. Over every run of bind-or-fetch accesses to the slot of one
context, whatever the factory does: the slot goes from holding no reference
to holding one at most once; from a slot that holds the reference `r`, every
access returns `r`, the factory is not called, no weak reference is created
and the slot keeps `r`; and the factory calls of the run are exactly one per
access that is handed the slot block and finds no reference in it, each on
the step target of the function context with the group-factory method. -/
theorem C16_at_most_one_bind (c : Ptr) (accs : List (Int × Ext × Managed)) (w : World)
    (hall : ∀ a ∈ accs, JLONG_TO_SQLITE3_CTX_PTR a.1 = c) :
    bindTransitions w c accs ≤ 1 ∧
    (∀ r, w.aggregate c = some r → r ≠ 0 →
      (bindOrFetchAll w accs).1 = List.replicate accs.length r ∧
      managedCalls (bindOrFetchAll w accs).2.log = managedCalls w.log ∧
      newWeakRefs (bindOrFetchAll w accs).2.log = newWeakRefs w.log ∧
      (bindOrFetchAll w accs).2.aggregate c = some r) ∧
    managedCalls (bindOrFetchAll w accs).2.log =
      managedCalls w.log ++ List.replicate (emptyAccesses w c accs)
        ((w.udf_at (w.user_data c)).obj, (w.udf_at (w.user_data c)).cid, []) := by
  refine ⟨?_, ?_, (bindOrFetchAll_calls c accs w hall).1⟩
  · induction accs generalizing w with
    | nil => simp [bindTransitions]
    | cons a t ih =>
      have hall2 : ∀ b ∈ t, JLONG_TO_SQLITE3_CTX_PTR b.1 = c :=
        fun b hb => hall b (List.mem_cons_of_mem _ hb)
      simp only [bindTransitions]
      split
      · rename_i h
        rw [bindTransitions_bound c t _ h.2 hall2]
      · have := ih
          (Java_org_sqlite_SQLite_sqlite3_1aggregate_1context w a.2.1 a.2.2 a.1 1).2 hall2
        omega
  · intro r hs hr
    obtain ⟨h1, h2, h3, h4, _⟩ := bindOrFetchAll_bound c r hr accs w hs hall
    exact ⟨h1, h2, h3, by rw [h4]; exact hs⟩

/-- C16 amended, at concrete inputs. Three accesses to the slot of context 77
from the aggregate's start, the first factory call returning no object, the
second the object 60: the first two accesses find the slot empty and call
the factory, the second binds the slot, the third calls nothing; the slot is
bound once. Two accesses to the slot once bound: both return the stored weak
reference 3 and the factory is not called. -/
theorem C16_at_most_one_bind_witness :
    (∀ a ∈ [((77 : Int), Ext.sample, (⟨0, false⟩ : Managed)), (77, Ext.sample, ⟨60, false⟩),
        (77, Ext.sample, ⟨61, false⟩)], JLONG_TO_SQLITE3_CTX_PTR a.1 = 77) ∧
    bindTransitions World.aggregating 77
      [(77, Ext.sample, ⟨0, false⟩), (77, Ext.sample, ⟨60, false⟩),
        (77, Ext.sample, ⟨61, false⟩)] ≤ 1 ∧
    bindTransitions World.aggregating 77
      [(77, Ext.sample, ⟨0, false⟩), (77, Ext.sample, ⟨60, false⟩),
        (77, Ext.sample, ⟨61, false⟩)] = 1 ∧
    emptyAccesses World.aggregating 77
      [(77, Ext.sample, ⟨0, false⟩), (77, Ext.sample, ⟨60, false⟩),
        (77, Ext.sample, ⟨61, false⟩)] = 2 ∧
    managedCalls (bindOrFetchAll World.aggregating
      [(77, Ext.sample, ⟨0, false⟩), (77, Ext.sample, ⟨60, false⟩),
        (77, Ext.sample, ⟨61, false⟩)]).2.log = [(1, 8, []), (1, 8, [])] ∧
    (bindOrFetchAll World.aggregating
      [(77, Ext.sample, ⟨0, false⟩), (77, Ext.sample, ⟨60, false⟩),
        (77, Ext.sample, ⟨61, false⟩)]).1 = [0, 60, 3] ∧
    World.bound.aggregate 77 = some 3 ∧ (3 : JObject) ≠ 0 ∧
    (bindOrFetchAll World.bound
      [(77, Ext.sample, ⟨61, false⟩), (77, Ext.sample, ⟨0, true⟩)]).1 = [3, 3] ∧
    managedCalls (bindOrFetchAll World.bound
      [(77, Ext.sample, ⟨61, false⟩), (77, Ext.sample, ⟨0, true⟩)]).2.log =
      managedCalls World.bound.log :=
  ⟨by decide,
    (C16_at_most_one_bind 77 [(77, Ext.sample, ⟨0, false⟩), (77, Ext.sample, ⟨60, false⟩),
      (77, Ext.sample, ⟨61, false⟩)] World.aggregating (by decide)).1,
    by decide, by decide,
    (C16_at_most_one_bind 77 [(77, Ext.sample, ⟨0, false⟩), (77, Ext.sample, ⟨60, false⟩),
      (77, Ext.sample, ⟨61, false⟩)] World.aggregating (by decide)).2.2,
    by decide, by decide, by decide,
    ((C16_at_most_one_bind 77 [(77, Ext.sample, ⟨61, false⟩), (77, Ext.sample, ⟨0, true⟩)]
      World.bound (by decide)).2.1 3 (by decide) (by decide)).1,
    ((C16_at_most_one_bind 77 [(77, Ext.sample, ⟨61, false⟩), (77, Ext.sample, ⟨0, true⟩)]
      World.bound (by decide)).2.1 3 (by decide) (by decide)).2.1⟩

theorem bindOrFetchAll_append (l1 l2 : List (Int × Ext × Managed)) :
    ∀ w : World, bindOrFetchAll w (l1 ++ l2) =
      ((bindOrFetchAll w l1).1 ++ (bindOrFetchAll (bindOrFetchAll w l1).2 l2).1,
        (bindOrFetchAll (bindOrFetchAll w l1).2 l2).2) := by
  induction l1 with
  | nil => intro w; simp [bindOrFetchAll]
  | cons a t ih => intro w; simp [bindOrFetchAll, ih]

/-- The accesses of one group whose slot holds no reference yet: one factory
call, one weak reference, the accumulator on the first access and its weak
reference afterwards. -/
theorem bindOrFetchAll_group (w : World) (e : Ext) (pCtx : Int) (obj : JObject)
    (ms : List Managed) (he : e.block ≠ 0) (hp : w.pending = none) (ho : obj ≠ 0)
    (hs : slotBound w (JLONG_TO_SQLITE3_CTX_PTR pCtx) = false) :
    (bindOrFetchAll w (groupAccesses e (pCtx, obj, ms))).1 =
      obj :: List.replicate ms.length (w.weakCount + 1) ∧
    managedCalls (bindOrFetchAll w (groupAccesses e (pCtx, obj, ms))).2.log =
      managedCalls w.log ++
        [((w.udf_at (w.user_data (JLONG_TO_SQLITE3_CTX_PTR pCtx))).obj,
          (w.udf_at (w.user_data (JLONG_TO_SQLITE3_CTX_PTR pCtx))).cid, [])] ∧
    newWeakRefs (bindOrFetchAll w (groupAccesses e (pCtx, obj, ms))).2.log =
      newWeakRefs w.log ++ [(w.weakCount + 1, obj)] ∧
    (bindOrFetchAll w (groupAccesses e (pCtx, obj, ms))).2.aggregate =
      Function.update w.aggregate (JLONG_TO_SQLITE3_CTX_PTR pCtx) (some (w.weakCount + 1)) ∧
    (bindOrFetchAll w (groupAccesses e (pCtx, obj, ms))).2.pending = none ∧
    (bindOrFetchAll w (groupAccesses e (pCtx, obj, ms))).2.udf_at = w.udf_at ∧
    (bindOrFetchAll w (groupAccesses e (pCtx, obj, ms))).2.user_data = w.user_data := by
  have hs2 : w.aggregate (JLONG_TO_SQLITE3_CTX_PTR pCtx) = some 0 ∨
      (w.aggregate (JLONG_TO_SQLITE3_CTX_PTR pCtx) = none ∧ e.block ≠ 0) := by
    cases h : w.aggregate (JLONG_TO_SQLITE3_CTX_PTR pCtx) with
    | none => exact Or.inr ⟨rfl, he⟩
    | some r =>
      left
      have : r = 0 := by simpa [slotBound, h] using hs
      rw [this]
  have hstep := aggregate_context_bind w e pCtx obj hs2 hp ho
  have hall : ∀ a ∈ ms.map (fun m => (pCtx, e, m)),
      JLONG_TO_SQLITE3_CTX_PTR a.1 = JLONG_TO_SQLITE3_CTX_PTR pCtx := by
    intro a ha
    obtain ⟨m, _, rfl⟩ := List.mem_map.1 ha
    rfl
  obtain ⟨i1, i2, i3, i4, i5, _, i7, i8⟩ :=
    bindOrFetchAll_bound (JLONG_TO_SQLITE3_CTX_PTR pCtx) (w.weakCount + 1) (Nat.succ_ne_zero _)
      (ms.map (fun m => (pCtx, e, m)))
      (Java_org_sqlite_SQLite_sqlite3_1aggregate_1context w e ⟨obj, false⟩ pCtx 1).2
      (by rw [hstep]; simp) hall
  simp only [groupAccesses, bindOrFetchAll]
  refine ⟨?_, ?_, ?_, ?_, ?_, ?_, ?_⟩
  · rw [i1, hstep]; simp
  · rw [i2, hstep]; simp [managedCalls_append, managedCalls]
  · rw [i3, hstep]; simp [newWeakRefs_append, newWeakRefs]
  · rw [i4, hstep]
  · rw [i5, hstep]; exact hp
  · rw [i7, hstep]
  · rw [i8, hstep]

/-- The calls, weak references and results of an aggregate execution. -/
theorem aggregateRun_spec (e : Ext) (he : e.block ≠ 0)
    (groups : List (Int × JObject × List Managed)) (w : World) (hp : w.pending = none)
    (hnodup : (groups.map (fun g => JLONG_TO_SQLITE3_CTX_PTR g.1)).Nodup)
    (hempty : ∀ g ∈ groups, slotBound w (JLONG_TO_SQLITE3_CTX_PTR g.1) = false)
    (hobj : ∀ g ∈ groups, g.2.1 ≠ 0) :
    managedCalls (bindOrFetchAll w (aggregateRun e groups)).2.log =
      managedCalls w.log ++ groups.map (fun g =>
        ((w.udf_at (w.user_data (JLONG_TO_SQLITE3_CTX_PTR g.1))).obj,
          (w.udf_at (w.user_data (JLONG_TO_SQLITE3_CTX_PTR g.1))).cid, [])) ∧
    (managedCalls (bindOrFetchAll w (aggregateRun e groups)).2.log).length =
      (managedCalls w.log).length + groups.length ∧
    ∃ refs : List JObject, refs.length = groups.length ∧
      newWeakRefs (bindOrFetchAll w (aggregateRun e groups)).2.log =
        newWeakRefs w.log ++ List.zip refs (groups.map (fun g => g.2.1)) ∧
      (bindOrFetchAll w (aggregateRun e groups)).1 = groupResults refs groups := by
  induction groups generalizing w with
  | nil =>
    refine ⟨by simp [aggregateRun, bindOrFetchAll], by simp [aggregateRun, bindOrFetchAll],
      [], rfl, by simp [aggregateRun, bindOrFetchAll], ?_⟩
    simp [aggregateRun, bindOrFetchAll, groupResults]
  | cons g gs ih =>
    obtain ⟨pCtx, obj, ms⟩ := g
    obtain ⟨g1, g2, g3, g4, g5, g6, g7⟩ :=
      bindOrFetchAll_group w e pCtx obj ms he hp (hobj _ (List.mem_cons_self _ _))
        (hempty _ (List.mem_cons_self _ _))
    have hnd := List.nodup_cons.1 hnodup
    have hempty1 : ∀ g' ∈ gs,
        slotBound (bindOrFetchAll w (groupAccesses e (pCtx, obj, ms))).2
          (JLONG_TO_SQLITE3_CTX_PTR g'.1) = false := by
      intro g' hg'
      have hne : JLONG_TO_SQLITE3_CTX_PTR g'.1 ≠ JLONG_TO_SQLITE3_CTX_PTR pCtx := by
        intro h
        apply hnd.1
        show JLONG_TO_SQLITE3_CTX_PTR pCtx ∈ List.map (fun g => JLONG_TO_SQLITE3_CTX_PTR g.1) gs
        rw [← h]
        exact List.mem_map_of_mem (fun g => JLONG_TO_SQLITE3_CTX_PTR g.1) hg'
      have h0 := hempty g' (List.mem_cons_of_mem _ hg')
      simp only [slotBound, g4, Function.update_noteq hne]
      simpa [slotBound] using h0
    obtain ⟨c1, _, refs, r1, r2, r3⟩ :=
      ih (bindOrFetchAll w (groupAccesses e (pCtx, obj, ms))).2 g5 hnd.2 hempty1
        (fun g' h => hobj g' (List.mem_cons_of_mem _ h))
    have hcalls : managedCalls (bindOrFetchAll w (aggregateRun e ((pCtx, obj, ms) :: gs))).2.log =
        managedCalls w.log ++ ((pCtx, obj, ms) :: gs).map (fun g =>
          ((w.udf_at (w.user_data (JLONG_TO_SQLITE3_CTX_PTR g.1))).obj,
            (w.udf_at (w.user_data (JLONG_TO_SQLITE3_CTX_PTR g.1))).cid, [])) := by
      simp only [aggregateRun, bindOrFetchAll_append]
      rw [c1, g2, g6, g7]
      simp
    refine ⟨hcalls, ?_, (w.weakCount + 1) :: refs, ?_, ?_, ?_⟩
    · rw [hcalls]; simp
    · simp [r1]
    · simp only [aggregateRun, bindOrFetchAll_append]
      rw [r2, g3]
      simp
    · simp only [aggregateRun, bindOrFetchAll_append]
      rw [r3, g1]
      simp [groupResults]

/-- C17. An aggregate execution over groups with pairwise different
contexts, each slot holding no reference at the start, the engine supplying
every slot block, no exception pending, and a factory that returns an
object whenever it is called: the factory is called exactly once per group,
on the step target, so exactly as many times as there are groups whatever the
numbers of accesses; and there is one weak reference per group, made for that
group's accumulator, such that in every group the first access returns the
accumulator and every further access returns that weak reference, so every
access returns a reference naming the group's one accumulator. -/
theorem C17_one_factory_call_per_group (e : Ext) (he : e.block ≠ 0)
    (groups : List (Int × JObject × List Managed)) (w : World) (hp : w.pending = none)
    (hnodup : (groups.map (fun g => JLONG_TO_SQLITE3_CTX_PTR g.1)).Nodup)
    (hempty : ∀ g ∈ groups, slotBound w (JLONG_TO_SQLITE3_CTX_PTR g.1) = false)
    (hobj : ∀ g ∈ groups, g.2.1 ≠ 0) :
    managedCalls (bindOrFetchAll w (aggregateRun e groups)).2.log =
      managedCalls w.log ++ groups.map (fun g =>
        ((w.udf_at (w.user_data (JLONG_TO_SQLITE3_CTX_PTR g.1))).obj,
          (w.udf_at (w.user_data (JLONG_TO_SQLITE3_CTX_PTR g.1))).cid, [])) ∧
    (managedCalls (bindOrFetchAll w (aggregateRun e groups)).2.log).length =
      (managedCalls w.log).length + groups.length ∧
    ∃ refs : List JObject, refs.length = groups.length ∧
      (bindOrFetchAll w (aggregateRun e groups)).1 = groupResults refs groups ∧
      ∀ p ∈ List.zip refs groups,
        (p.1, p.2.2.1) ∈ newWeakRefs (bindOrFetchAll w (aggregateRun e groups)).2.log := by
  obtain ⟨h1, h2, refs, r1, r2, r3⟩ := aggregateRun_spec e he groups w hp hnodup hempty hobj
  refine ⟨h1, h2, refs, r1, r3, ?_⟩
  intro p hp2
  rw [r2, List.zip_map_right]
  exact List.mem_append_right _ (List.mem_map.2 ⟨p, hp2, rfl⟩)

/-- C17 at the concrete input of the claim: three groups with 2, 5 and 1
accesses make exactly 3 factory calls; the accesses return the accumulators
60, 70, 80 first and then their weak references 3, 4 and 5. -/
theorem C17_three_groups_witness :
    Ext.sample.block ≠ 0 ∧ World.aggregating.pending = none ∧
    managedCalls (bindOrFetchAll World.aggregating (aggregateRun Ext.sample
      [(77, 60, [⟨61, false⟩]),
        (78, 70, [⟨71, false⟩, ⟨72, false⟩, ⟨73, false⟩, ⟨74, false⟩]),
        (79, 80, [])])).2.log =
      managedCalls World.aggregating.log ++
        [(1, 8, []), (1, 8, []), (1, 8, [])] ∧
    (bindOrFetchAll World.aggregating (aggregateRun Ext.sample
      [(77, 60, [⟨61, false⟩]),
        (78, 70, [⟨71, false⟩, ⟨72, false⟩, ⟨73, false⟩, ⟨74, false⟩]),
        (79, 80, [])])).1 = [60, 3, 70, 4, 4, 4, 4, 80] :=
  ⟨by decide, by decide,
    (C17_one_factory_call_per_group Ext.sample (by decide)
      [(77, 60, [⟨61, false⟩]),
        (78, 70, [⟨71, false⟩, ⟨72, false⟩, ⟨73, false⟩, ⟨74, false⟩]),
        (79, 80, [])] World.aggregating (by decide) (by decide) (by decide) (by decide)).1,
    by decide⟩

/-- C18. Fetch-only access (`allocate = 0`): the engine is asked for the slot
with a size of 0 bytes and that request is the only effect, so no managed
call is made; the slots, allocated or not, are left as they are; and the
reference stored in the slot is returned, absent (0) when the slot was never
allocated or holds none. -/
theorem C18_fetch_only (w : World) (e : Ext) (m : Managed) (pCtx : Int) :
    (Java_org_sqlite_SQLite_sqlite3_1aggregate_1context w e m pCtx 0).1 =
      (w.aggregate (JLONG_TO_SQLITE3_CTX_PTR pCtx)).getD 0 ∧
    (Java_org_sqlite_SQLite_sqlite3_1aggregate_1context w e m pCtx 0).2.log =
      w.log ++ [Event.aggregateContext (JLONG_TO_SQLITE3_CTX_PTR pCtx) 0] ∧
    managedCalls (Java_org_sqlite_SQLite_sqlite3_1aggregate_1context w e m pCtx 0).2.log =
      managedCalls w.log ∧
    (Java_org_sqlite_SQLite_sqlite3_1aggregate_1context w e m pCtx 0).2.aggregate =
      w.aggregate := by
  cases hs : w.aggregate (JLONG_TO_SQLITE3_CTX_PTR pCtx) <;>
    simp [Java_org_sqlite_SQLite_sqlite3_1aggregate_1context, sqlite3_aggregate_context, hs,
      World.emit, managedCalls_append, managedCalls]

/-- C19 as stated fails: the slot of context 77 holds weak reference 3; a
release access deletes reference 3 and returns absent, but the slot still
holds 3, a following fetch-only access returns 3, and a second release
deletes reference 3 a second time. -/
theorem C19_release_keeps_slot_contents :
    World.bound.aggregate (JLONG_TO_SQLITE3_CTX_PTR 77) = some 3 ∧
    (Java_org_sqlite_SQLite_sqlite3_1aggregate_1context World.bound Ext.sample ⟨0, false⟩ 77
      (-1)).1 = 0 ∧
    delWeakRefs (Java_org_sqlite_SQLite_sqlite3_1aggregate_1context World.bound Ext.sample
      ⟨0, false⟩ 77 (-1)).2.log = [3] ∧
    (Java_org_sqlite_SQLite_sqlite3_1aggregate_1context World.bound Ext.sample ⟨0, false⟩ 77
      (-1)).2.aggregate (JLONG_TO_SQLITE3_CTX_PTR 77) = some 3 ∧
    (Java_org_sqlite_SQLite_sqlite3_1aggregate_1context
      (Java_org_sqlite_SQLite_sqlite3_1aggregate_1context World.bound Ext.sample ⟨0, false⟩ 77
        (-1)).2 Ext.sample ⟨0, false⟩ 77 0).1 = 3 ∧
    delWeakRefs (Java_org_sqlite_SQLite_sqlite3_1aggregate_1context
      (Java_org_sqlite_SQLite_sqlite3_1aggregate_1context World.bound Ext.sample ⟨0, false⟩ 77
        (-1)).2 Ext.sample ⟨0, false⟩ 77 (-1)).2.log = [3, 3] := by
  decide

/-- C19, amended. Release access (`allocate` neither 0 nor 1) on a slot that
holds the reference `r`: the engine is asked for the slot with a size of 0
bytes, the weak reference `r` is deleted once, absent is returned, no managed
call is made, and the contents of the slots are left as they are. -/
theorem C19_release_deletes_reference (w : World) (e : Ext) (m : Managed) (pCtx : Int)
    (allocate : Int) (r : JObject) (h0 : allocate ≠ 0) (h1 : allocate ≠ 1)
    (hs : w.aggregate (JLONG_TO_SQLITE3_CTX_PTR pCtx) = some r) :
    (Java_org_sqlite_SQLite_sqlite3_1aggregate_1context w e m pCtx allocate).1 = 0 ∧
    (Java_org_sqlite_SQLite_sqlite3_1aggregate_1context w e m pCtx allocate).2.log =
      w.log ++ [Event.aggregateContext (JLONG_TO_SQLITE3_CTX_PTR pCtx) 0, Event.delWeakRef r] ∧
    (Java_org_sqlite_SQLite_sqlite3_1aggregate_1context w e m pCtx allocate).2.aggregate =
      w.aggregate := by
  simp [Java_org_sqlite_SQLite_sqlite3_1aggregate_1context, sqlite3_aggregate_context, hs, h0,
    h1, DEL_WEAK_GLOBAL_REF, World.emit]

/-- C19 amended, at a concrete input: the release access on the slot of
context 77, which holds weak reference 3. -/
theorem C19_release_witness :
    ((-1 : Int) ≠ 0) ∧ ((-1 : Int) ≠ 1) ∧
    World.bound.aggregate (JLONG_TO_SQLITE3_CTX_PTR 77) = some 3 ∧
    (Java_org_sqlite_SQLite_sqlite3_1aggregate_1context World.bound Ext.sample ⟨0, false⟩ 77
      (-1)).2.log =
      World.bound.log ++ [Event.aggregateContext (JLONG_TO_SQLITE3_CTX_PTR 77) 0,
        Event.delWeakRef 3] :=
  ⟨by decide, by decide, by decide,
    (C19_release_deletes_reference World.bound Ext.sample ⟨0, false⟩ 77 (-1) 3 (by decide)
      (by decide) (by decide)).2.1⟩

/-- C20. For every table and cursor type and whatever the local variable held
before, the module `EponymousOnlyModule` returns has version 1, null create
and destroy slots, and non-null connect, best-index, disconnect, open, close,
filter, next, eof, column and rowid slots. -/
theorem C20_eponymous_only_table_shape (TTable : Type) (TCursor : Type)
    (m : sqlite3_module TTable TCursor) :
    (EponymousOnlyModule TTable TCursor m).iVersion = 1 ∧
    (EponymousOnlyModule TTable TCursor m).xCreate = none ∧
    (EponymousOnlyModule TTable TCursor m).xDestroy = none ∧
    (EponymousOnlyModule TTable TCursor m).xConnect ≠ none ∧
    (EponymousOnlyModule TTable TCursor m).xBestIndex ≠ none ∧
    (EponymousOnlyModule TTable TCursor m).xDisconnect ≠ none ∧
    (EponymousOnlyModule TTable TCursor m).xOpen ≠ none ∧
    (EponymousOnlyModule TTable TCursor m).xClose ≠ none ∧
    (EponymousOnlyModule TTable TCursor m).xFilter ≠ none ∧
    (EponymousOnlyModule TTable TCursor m).xNext ≠ none ∧
    (EponymousOnlyModule TTable TCursor m).xEof ≠ none ∧
    (EponymousOnlyModule TTable TCursor m).xColumn ≠ none ∧
    (EponymousOnlyModule TTable TCursor m).xRowid ≠ none := by
  simp [EponymousOnlyModule]


/-! ## The virtual-table shim -/

/-- `EponymousOnlyModule` writes none of the seven remaining version-1 slots:
each holds what the local variable held before. -/
theorem EponymousOnlyModule_unassigned (TTable : Type) (TCursor : Type)
    (m : sqlite3_module TTable TCursor) :
    (EponymousOnlyModule TTable TCursor m).xUpdate = m.xUpdate ∧
    (EponymousOnlyModule TTable TCursor m).xBegin = m.xBegin ∧
    (EponymousOnlyModule TTable TCursor m).xSync = m.xSync ∧
    (EponymousOnlyModule TTable TCursor m).xCommit = m.xCommit ∧
    (EponymousOnlyModule TTable TCursor m).xRollback = m.xRollback ∧
    (EponymousOnlyModule TTable TCursor m).xFindFunction = m.xFindFunction ∧
    (EponymousOnlyModule TTable TCursor m).xRename = m.xRename := by
  simp [EponymousOnlyModule]

/-- C21 fails on the code. When the uninitialized local `m` holds stray
bytes, the module `EponymousOnlyModule` returns still holds them in the
update, begin, sync, commit, rollback, find-function and rename slots: none
of the seven is null, while the create and destroy slots, which are assigned,
are null. -/
theorem C21_unassigned_slots_not_null :
    (EponymousOnlyModule Unit Unit (sqlite3_module.stray Unit Unit)).xUpdate
      = some (ModuleFn.other 57005) ∧
    (EponymousOnlyModule Unit Unit (sqlite3_module.stray Unit Unit)).xBegin
      = some (ModuleFn.other 57005) ∧
    (EponymousOnlyModule Unit Unit (sqlite3_module.stray Unit Unit)).xSync
      = some (ModuleFn.other 57005) ∧
    (EponymousOnlyModule Unit Unit (sqlite3_module.stray Unit Unit)).xCommit
      = some (ModuleFn.other 57005) ∧
    (EponymousOnlyModule Unit Unit (sqlite3_module.stray Unit Unit)).xRollback
      = some (ModuleFn.other 57005) ∧
    (EponymousOnlyModule Unit Unit (sqlite3_module.stray Unit Unit)).xFindFunction
      = some (ModuleFn.other 57005) ∧
    (EponymousOnlyModule Unit Unit (sqlite3_module.stray Unit Unit)).xRename
      = some (ModuleFn.other 57005) ∧
    (EponymousOnlyModule Unit Unit (sqlite3_module.stray Unit Unit)).xCreate = none ∧
    (EponymousOnlyModule Unit Unit (sqlite3_module.stray Unit Unit)).xDestroy = none := by
  decide


theorem destroys_append (a b : List VEvent) : destroys (a ++ b) = destroys a ++ destroys b := by
  induction a with
  | nil => rfl
  | cons x xs ih => cases x <;> simp [destroys, ih]

theorem virtualCalls_append (a b : List VEvent) :
    virtualCalls (a ++ b) = virtualCalls a ++ virtualCalls b := by
  induction a with
  | nil => rfl
  | cons x xs ih => cases x <;> simp [virtualCalls, ih]

theorem constructs_append (a b : List VEvent) :
    constructs (a ++ b) = constructs a ++ constructs b := by
  induction a with
  | nil => rfl
  | cons x xs ih => cases x <;> simp [constructs, ih]

/-- C22. One call of the connect lambda, `new TTable()` yielding `table` and
`Connect` returning `res`: exactly one object is constructed, `Connect` is
called once, on it, with the engine's database, auxiliary pointer, argument
count, argument vector and error cell in that order, and `res` is returned.
When `res` is not `SQLITE_OK` the object is destroyed (once, after the call)
and no output cell is written; when it is `SQLITE_OK` nothing is destroyed
and the output cell `tab`, and no other, is set to the new table. -/
theorem C22_connect_lambda (w : VWorld) (table : Ptr) (res : Int) (xdb : Ptr) (arg : Ptr)
    (argc : Int) (argv : Ptr) (tab : Ptr) (pzErr : Ptr) :
    (EponymousOnlyModule.xConnect w table res xdb arg argc argv tab pzErr).1 = res ∧
    (EponymousOnlyModule.xConnect w table res xdb arg argc argv tab pzErr).2.log =
      w.log ++ [VEvent.construct table,
        VEvent.call VMethod.Connect table [xdb, arg, argc, argv, pzErr]] ++
        (if res ≠ SQLITE_OK then [VEvent.destroy table] else []) ∧
    constructs (EponymousOnlyModule.xConnect w table res xdb arg argc argv tab pzErr).2.log =
      constructs w.log ++ [table] ∧
    virtualCalls (EponymousOnlyModule.xConnect w table res xdb arg argc argv tab pzErr).2.log =
      virtualCalls w.log ++
        [(VMethod.Connect, table, ([(xdb : Int), arg, argc, argv, pzErr] : List Int))] ∧
    (res ≠ SQLITE_OK →
      (EponymousOnlyModule.xConnect w table res xdb arg argc argv tab pzErr).2.cell = w.cell ∧
      destroys (EponymousOnlyModule.xConnect w table res xdb arg argc argv tab pzErr).2.log =
        destroys w.log ++ [table]) ∧
    (res = SQLITE_OK →
      (EponymousOnlyModule.xConnect w table res xdb arg argc argv tab pzErr).2.cell =
        Function.update w.cell tab table ∧
      destroys (EponymousOnlyModule.xConnect w table res xdb arg argc argv tab pzErr).2.log =
        destroys w.log) := by
  by_cases h : res = SQLITE_OK <;>
    simp [EponymousOnlyModule.xConnect, virtualCall, VWorld.emit, h, constructs_append,
      constructs, virtualCalls_append, virtualCalls, destroys_append, destroys]

/-- C23. Each of the nine forwarding lambdas makes exactly one virtual call:
the method of its slot, on the handle it was given, with the engine's
arguments in the engine's order, and returns what the method returned
(`res` for a method of the concrete class, `SQLITE_OK` from the inherited
`Disconnect` or `Close`). Column and row id forward like the others, reading
nothing of the cursor. -/
theorem C23_forwarding_lambdas (w : VWorld) (res : Int) (T : TableClass) (C : CursorClass)
    (t : Ptr) (c : Ptr) (info : Ptr) (ppCursor : Ptr) (idxNum : Int) (idxStr : Ptr)
    (argc : Int) (argv : Ptr) (ctx : Ptr) (colno : Int) (pRowid : Ptr) :
    ((EponymousOnlyModule.xBestIndex w res t info).1 = res ∧
      (EponymousOnlyModule.xBestIndex w res t info).2.log =
        w.log ++ [VEvent.call VMethod.BestIndex t [info]]) ∧
    ((EponymousOnlyModule.xDisconnect T w res t).1 =
        (if T.overridesDisconnect then res else SQLITE_OK) ∧
      virtualCalls (EponymousOnlyModule.xDisconnect T w res t).2.log =
        virtualCalls w.log ++ [(VMethod.Disconnect, t, [])]) ∧
    ((EponymousOnlyModule.xOpen w res t ppCursor).1 = res ∧
      (EponymousOnlyModule.xOpen w res t ppCursor).2.log =
        w.log ++ [VEvent.call VMethod.Open t [ppCursor]]) ∧
    ((EponymousOnlyModule.xClose C w res c).1 =
        (if C.overridesClose then res else SQLITE_OK) ∧
      virtualCalls (EponymousOnlyModule.xClose C w res c).2.log =
        virtualCalls w.log ++ [(VMethod.Close, c, [])]) ∧
    ((EponymousOnlyModule.xFilter w res c idxNum idxStr argc argv).1 = res ∧
      (EponymousOnlyModule.xFilter w res c idxNum idxStr argc argv).2.log =
        w.log ++ [VEvent.call VMethod.Filter c [idxNum, idxStr, argc, argv]]) ∧
    ((EponymousOnlyModule.xNext w res c).1 = res ∧
      (EponymousOnlyModule.xNext w res c).2.log = w.log ++ [VEvent.call VMethod.Next c []]) ∧
    ((EponymousOnlyModule.xEof w res c).1 = res ∧
      (EponymousOnlyModule.xEof w res c).2.log = w.log ++ [VEvent.call VMethod.Eof c []]) ∧
    ((EponymousOnlyModule.xColumn w res c ctx colno).1 = res ∧
      (EponymousOnlyModule.xColumn w res c ctx colno).2.log =
        w.log ++ [VEvent.call VMethod.Column c [ctx, colno]]) ∧
    ((EponymousOnlyModule.xRowid w res c pRowid).1 = res ∧
      (EponymousOnlyModule.xRowid w res c pRowid).2.log =
        w.log ++ [VEvent.call VMethod.RowId c [pRowid]]) := by
  refine ⟨⟨rfl, rfl⟩, ⟨?_, ?_⟩, ⟨rfl, rfl⟩, ⟨?_, ?_⟩, ⟨rfl, rfl⟩, ⟨rfl, rfl⟩, ⟨rfl, rfl⟩,
    ⟨rfl, rfl⟩, ⟨rfl, rfl⟩⟩
  · cases h : T.overridesDisconnect <;>
      simp [EponymousOnlyModule.xDisconnect, TableClass.Disconnect, VirtualTable.Disconnect,
        virtualCall, h]
  · cases h : T.overridesDisconnect <;>
      simp [EponymousOnlyModule.xDisconnect, TableClass.Disconnect, VirtualTable.Disconnect,
        virtualCall, VWorld.emit, h, virtualCalls_append, virtualCalls]
  · cases h : C.overridesClose <;>
      simp [EponymousOnlyModule.xClose, CursorClass.Close, VirtualTableCursor.Close,
        virtualCall, h]
  · cases h : C.overridesClose <;>
      simp [EponymousOnlyModule.xClose, CursorClass.Close, VirtualTableCursor.Close,
        virtualCall, VWorld.emit, h, virtualCalls_append, virtualCalls]

/-- C24. The default `Disconnect` and the default `Close` destroy the object
they are called on exactly once and return `SQLITE_OK`; so do the disconnect
and close lambdas for a table class that does not override `Disconnect` and
a cursor class that does not override `Close`. -/
theorem C24_default_release (w : VWorld) (res : Int) (this : Ptr) :
    ((VirtualTable.Disconnect w this).1 = SQLITE_OK ∧
      (VirtualTable.Disconnect w this).2.log = w.log ++ [VEvent.destroy this]) ∧
    ((VirtualTableCursor.Close w this).1 = SQLITE_OK ∧
      (VirtualTableCursor.Close w this).2.log = w.log ++ [VEvent.destroy this]) ∧
    ((EponymousOnlyModule.xDisconnect ⟨false⟩ w res this).1 = SQLITE_OK ∧
      destroys (EponymousOnlyModule.xDisconnect ⟨false⟩ w res this).2.log =
        destroys w.log ++ [this]) ∧
    ((EponymousOnlyModule.xClose ⟨false⟩ w res this).1 = SQLITE_OK ∧
      destroys (EponymousOnlyModule.xClose ⟨false⟩ w res this).2.log =
        destroys w.log ++ [this]) := by
  refine ⟨⟨rfl, rfl⟩, ⟨rfl, rfl⟩, ⟨rfl, ?_⟩, ⟨rfl, ?_⟩⟩
  · simp [EponymousOnlyModule.xDisconnect, TableClass.Disconnect, VirtualTable.Disconnect,
      VWorld.emit, destroys_append, destroys]
  · simp [EponymousOnlyModule.xClose, CursorClass.Close, VirtualTableCursor.Close,
      VWorld.emit, destroys_append, destroys]


/-! ## create_function -/

theorem create_udf_callback_context_ok (w : World) (blk : Ptr) (mid : JMethodID)
    (cid : JMethodID) (obj : JObject) (fid : JMethodID) (fobj : JObject) (hb : blk ≠ 0)
    (ho : obj ≠ 0) :
    create_udf_callback_context w blk mid cid obj fid fobj =
      (blk, { w with
        udf_at := Function.update w.udf_at blk
          ⟨w.javaVM, mid, cid, w.weakCount + 1, fid, if fobj = 0 then 0 else w.weakCount + 2⟩
        weakCount := if fobj = 0 then w.weakCount + 1 else w.weakCount + 2
        log := w.log ++ (Event.malloc blk :: Event.newWeakRef (w.weakCount + 1) obj ::
          (if fobj = 0 then [] else [Event.newWeakRef (w.weakCount + 2) fobj])) }) := by
  by_cases hf : fobj = 0 <;>
    simp [create_udf_callback_context, sqlite3_malloc, WEAK_GLOBAL_REF, World.emit, hb, ho, hf]

/-- C25. create_function, the function name converted and every lookup and
the allocation it makes successful. The engine is called once: with
`func_or_step` as scalar function exactly when a scalar target is given, as
step exactly when a step target is given, `final_step` exactly when a
finalizer target is given, `free_udf_callback_context` as destructor always,
and as user data the new context when a scalar or step target is given and
`NULL` when both are absent. The new context holds the step method, a weak
reference to the scalar target when present and else to the step target, the
group-factory method exactly when a step target is given, and the finalizer
method and a weak reference to the finalizer exactly when a finalizer target
is given. -/
theorem C25_create_function_registration (w : World) (e : Ext) (pDb : Int)
    (functionName : JObject) (nArg : Int) (eTextRep : Int) (xFunc : JObject) (xStep : JObject)
    (xFinal : JObject) (hc : e.chars ≠ 0) (hm : e.mid ≠ 0) (hcid : e.cid ≠ 0)
    (hfid : e.fid ≠ 0) (hb : e.block ≠ 0) :
    (∃ evs,
      (Java_org_sqlite_SQLite_sqlite3_1create_1function_1v2 w e pDb functionName nArg eTextRep
        xFunc xStep xFinal).2.log = w.log ++ evs ∧
      engineCalls evs =
        [Event.createFunction (JLONG_TO_SQLITE3_PTR pDb) e.chars nArg eTextRep
          (if xFunc = 0 ∧ xStep = 0 then 0 else e.block)
          (if xFunc = 0 then none else some Trampoline.func_or_step)
          (if xStep = 0 then none else some Trampoline.func_or_step)
          (if xFinal = 0 then none else some Trampoline.final_step)
          (some Trampoline.free_udf_callback_context) e.rc] ∧
      newWeakRefs evs =
        (if xFunc = 0 ∧ xStep = 0 then []
         else (w.weakCount + 1, if xFunc = 0 then xStep else xFunc) ::
          (if xFinal = 0 then [] else [(w.weakCount + 2, xFinal)]))) ∧
    (¬ (xFunc = 0 ∧ xStep = 0) →
      (Java_org_sqlite_SQLite_sqlite3_1create_1function_1v2 w e pDb functionName nArg eTextRep
        xFunc xStep xFinal).2.udf_at e.block =
        ⟨w.javaVM, e.mid, if xStep = 0 then 0 else e.cid, w.weakCount + 1,
          if xFinal = 0 then 0 else e.fid, if xFinal = 0 then 0 else w.weakCount + 2⟩) := by
  by_cases hf : xFunc = 0 <;> by_cases hs : xStep = 0 <;> by_cases hl : xFinal = 0 <;>
    simp [Java_org_sqlite_SQLite_sqlite3_1create_1function_1v2, GetStringUTFChars, hc, hf, hs,
      hl, GetMethodID, hm, hcid, hfid, hb, create_udf_callback_context_ok,
      create_function_register, sqlite3_create_function_v2, ReleaseStringUTFChars, World.emit,
      engineCalls, Event.isEngineCall, newWeakRefs_append, newWeakRefs]


/-- C25 at a concrete input: an aggregate with step target 11 and finalizer
target 12 and no scalar target, registered on the initial world. The context
at block 4096 holds the step method, the group-factory method, a weak
reference to the step target, the finalizer method and a weak reference to
the finalizer. -/
theorem C25_create_function_registration_witness :
    Ext.sample.chars ≠ 0 ∧ Ext.sample.mid ≠ 0 ∧ Ext.sample.cid ≠ 0 ∧ Ext.sample.fid ≠ 0 ∧
    Ext.sample.block ≠ 0 ∧ ¬ ((0 : JObject) = 0 ∧ (11 : JObject) = 0) ∧
    (Java_org_sqlite_SQLite_sqlite3_1create_1function_1v2 World.init Ext.sample 1 40 1 1
      0 11 12).2.udf_at Ext.sample.block =
      ⟨World.init.javaVM, Ext.sample.mid, if (11 : JObject) = 0 then 0 else Ext.sample.cid,
        World.init.weakCount + 1, if (12 : JObject) = 0 then 0 else Ext.sample.fid,
        if (12 : JObject) = 0 then 0 else World.init.weakCount + 2⟩ :=
  ⟨by decide, by decide, by decide, by decide, by decide, by decide,
    (C25_create_function_registration World.init Ext.sample 1 40 1 1 0 11 12 (by decide)
      (by decide) (by decide) (by decide) (by decide)).2 (by decide)⟩

/-! ## Signature mismatch in the integer-returning setters -/

/-- C27 fails on the code. With no matching method on the handler class
(`GetMethodID` answers 0), the busy setter called with a handler returns 0,
the engine success code, after raising the exception and without calling the
engine, while the log setter returns -1, the authorizer setter `SQLITE_NOMEM`
and create_function -1. -/
theorem C27_busy_setter_mismatch_returns_success :
    Ext.mismatch.mid = 0 ∧
    (Java_org_sqlite_SQLite_sqlite3_1busy_1handler World.init Ext.mismatch 1 10 30).1
      = SQLITE_OK ∧
    (Java_org_sqlite_SQLite_sqlite3_1busy_1handler World.init Ext.mismatch 1 10 30).2.pending
      ≠ none ∧
    engineCalls
      (Java_org_sqlite_SQLite_sqlite3_1busy_1handler World.init Ext.mismatch 1 10 30).2.log
      = [] ∧
    (Java_org_sqlite_SQLite_sqlite3_1config__ILorg_sqlite_SQLite_LogCallback_2 World.init
      Ext.mismatch 16 10).1 = -1 ∧
    (Java_org_sqlite_SQLite_sqlite3_1set_1authorizer World.init Ext.mismatch 1 10 30).1
      = SQLITE_NOMEM ∧
    (Java_org_sqlite_SQLite_sqlite3_1create_1function_1v2 World.init Ext.mismatch 1 40 1 1
      10 0 0).1 = -1 := by
  decide


/-! ## load_extension -/

/-- C26 fails on the code. A load_extension call whose file name converts
to the native string at address 512 returns `SQLITE_NOMEM` without calling
the engine, without releasing the native string and with no exception
pending; a call whose file name conversion fails goes on and calls the
engine once, with `NULL` as file name, and returns the engine's code. -/
theorem C26_load_extension_inverted_tests :
    LoadExt.sample.zFile ≠ 0 ∧
    (Java_org_sqlite_SQLite_sqlite3_1load_1extension World.init LoadExt.sample 1 20 0 30).1
      = SQLITE_NOMEM ∧
    loadCalls
      (Java_org_sqlite_SQLite_sqlite3_1load_1extension World.init LoadExt.sample 1 20 0 30).2.log
      = [] ∧
    (Java_org_sqlite_SQLite_sqlite3_1load_1extension World.init LoadExt.sample 1 20 0 30).2.log
      = [Event.getStringUTFChars 20 512] ∧
    (Java_org_sqlite_SQLite_sqlite3_1load_1extension World.init LoadExt.sample 1 20 0
      30).2.pending = none ∧
    LoadExt.oom.zFile = 0 ∧
    loadCalls
      (Java_org_sqlite_SQLite_sqlite3_1load_1extension World.init LoadExt.oom 1 20 0 30).2.log
      = [(1, 0, 0)] ∧
    (Java_org_sqlite_SQLite_sqlite3_1load_1extension World.init LoadExt.oom 1 20 0 30).1
      = LoadExt.oom.rc := by
  decide

/-! ## Release of the function name -/

/-- C30 fails on the code. create_function called with a scalar target whose
class has no matching step method converts the function name to the native
string at address 512 and returns -1 without releasing it; the same holds
when the group-factory method of a step target is missing and when the
method of a finalizer target is missing. On allocation failure and on the
normal path the native string is released once. -/
theorem C30_name_not_released_on_mismatch :
    (Java_org_sqlite_SQLite_sqlite3_1create_1function_1v2 World.init Ext.mismatch 1 40 1 1
      10 0 0).1 = -1 ∧
    stringConversions (Java_org_sqlite_SQLite_sqlite3_1create_1function_1v2 World.init
      Ext.mismatch 1 40 1 1 10 0 0).2.log = [(40, 512)] ∧
    stringReleases (Java_org_sqlite_SQLite_sqlite3_1create_1function_1v2 World.init
      Ext.mismatch 1 40 1 1 10 0 0).2.log = [] ∧
    (Java_org_sqlite_SQLite_sqlite3_1create_1function_1v2 World.init Ext.noFactory 1 40 1 1
      0 11 0).1 = -1 ∧
    stringConversions (Java_org_sqlite_SQLite_sqlite3_1create_1function_1v2 World.init
      Ext.noFactory 1 40 1 1 0 11 0).2.log = [(40, 512)] ∧
    stringReleases (Java_org_sqlite_SQLite_sqlite3_1create_1function_1v2 World.init
      Ext.noFactory 1 40 1 1 0 11 0).2.log = [] ∧
    (Java_org_sqlite_SQLite_sqlite3_1create_1function_1v2 World.init Ext.noFinalizer 1 40 1 1
      0 11 12).1 = -1 ∧
    stringConversions (Java_org_sqlite_SQLite_sqlite3_1create_1function_1v2 World.init
      Ext.noFinalizer 1 40 1 1 0 11 12).2.log = [(40, 512)] ∧
    stringReleases (Java_org_sqlite_SQLite_sqlite3_1create_1function_1v2 World.init
      Ext.noFinalizer 1 40 1 1 0 11 12).2.log = [] ∧
    stringReleases (Java_org_sqlite_SQLite_sqlite3_1create_1function_1v2 World.init
      Ext.oom 1 40 1 1 10 0 0).2.log = [(40, 512)] ∧
    stringReleases (Java_org_sqlite_SQLite_sqlite3_1create_1function_1v2 World.init
      Ext.sample 1 40 1 1 10 0 0).2.log = [(40, 512)] := by
  decide


/-! ## Text lengths in prepare and bind_text -/

/-- The byte length `prepare` and `bind_text` compute is twice the number of
code units when that fits the 32-bit signed type. -/
theorem toJsize_length (us : List Nat) (hn : 2 * us.length < 2 ^ 31) :
    toJsize ((GetStringLength us * sizeof_jchar) % 2 ^ 64) = 2 * (us.length : Int) := by
  unfold toJsize GetStringLength sizeof_jchar
  omega

/-- The number of code units `prepare` passes to `NewString` for a tail at
even byte offset `k` of a text of `n` code units at address `c`. -/
theorem tail_count (n : Nat) (k : Nat) (c : Nat) (hn : 2 * n < 2 ^ 31) (hk : k % 2 = 0)
    (hkn : k ≤ 2 * n) :
    (toJsize ((toPtrdiff (2 * (n : Int) - toPtrdiff (((c + k : Nat) : Int) - (c : Int))) % 2 ^ 64)
      / sizeof_jchar)).toNat = n - k / 2 := by
  have h1 : ((c + k : Nat) : Int) - (c : Int) = (k : Int) := by push_cast; ring
  have h2 : toPtrdiff (k : Int) = (k : Int) := by unfold toPtrdiff; omega
  have h3 : toPtrdiff (2 * (n : Int) - (k : Int)) = 2 * (n : Int) - (k : Int) := by
    unfold toPtrdiff; omega
  have h4 : (2 * (n : Int) - (k : Int)) % 2 ^ 64 = 2 * (n : Int) - (k : Int) :=
    Int.emod_eq_of_lt (by omega) (by omega)
  rw [h1, h2, h3, h4]
  unfold toJsize sizeof_jchar
  omega

/-- Reading from even byte offset `k` of a handed-out string up to its end
gives the string without its first `k / 2` code units. -/
theorem readUnits_pinned (z : Nat) (us : List Nat) (k : Nat) (hk : k % 2 = 0) :
    readUnits (pinned z us) (z + k) (us.length - k / 2) = us.drop (k / 2) := by
  apply List.ext_getElem
  · simp [readUnits]
  · intro j h1 h2
    have hj : k / 2 + j < us.length := by
      simp [readUnits] at h1
      omega
    have he : (z + k + 2 * j - z) % 2 = 0 := by omega
    have hd : (z + k + 2 * j - z) / 2 = k / 2 + j := by omega
    have hle : ¬ (z + k + 2 * j < z) := by omega
    simp [readUnits, pinned, he, hd, List.getD_eq_getElem, hj, hle]

/-- C28. prepare on a string of `n` code units whose characters are handed
out, with a tail array given. When `2 * n` fits the 32-bit signed length type
and the engine reports the tail at even byte offset `k ≤ 2 * n` of the text,
the string made for the tail holds the code units of the SQL string from
unit `k / 2` on, `n - k / 2` of them, so that the first `k / 2` units followed
by the tail are the SQL string; a reference to it is stored in element 0 of
the tail array and the engine's code is returned. When the engine reports no
tail, `null` is stored. -/
theorem C28_prepare_tail (w : World) (x : StmtExt) (pDb : Int) (sql : JObject) (us : List Nat)
    (nByte : Int) (ppStmt : JObject) (pTail : JObject) (hz : x.critical ≠ 0)
    (hp : pTail ≠ 0) :
    (∀ k : Nat, 2 * us.length < 2 ^ 31 → k % 2 = 0 → k ≤ 2 * us.length →
      x.zTail = x.critical + k → x.tail ≠ 0 →
      (Java_org_sqlite_SQLite_sqlite3_1prepare_1v2 w x pDb sql us nByte ppStmt pTail).2.log =
        w.log ++ [Event.getStringCritical sql x.critical,
          Event.prepare16 (JLONG_TO_SQLITE3_PTR pDb) x.critical (2 * (us.length : Int)) x.pStmt
            x.zTail x.rc,
          Event.setLongArrayRegion ppStmt (PTR_TO_JLONG x.pStmt),
          Event.newString x.tail (us.drop (k / 2)),
          Event.setObjectArrayElement pTail (Element.ref x.tail),
          Event.deleteLocalRef x.tail,
          Event.releaseStringCritical sql x.critical] ∧
      (us.drop (k / 2)).length = us.length - k / 2 ∧
      us.take (k / 2) ++ us.drop (k / 2) = us ∧
      (Java_org_sqlite_SQLite_sqlite3_1prepare_1v2 w x pDb sql us nByte ppStmt pTail).1 = x.rc) ∧
    (x.zTail = 0 →
      (Java_org_sqlite_SQLite_sqlite3_1prepare_1v2 w x pDb sql us nByte ppStmt pTail).2.log =
        w.log ++ [Event.getStringCritical sql x.critical,
          Event.prepare16 (JLONG_TO_SQLITE3_PTR pDb) x.critical
            (toJsize ((GetStringLength us * sizeof_jchar) % 2 ^ 64)) x.pStmt 0 x.rc,
          Event.setLongArrayRegion ppStmt (PTR_TO_JLONG x.pStmt),
          Event.setObjectArrayElement pTail Element.null,
          Event.releaseStringCritical sql x.critical] ∧
      (Java_org_sqlite_SQLite_sqlite3_1prepare_1v2 w x pDb sql us nByte ppStmt pTail).1 =
        x.rc) := by
  constructor
  · intro k hn hk hkn ht hs
    have hlen := toJsize_length us hn
    have hcnt := tail_count us.length k x.critical hn hk hkn
    have hrd := readUnits_pinned x.critical us k hk
    simp only [Java_org_sqlite_SQLite_sqlite3_1prepare_1v2, GetStringCritical, hz, if_false,
      sqlite3_prepare16_v2, SetLongArrayRegion, NewString, hs, ht, hlen, hcnt, hrd,
      SetObjectArrayElement, DeleteLocalRef, ReleaseStringCritical, World.emit, ne_eq, hp,
      not_false_eq_true, if_true]
    simp [hz]
  · intro ht
    simp [Java_org_sqlite_SQLite_sqlite3_1prepare_1v2, GetStringCritical, hz, hp,
      sqlite3_prepare16_v2, SetLongArrayRegion, ht, SetObjectArrayElement,
      ReleaseStringCritical, World.emit]


/-- C28 at a concrete input: prepare on the four code units of `S; T` handed
out at address 1000, the engine reporting the tail at byte offset 4, stores
a reference to the string of the two code units of ` T`; when the engine
reports no tail, `null` is stored. -/
theorem C28_prepare_tail_witness :
    StmtExt.sample.critical ≠ 0 ∧ (61 : JObject) ≠ 0 ∧
    2 * [83, 59, 32, 84].length < 2 ^ 31 ∧ 4 % 2 = 0 ∧ 4 ≤ 2 * [83, 59, 32, 84].length ∧
    StmtExt.sample.zTail = StmtExt.sample.critical + 4 ∧ StmtExt.sample.tail ≠ 0 ∧
    (Java_org_sqlite_SQLite_sqlite3_1prepare_1v2 World.init StmtExt.sample 1 20
      [83, 59, 32, 84] (-1) 60 61).2.log =
      [Event.getStringCritical 20 1000, Event.prepare16 1 1000 8 77 1004 0,
        Event.setLongArrayRegion 60 77, Event.newString 55 [32, 84],
        Event.setObjectArrayElement 61 (Element.ref 55), Event.deleteLocalRef 55,
        Event.releaseStringCritical 20 1000] ∧
    StmtExt.whole.zTail = 0 ∧
    (Java_org_sqlite_SQLite_sqlite3_1prepare_1v2 World.init StmtExt.whole 1 20
      [83, 59, 32, 84] (-1) 60 61).2.log =
      [Event.getStringCritical 20 1000, Event.prepare16 1 1000 8 77 0 0,
        Event.setLongArrayRegion 60 77, Event.setObjectArrayElement 61 Element.null,
        Event.releaseStringCritical 20 1000] :=
  ⟨by decide, by decide, by decide, by decide, by decide, by decide, by decide,
    ((C28_prepare_tail World.init StmtExt.sample 1 20 [83, 59, 32, 84] (-1) 60 61 (by decide)
      (by decide)).1 4 (by decide) (by decide) (by decide) (by decide) (by decide)).1,
    by decide,
    ((C28_prepare_tail World.init StmtExt.whole 1 20 [83, 59, 32, 84] (-1) 60 61 (by decide)
      (by decide)).2 (by decide)).1⟩


/-- Reading a handed-out string from its start gives the string. -/
theorem readUnits_pinned_all (z : Nat) (us : List Nat) :
    readUnits (pinned z us) z us.length = us := by
  simpa using readUnits_pinned z us 0 rfl

/-- With a string given whose computed byte length is not positive, bind_text
binds the text of the literal `""` with byte length 0. -/
theorem bind_text_not_positive (w : World) (x : StmtExt) (pStmt : Int) (i : Int)
    (v : JObject) (us : List Nat) (n : Int) (hv : v ≠ 0)
    (h : ¬ toJsize ((GetStringLength us * sizeof_jchar) % 2 ^ 64) > 0) :
    Java_org_sqlite_SQLite_sqlite3_1bind_1text w x pStmt i v us n =
      sqlite3_bind_text16 w x.rc (fun _ => 0) (JLONG_TO_SQLITE3_STMT_PTR pStmt) i x.literal 0
        false := by
  simp only [Java_org_sqlite_SQLite_sqlite3_1bind_1text, hv, if_false, h]

/-- C29 as stated fails. For the string of `2 ^ 30` code units `a`, within
the claimed range, the byte length computed in the 32-bit signed type is
`-2 ^ 31`, and bind_text binds the empty text with byte length 0. -/
theorem C29_long_string_binds_empty_text :
    (List.replicate (2 ^ 30) 97).length ≤ 2 ^ 31 - 1 ∧
    (List.replicate (2 ^ 30) 97).length ≠ 0 ∧
    toJsize ((GetStringLength (List.replicate (2 ^ 30) 97) * sizeof_jchar) % 2 ^ 64)
      = -2 ^ 31 ∧
    (Java_org_sqlite_SQLite_sqlite3_1bind_1text World.init StmtExt.bind 77 1 20
      (List.replicate (2 ^ 30) 97) (-1)).2.log = [Event.bindText16 77 1 [] 0 false 0] := by
  have hl : toJsize ((GetStringLength (List.replicate (2 ^ 30) 97) * sizeof_jchar) % 2 ^ 64)
      = -2 ^ 31 := by
    unfold GetStringLength
    rw [List.length_replicate]
    decide
  refine ⟨?_, ?_, hl, ?_⟩
  · rw [List.length_replicate]
    decide
  · rw [List.length_replicate]
    decide
  · rw [bind_text_not_positive World.init StmtExt.bind 77 1 20 _ (-1) (by decide)
      (by rw [hl]; decide)]
    decide

/-- C29 amended. bind_text with a string of `n` code units given, `2 * n`
fitting the 32-bit signed length type and the characters handed out: for
`n = 0` the empty text is bound, with byte length 0 and `SQLITE_STATIC`;
otherwise the code units of the string are bound with byte length `2 * n`
and `SQLITE_TRANSIENT`, between obtaining and releasing the characters; the
text bound is empty exactly when `n = 0`, and the engine's code is
returned. With no string given, NULL is bound. -/
theorem C29_bind_text (w : World) (x : StmtExt) (pStmt : Int) (i : Int) (v : JObject)
    (us : List Nat) (n : Int) (hv : v ≠ 0) (hn : 2 * us.length < 2 ^ 31)
    (hc : x.critical ≠ 0) :
    (us.length = 0 →
      (Java_org_sqlite_SQLite_sqlite3_1bind_1text w x pStmt i v us n).2.log =
        w.log ++ [Event.bindText16 (JLONG_TO_SQLITE3_STMT_PTR pStmt) i [] 0 false x.rc]) ∧
    (us.length ≠ 0 →
      (Java_org_sqlite_SQLite_sqlite3_1bind_1text w x pStmt i v us n).2.log =
        w.log ++ [Event.getStringCritical v x.critical,
          Event.bindText16 (JLONG_TO_SQLITE3_STMT_PTR pStmt) i us (2 * (us.length : Int)) true
            x.rc,
          Event.releaseStringCritical v x.critical]) ∧
    (us = [] ↔ us.length = 0) ∧
    (Java_org_sqlite_SQLite_sqlite3_1bind_1text w x pStmt i v us n).1 = x.rc ∧
    (Java_org_sqlite_SQLite_sqlite3_1bind_1text w x pStmt i 0 us n).2.log =
      w.log ++ [Event.bindNull (JLONG_TO_SQLITE3_STMT_PTR pStmt) i x.rc] ∧
    (Java_org_sqlite_SQLite_sqlite3_1bind_1text w x pStmt i 0 us n).1 = x.rc := by
  have hlen := toJsize_length us hn
  have hhalf : (2 * (us.length : Int) / 2).toNat = us.length := by omega
  have hrd := readUnits_pinned_all x.critical us
  refine ⟨?_, ?_, List.length_eq_zero.symm, ?_, ?_, ?_⟩
  · intro h0
    have hnp : ¬ toJsize ((GetStringLength us * sizeof_jchar) % 2 ^ 64) > 0 := by
      rw [hlen]; omega
    rw [bind_text_not_positive w x pStmt i v us n hv hnp]
    simp [sqlite3_bind_text16, World.emit, readUnits]
  · intro h0
    have hp : toJsize ((GetStringLength us * sizeof_jchar) % 2 ^ 64) > 0 := by
      rw [hlen]; omega
    simp only [Java_org_sqlite_SQLite_sqlite3_1bind_1text, hv, if_false, hp, if_true,
      GetStringCritical, hc, sqlite3_bind_text16, ReleaseStringCritical, World.emit, hlen,
      hhalf, hrd]
    simp [Nat.pos_of_ne_zero h0]
  · by_cases h0 : us.length = 0
    · have hnp : ¬ toJsize ((GetStringLength us * sizeof_jchar) % 2 ^ 64) > 0 := by
        rw [hlen]; omega
      rw [bind_text_not_positive w x pStmt i v us n hv hnp]
      simp [sqlite3_bind_text16]
    · have hp : toJsize ((GetStringLength us * sizeof_jchar) % 2 ^ 64) > 0 := by
        rw [hlen]; omega
      simp only [Java_org_sqlite_SQLite_sqlite3_1bind_1text, hv, if_false, hp, if_true,
        GetStringCritical, hc, sqlite3_bind_text16]
  · simp [Java_org_sqlite_SQLite_sqlite3_1bind_1text, sqlite3_bind_null, World.emit]
  · simp [Java_org_sqlite_SQLite_sqlite3_1bind_1text, sqlite3_bind_null]


/-- C29 amended, at concrete inputs: the two code units of `hi` are bound with
byte length 4, the string without code units is bound as the empty text with
byte length 0. -/
theorem C29_bind_text_witness :
    (20 : JObject) ≠ 0 ∧ 2 * [104, 105].length < 2 ^ 31 ∧ StmtExt.bind.critical ≠ 0 ∧
    [104, 105].length ≠ 0 ∧
    (Java_org_sqlite_SQLite_sqlite3_1bind_1text World.init StmtExt.bind 77 1 20 [104, 105]
      (-1)).2.log =
      [Event.getStringCritical 20 1000, Event.bindText16 77 1 [104, 105] 4 true 0,
        Event.releaseStringCritical 20 1000] ∧
    2 * ([] : List Nat).length < 2 ^ 31 ∧ ([] : List Nat).length = 0 ∧
    (Java_org_sqlite_SQLite_sqlite3_1bind_1text World.init StmtExt.bind 77 1 20 []
      (-1)).2.log = [Event.bindText16 77 1 [] 0 false 0] :=
  ⟨by decide, by decide, by decide, by decide,
    (C29_bind_text World.init StmtExt.bind 77 1 20 [104, 105] (-1) (by decide) (by decide)
      (by decide)).2.1 (by decide),
    by decide, by decide,
    (C29_bind_text World.init StmtExt.bind 77 1 20 [] (-1) (by decide) (by decide)
      (by decide)).1 (by decide)⟩

end SqliteJni
